import Mathlib

/-!
# Rasqal literals: a shallow embedding of `rasqal_literal.c`

The C functions of `src/src/rasqal_literal.c` are translated to Lean functions of the
same name.  Conventions of the embedding:

* a C string is the list of its bytes before the terminating NUL (`CString`);
  a nullable `char*` is an `Option CString`;
* `int` is an `Int` kept in the 32-bit signed range by `wrap32` where the C
  arithmetic can leave it; `long` is 64 bits wide;
* `double` is the type `Dbl` below: NaN, the two infinities, and finite values
  `m * 2^e`; arithmetic results are rounded to nearest-even binary64;
* a `rasqal_literal*` is a `rasqal_literal_ptr` (`null` or `ptr l`);
* `abort()`, fatal errors, a NULL dereference, the read of an unassigned local and
  unbounded recursion are the faults of `Fault`; a function that can reach one
  returns in `Exec`;
* an out-parameter `int *error` is threaded: the function takes the flag's value
  on entry and returns its value on exit next to the C return value.
-/

set_option maxRecDepth 4000
set_option exponentiation.threshold 1100

/-! ## C library model -/

/-- A C string: its bytes up to, and without, the terminating NUL. -/
abbrev CString := List Nat

/-- The bytes of an ASCII text. -/
def cstr (s : String) : CString := s.toList.map Char.toNat

/-- Ways in which the C code stops without returning. -/
inductive Fault
  | abort
  | fatal
  | null_deref
  | uninitialised
  | out_of_fuel
  deriving DecidableEq, Repr

/-- Result of running a C function that may stop without returning. -/
abbrev Exec (α : Type) := Except Fault α

deriving instance DecidableEq for Except

/-- Dereference of a pointer that may be NULL. -/
def deref {α : Type} : Option α → Exec α
  | some a => .ok a
  | none => .error Fault.null_deref

/-- Read of a local that has been assigned or not. -/
def assigned {α : Type} : Option α → Exec α
  | some a => .ok a
  | none => .error Fault.uninitialised

def INT_MIN : Int := -2147483648
def INT_MAX : Int := 2147483647
def LONG_MIN : Int := -9223372036854775808
def LONG_MAX : Int := 9223372036854775807

/-- Reduction of an integer to the 32-bit signed range (two's complement). -/
def wrap32 (x : Int) : Int := (x + 2147483648) % 4294967296 - 2147483648

/-- C truth value of a condition. -/
def c_bool (b : Bool) : Int := if b then 1 else 0

def isspace (c : Nat) : Bool := c == 32 || (9 ≤ c && c ≤ 13)

def isdigit (c : Nat) : Bool := 48 ≤ c && c ≤ 57

def isxdigit (c : Nat) : Bool :=
  isdigit c || (97 ≤ c && c ≤ 102) || (65 ≤ c && c ≤ 70)

def isalnum (c : Nat) : Bool :=
  isdigit c || (97 ≤ c && c ≤ 122) || (65 ≤ c && c ≤ 90)

def tolower (c : Nat) : Nat := if 65 ≤ c && c ≤ 90 then c + 32 else c

/-- Value of a hexadecimal digit. -/
def xdigit_val (c : Nat) : Nat :=
  if isdigit c then c - 48 else if 97 ≤ c then c - 87 else c - 55

/-- C `strcmp`.  C fixes only the sign of the result: the model returns -1, 0 or 1,
the order of the first two bytes that differ (the end of a string coming first). -/
def strcmp : CString → CString → Int
  | [], [] => 0
  | [], _ :: _ => -1
  | _ :: _, [] => 1
  | c :: cs, d :: ds => if c = d then strcmp cs ds else if c < d then -1 else 1

/-- Modelled from the spec: rasqal_strcasecmp, the case-insensitive comparison used when
the case-insensitive flag is set and for language tags; it is defined outside
`rasqal_literal.c`.  It is `strcmp` on the lower-cased bytes. -/
def rasqal_strcasecmp (s1 s2 : CString) : Int :=
  strcmp (s1.map tolower) (s2.map tolower)

/-- Reads a run of decimal digits, accumulating its value; returns the value and
the unread rest. -/
def scan_digits : CString → Nat → Nat × CString
  | [], acc => (acc, [])
  | c :: cs, acc =>
    if isdigit c then scan_digits cs (acc * 10 + (c - 48)) else (acc, c :: cs)

/-- Reads a run of hexadecimal digits. -/
def scan_xdigits : CString → Nat → Nat × CString
  | [], acc => (acc, [])
  | c :: cs, acc =>
    if isxdigit c then scan_xdigits cs (acc * 16 + xdigit_val c) else (acc, c :: cs)

/-- Splits an optional sign off the front of a string. -/
def scan_sign : CString → Bool × CString
  | 45 :: r => (true, r)
  | 43 :: r => (false, r)
  | s => (false, s)

/-- C `strtol(s, &eptr, 10)`: returns the value and `eptr` as the unread rest of
`s`.  When no digits are found there is no conversion and `eptr` is `s` itself.
Out-of-range values are clamped to `LONG_MIN`/`LONG_MAX`. -/
def strtol (s : CString) : Int × CString :=
  let t := s.dropWhile isspace
  let (neg, u) := scan_sign t
  match u with
  | [] => (0, s)
  | c :: _ =>
    if isdigit c then
      let (n, rest) := scan_digits u 0
      (if neg then max (-(n : Int)) LONG_MIN else min (n : Int) LONG_MAX, rest)
    else (0, s)

/-- The test `eptr != string && *eptr == 0` made after `strtol`/`strtod`: something was
consumed and nothing is left. -/
def fully_consumed (s eptr : CString) : Bool :=
  eptr.length != s.length && eptr.isEmpty

/-- C `atoi`: `(int)strtol(s, NULL, 10)`. -/
def atoi (s : CString) : Int := wrap32 (strtol s).1

/-- Decimal digits of a natural number, most significant first, put in front of
`acc`. -/
def render_nat_aux : Nat → Nat → CString → CString
  | 0, _, acc => acc
  | fuel + 1, n, acc =>
    if n < 10 then (48 + n) :: acc
    else render_nat_aux fuel (n / 10) ((48 + n % 10) :: acc)

def render_nat (n : Nat) : CString := render_nat_aux (n + 1) n []

/-- The text `sprintf(buf, "%d", n)` writes. -/
def sprintf_d (n : Int) : CString :=
  if n < 0 then 45 :: render_nat n.natAbs else render_nat n.natAbs

/-! ## Model of C `double` (IEEE 754 binary64, round to nearest even) -/

/-- A `double`: NaN, an infinity, or the finite value `m * 2^e`.  The sign of a
zero is not kept: no operation of the program observes it. -/
inductive Dbl
  | nan
  | inf (neg : Bool)
  | fin (m : Int) (e : Int)
  deriving DecidableEq, Repr

def ilog2_aux : Nat → Nat → Nat
  | 0, _ => 0
  | fuel + 1, n => if n < 2 then 0 else ilog2_aux fuel (n / 2) + 1

/-- Floor of the binary logarithm (0 at 0). -/
def ilog2 (n : Nat) : Nat := ilog2_aux n n

/-- Least magnitude that rounds to an infinity: `DBL_MAX` plus half a unit in the
last place. -/
def DBL_OVERFLOW : Nat := 2 ^ 1024 - 2 ^ 970

/-- The double nearest to the rational `num / den`, ties to even. -/
def Dbl.round (num : Int) (den : Nat) : Dbl :=
  let a := num.natAbs
  if a = 0 then Dbl.fin 0 0
  else if DBL_OVERFLOW * den ≤ a then Dbl.inf (decide (num < 0))
  else
    let l : Int := (ilog2 a : Int) - (ilog2 den : Int)
    let L : Int := if den * 2 ^ l.toNat ≤ a * 2 ^ (-l).toNat then l else l - 1
    let e : Int := max (L - 52) (-1074)
    let N := a * 2 ^ (-e).toNat
    let D := den * 2 ^ e.toNat
    let q := N / D
    let r := N % D
    let m := if 2 * r < D then q else if D < 2 * r then q + 1 else q + q % 2
    if m = 0 then Dbl.fin 0 0
    else if m = 2 ^ 53 then Dbl.fin (Int.sign num * ((2 ^ 52 : Nat) : Int)) (e + 1)
    else Dbl.fin (Int.sign num * (m : Int)) e

/-- The double nearest to `d * 2^k`. -/
def Dbl.round_scaled (d : Int) (k : Int) : Dbl :=
  Dbl.round (d * ((2 ^ k.toNat : Nat) : Int)) (2 ^ (-k).toNat)

/-- Conversion `(double)n` of an integer. -/
def Dbl.of_int (n : Int) : Dbl := Dbl.round n 1

/-- C `a - b` on doubles. -/
def Dbl.sub : Dbl → Dbl → Dbl
  | Dbl.nan, _ => Dbl.nan
  | _, Dbl.nan => Dbl.nan
  | Dbl.inf a, Dbl.inf b => if a = b then Dbl.nan else Dbl.inf a
  | Dbl.inf a, Dbl.fin _ _ => Dbl.inf a
  | Dbl.fin _ _, Dbl.inf b => Dbl.inf (!b)
  | Dbl.fin m1 e1, Dbl.fin m2 e2 =>
    let k := min e1 e2
    Dbl.round_scaled
      (m1 * ((2 ^ (e1 - k).toNat : Nat) : Int) - m2 * ((2 ^ (e2 - k).toNat : Nat) : Int)) k

/-- C `isnan`. -/
def Dbl.isnan : Dbl → Bool
  | Dbl.nan => true
  | _ => false

/-- C `d == 0.0`. -/
def Dbl.is_zero : Dbl → Bool
  | Dbl.fin m _ => m == 0
  | _ => false

/-- C `d < 0.0`. -/
def Dbl.lt_zero : Dbl → Bool
  | Dbl.fin m _ => decide (m < 0)
  | Dbl.inf neg => neg
  | Dbl.nan => false

/-- C `a == b` on doubles: a NaN equals nothing, finite values are compared by
value. -/
def Dbl.eq : Dbl → Dbl → Bool
  | Dbl.inf a, Dbl.inf b => a == b
  | Dbl.fin m1 e1, Dbl.fin m2 e2 =>
    let k := min e1 e2
    m1 * ((2 ^ (e1 - k).toNat : Nat) : Int) == m2 * ((2 ^ (e2 - k).toNat : Nat) : Int)
  | _, _ => false

/-- C `(int)d`: truncation toward zero.  The conversion is undefined in C when the
truncated value is not an `int` (also for NaN and the infinities); the model gives
`INT_MIN` there, the x86 "integer indefinite" value. -/
def Dbl.to_int : Dbl → Int
  | Dbl.fin m e =>
    let t := Int.tdiv (m * ((2 ^ e.toNat : Nat) : Int)) ((2 ^ (-e).toNat : Nat) : Int)
    if INT_MIN ≤ t ∧ t ≤ INT_MAX then t else INT_MIN
  | _ => INT_MIN

/-- Optional exponent part of a floating constant: the marker byte (either case), an
optional sign and at least one decimal digit.  Nothing is consumed when the part is
absent or incomplete. -/
def scan_exponent (u : CString) (lower upper : Nat) : Int × CString :=
  match u with
  | [] => (0, u)
  | c :: r =>
    if c = lower ∨ c = upper then
      let (neg, r2) := scan_sign r
      match r2 with
      | [] => (0, u)
      | d :: _ =>
        if isdigit d then
          let (x, rest) := scan_digits r2 0
          (if neg then -(x : Int) else (x : Int), rest)
        else (0, u)
    else (0, u)

/-- Decimal floating constant `digits [. digits] [e [sign] digits]` with at least one
digit before the exponent: returns the mantissa, the power of ten and the rest. -/
def scan_decimal (u : CString) : Option (Nat × Int × CString) :=
  let (i, r1) := scan_digits u 0
  let nint := u.length - r1.length
  match r1 with
  | 46 :: r2 =>
    let (m, r3) := scan_digits r2 i
    let nfrac := r2.length - r3.length
    if nint + nfrac = 0 then none
    else
      let (x, rest) := scan_exponent r3 101 69
      some (m, x - (nfrac : Int), rest)
  | _ =>
    if nint = 0 then none
    else
      let (x, rest) := scan_exponent r1 101 69
      some (i, x, rest)

/-- Hexadecimal floating constant `0x hexdigits [. hexdigits] [p [sign] digits]`:
returns the mantissa, the power of two and the rest. -/
def scan_hex (u : CString) : Option (Nat × Int × CString) :=
  match u with
  | 48 :: x :: r =>
    if x = 120 ∨ x = 88 then
      let (i, r1) := scan_xdigits r 0
      let nint := r.length - r1.length
      match r1 with
      | 46 :: r2 =>
        let (m, r3) := scan_xdigits r2 i
        let nfrac := r2.length - r3.length
        if nint + nfrac = 0 then none
        else
          let (p, rest) := scan_exponent r3 112 80
          some (m, p - 4 * (nfrac : Int), rest)
      | _ =>
        if nint = 0 then none
        else
          let (p, rest) := scan_exponent r1 112 80
          some (i, p, rest)
    else none
  | _ => none

/-- Matches the lower-case word `word` at the front of `u`, ignoring case; returns
the rest. -/
def match_nocase (word u : CString) : Option CString :=
  if (u.take word.length).map tolower = word then some (u.drop word.length) else none

/-- The optional `(n-char-sequence)` after `nan`. -/
def scan_nan_tag (r : CString) : CString :=
  match r with
  | 40 :: r1 =>
    match r1.dropWhile (fun c => isalnum c || c == 95) with
    | 41 :: r3 => r3
    | _ => r
  | _ => r

/-- C `strtod(s, &eptr)`: returns the value and `eptr` as the unread rest of `s`.
When no conversion is possible the value is zero and `eptr` is `s` itself. -/
def strtod (s : CString) : Dbl × CString :=
  let t := s.dropWhile isspace
  let (neg, u) := scan_sign t
  let sgn : Int := if neg then -1 else 1
  match scan_hex u with
  | some (m, p, rest) =>
    (Dbl.round (sgn * (m : Int) * ((2 ^ p.toNat : Nat) : Int)) (2 ^ (-p).toNat), rest)
  | none =>
    match scan_decimal u with
    | some (m, x, rest) =>
      (Dbl.round (sgn * (m : Int) * ((10 ^ x.toNat : Nat) : Int)) (10 ^ (-x).toNat), rest)
    | none =>
      match match_nocase (cstr "infinity") u with
      | some rest => (Dbl.inf neg, rest)
      | none =>
        match match_nocase (cstr "inf") u with
        | some rest => (Dbl.inf neg, rest)
        | none =>
          match match_nocase (cstr "nan") u with
          | some rest => (Dbl.nan, scan_nan_tag rest)
          | none => (Dbl.fin 0 0, s)

/-- C `sscanf(s, "%lf", &d)` started with `d = d0`: the value `strtod` reads, `d0`
when nothing converts.  The program calls it only on texts that `strtod` consumes
fully, where the two agree. -/
def sscanf_lf (s : CString) (d0 : Dbl) : Dbl :=
  let (d, eptr) := strtod s
  if eptr.length != s.length then d else d0

/-! ## URIs and the well-known datatype identifiers -/

/-- A `raptor_uri`: the URI text.  The raptor URI library is an external
collaborator; two URIs are equal when their texts are. -/
structure raptor_uri where
  string : CString
  deriving DecidableEq, Repr

def raptor_uri_equals (a b : raptor_uri) : Bool := a.string == b.string

def raptor_uri_as_string (u : raptor_uri) : CString := u.string

def raptor_uri_copy (u : raptor_uri) : raptor_uri := u

/-- Modelled from the spec: the namespace of the well-known XSD datatype identifiers;
the globals `rasqal_xsd_*_uri` are initialised outside `rasqal_literal.c`. -/
def rasqal_xsd_namespace : CString := cstr "http://www.w3.org/2001/XMLSchema#"

/-- Modelled from the spec: the well-known identifier of xsd:boolean. -/
def rasqal_xsd_boolean_uri : raptor_uri := ⟨rasqal_xsd_namespace ++ cstr "boolean"⟩

/-- Modelled from the spec: the well-known identifier of xsd:integer. -/
def rasqal_xsd_integer_uri : raptor_uri := ⟨rasqal_xsd_namespace ++ cstr "integer"⟩

/-- Modelled from the spec: the well-known identifier of xsd:double. -/
def rasqal_xsd_double_uri : raptor_uri := ⟨rasqal_xsd_namespace ++ cstr "double"⟩

/-- Modelled from the spec: the well-known identifier of xsd:float. -/
def rasqal_xsd_float_uri : raptor_uri := ⟨rasqal_xsd_namespace ++ cstr "float"⟩

/-- Modelled from the spec: the well-known identifier of xsd:decimal. -/
def rasqal_xsd_decimal_uri : raptor_uri := ⟨rasqal_xsd_namespace ++ cstr "decimal"⟩

/-- Modelled from the spec: the well-known identifier of xsd:dateTime. -/
def rasqal_xsd_datetime_uri : raptor_uri := ⟨rasqal_xsd_namespace ++ cstr "dateTime"⟩

/-- Modelled from the spec: the well-known identifier of xsd:string. -/
def rasqal_xsd_string_uri : raptor_uri := ⟨rasqal_xsd_namespace ++ cstr "string"⟩

/-- Modelled from the spec: the static lexical text of the boolean true. -/
def RASQAL_XSD_BOOLEAN_TRUE : CString := cstr "true"

/-- Modelled from the spec: the static lexical text of the boolean false. -/
def RASQAL_XSD_BOOLEAN_FALSE : CString := cstr "false"

/-- Modelled from the spec: comparison flag bit for case-independent string
comparison (`rasqal.h`). -/
def RASQAL_COMPARE_NOCASE : Nat := 1

/-- Modelled from the spec: comparison flag bit for the standards (XQuery) promotion
rules (`rasqal.h`). -/
def RASQAL_COMPARE_XQUERY : Nat := 2

/-! ## Literals -/

/-- The literal kinds, in the order of `rasqal_literal_type_labels`, which the source
states to be the order of the enumeration in `rasqal.h`. -/
inductive rasqal_literal_type
  | UNKNOWN
  | BLANK
  | URI
  | STRING
  | BOOLEAN
  | INTEGER
  | DOUBLE
  | FLOAT
  | DECIMAL
  | DATETIME
  | PATTERN
  | QNAME
  | VARIABLE
  deriving DecidableEq, Repr

/-- The integer value of an enumeration constant. -/
def rasqal_literal_type.to_int : rasqal_literal_type → Int
  | UNKNOWN => 0
  | BLANK => 1
  | URI => 2
  | STRING => 3
  | BOOLEAN => 4
  | INTEGER => 5
  | DOUBLE => 6
  | FLOAT => 7
  | DECIMAL => 8
  | DATETIME => 9
  | PATTERN => 10
  | QNAME => 11
  | VARIABLE => 12

def rasqal_literal_type_labels : List CString :=
  [cstr "UNKNOWN", cstr "blank", cstr "uri", cstr "string", cstr "boolean",
   cstr "integer", cstr "double", cstr "float", cstr "decimal", cstr "datetime",
   cstr "pattern", cstr "qname", cstr "variable"]

mutual
/-- The struct `rasqal_literal`.  The members of the union `value` are kept side by
side: a literal is allocated zeroed and the program stores into at most one member
of a literal, so every other member reads as zero or NULL. -/
inductive rasqal_literal : Type
  | mk (usage : Int) (type : rasqal_literal_type) (string : Option CString)
      (string_len : Nat) (language : Option CString) (datatype : Option raptor_uri)
      (flags : Option CString) (value : rasqal_literal_value)
/-- The union `value` of a literal. -/
inductive rasqal_literal_value : Type
  | mk (integer : Int) (floating : Dbl) (uri : Option raptor_uri)
      (var : rasqal_variable_ptr)
/-- The struct `rasqal_variable`: a name and the current binding, NULL when
unbound. -/
inductive rasqal_variable : Type
  | mk (name : CString) (value : rasqal_literal_ptr)
/-- A `rasqal_variable*`. -/
inductive rasqal_variable_ptr : Type
  | null
  | ptr (v : rasqal_variable)
/-- A `rasqal_literal*`. -/
inductive rasqal_literal_ptr : Type
  | null
  | ptr (l : rasqal_literal)
end

deriving instance DecidableEq for
  rasqal_literal, rasqal_literal_value, rasqal_variable, rasqal_variable_ptr,
  rasqal_literal_ptr

namespace rasqal_literal_value

def integer : rasqal_literal_value → Int
  | mk i _ _ _ => i

def floating : rasqal_literal_value → Dbl
  | mk _ d _ _ => d

def uri : rasqal_literal_value → Option raptor_uri
  | mk _ _ u _ => u

def var : rasqal_literal_value → rasqal_variable_ptr
  | mk _ _ _ v => v

/-- The zeroed union. -/
def zero : rasqal_literal_value := mk 0 (Dbl.fin 0 0) none rasqal_variable_ptr.null

end rasqal_literal_value

namespace rasqal_variable

def name : rasqal_variable → CString
  | mk n _ => n

def value : rasqal_variable → rasqal_literal_ptr
  | mk _ v => v

end rasqal_variable

namespace rasqal_literal

def usage : rasqal_literal → Int
  | mk u _ _ _ _ _ _ _ => u

def type : rasqal_literal → rasqal_literal_type
  | mk _ t _ _ _ _ _ _ => t

def string : rasqal_literal → Option CString
  | mk _ _ s _ _ _ _ _ => s

def string_len : rasqal_literal → Nat
  | mk _ _ _ n _ _ _ _ => n

def language : rasqal_literal → Option CString
  | mk _ _ _ _ l _ _ _ => l

def datatype : rasqal_literal → Option raptor_uri
  | mk _ _ _ _ _ d _ _ => d

def flags : rasqal_literal → Option CString
  | mk _ _ _ _ _ _ f _ => f

def value : rasqal_literal → rasqal_literal_value
  | mk _ _ _ _ _ _ _ v => v

def set_usage (u : Int) : rasqal_literal → rasqal_literal
  | mk _ t s n l d f v => mk u t s n l d f v

def set_type (t : rasqal_literal_type) : rasqal_literal → rasqal_literal
  | mk u _ s n l d f v => mk u t s n l d f v

def set_string (s : Option CString) : rasqal_literal → rasqal_literal
  | mk u t _ n l d f v => mk u t s n l d f v

def set_string_len (n : Nat) : rasqal_literal → rasqal_literal
  | mk u t s _ l d f v => mk u t s n l d f v

def set_language (l : Option CString) : rasqal_literal → rasqal_literal
  | mk u t s n _ d f v => mk u t s n l d f v

def set_datatype (d : Option raptor_uri) : rasqal_literal → rasqal_literal
  | mk u t s n l _ f v => mk u t s n l d f v

def set_flags (f : Option CString) : rasqal_literal → rasqal_literal
  | mk u t s n l d _ v => mk u t s n l d f v

def set_integer (i : Int) : rasqal_literal → rasqal_literal
  | mk u t s n l d f (rasqal_literal_value.mk _ x y z) =>
    mk u t s n l d f (rasqal_literal_value.mk i x y z)

def set_floating (x : Dbl) : rasqal_literal → rasqal_literal
  | mk u t s n l d f (rasqal_literal_value.mk i _ y z) =>
    mk u t s n l d f (rasqal_literal_value.mk i x y z)

def set_uri (y : Option raptor_uri) : rasqal_literal → rasqal_literal
  | mk u t s n l d f (rasqal_literal_value.mk i x _ z) =>
    mk u t s n l d f (rasqal_literal_value.mk i x y z)

/-- The variable `*l->value.variable`; reading through a NULL `value.variable` is a
fault. -/
def get_variable (l : rasqal_literal) : Exec rasqal_variable :=
  match l.value.var with
  | rasqal_variable_ptr.null => .error Fault.null_deref
  | rasqal_variable_ptr.ptr v => .ok v

end rasqal_literal

/-! ## Constructors

Allocation is taken to succeed: the constructors are modelled on the path where
`RASQAL_CALLOC` and `RASQAL_MALLOC` return memory. -/

/-- Modelled from the spec: a triple pattern.  Its content is opaque to the literal
and algebra code; `id` stands for it. -/
structure rasqal_triple where
  id : Nat
  deriving DecidableEq, Repr

/-- A `raptor_sequence` of triple patterns, in order. -/
abbrev raptor_sequence := List rasqal_triple

/-- A call that gives memory back: `RASQAL_FREE` of a string, `raptor_free_uri`,
`RASQAL_FREE` of a literal struct, `raptor_free_sequence`, `RASQAL_FREE` of a
formula struct. -/
inductive heap_release
  | cstring (s : CString)
  | uri (u : raptor_uri)
  | literal
  | sequence (items : raptor_sequence)
  | formula
  deriving DecidableEq, Repr

/-- The statement `if(p) RASQAL_FREE(cstring, p)`. -/
def free_cstring (p : Option CString) : List heap_release :=
  match p with
  | some s => [heap_release.cstring s]
  | none => []

/-- The statement `if(u) raptor_free_uri(u)`. -/
def free_uri (u : Option raptor_uri) : List heap_release :=
  match u with
  | some u => [heap_release.uri u]
  | none => []

/-- Releases one reference: `rasqal_free_literal`.  Returns what is left of the
literal, NULL once the count has reached zero and the struct is released, and the
calls that give memory back, in the order the function makes them. -/
def rasqal_free_literal (l : rasqal_literal) : Exec (rasqal_literal_ptr × List heap_release) :=
  let l := l.set_usage (wrap32 (l.usage - 1))
  if l.usage ≠ 0 then .ok (rasqal_literal_ptr.ptr l, [])
  else
    match l.type with
    | rasqal_literal_type.URI =>
      .ok (rasqal_literal_ptr.null, free_uri l.value.uri ++ [heap_release.literal])
    | rasqal_literal_type.STRING
    | rasqal_literal_type.BLANK
    | rasqal_literal_type.PATTERN
    | rasqal_literal_type.QNAME
    | rasqal_literal_type.DOUBLE
    | rasqal_literal_type.INTEGER
    | rasqal_literal_type.FLOAT
    | rasqal_literal_type.DECIMAL
    | rasqal_literal_type.DATETIME =>
      .ok (rasqal_literal_ptr.null,
        free_cstring l.string ++ free_cstring l.language ++ free_uri l.datatype ++
          (if l.type = rasqal_literal_type.STRING ∨ l.type = rasqal_literal_type.PATTERN
            then free_cstring l.flags else []) ++
          [heap_release.literal])
    | rasqal_literal_type.BOOLEAN =>
      .ok (rasqal_literal_ptr.null, free_uri l.datatype ++ [heap_release.literal])
    | rasqal_literal_type.VARIABLE => .ok (rasqal_literal_ptr.null, [heap_release.literal])
    | rasqal_literal_type.UNKNOWN => .error Fault.abort

def rasqal_new_integer_literal (type : rasqal_literal_type) (integer : Int) :
    rasqal_literal_ptr :=
  rasqal_literal_ptr.ptr
    (rasqal_literal.mk 1 type (some (sprintf_d integer)) (sprintf_d integer).length none
      (some (raptor_uri_copy rasqal_xsd_integer_uri)) none
      (rasqal_literal_value.mk integer (Dbl.fin 0 0) none rasqal_variable_ptr.null))

/-- Constructor of a double literal: `rasqal_new_double_literal`.  The text of the
literal is what the C library writes for `sprintf(buf, "%1g", d)`; the model takes
that rendering as the parameter `sprintf_1g`. -/
def rasqal_new_double_literal (sprintf_1g : Dbl → CString) (d : Dbl) : rasqal_literal_ptr :=
  rasqal_literal_ptr.ptr
    (rasqal_literal.mk 1 rasqal_literal_type.DOUBLE (some (sprintf_1g d))
      (sprintf_1g d).length none (some (raptor_uri_copy rasqal_xsd_double_uri)) none
      (rasqal_literal_value.mk 0 d none rasqal_variable_ptr.null))

def rasqal_new_floating_literal (sprintf_1g : Dbl → CString) (f : Dbl) : rasqal_literal_ptr :=
  rasqal_new_double_literal sprintf_1g f

def rasqal_new_uri_literal (uri : Option raptor_uri) : rasqal_literal_ptr :=
  rasqal_literal_ptr.ptr
    (rasqal_literal.mk 1 rasqal_literal_type.URI none 0 none none none
      (rasqal_literal_value.mk 0 (Dbl.fin 0 0) uri rasqal_variable_ptr.null))

def rasqal_new_pattern_literal (pattern : CString) (flags : Option CString) :
    rasqal_literal_ptr :=
  rasqal_literal_ptr.ptr
    (rasqal_literal.mk 1 rasqal_literal_type.PATTERN (some pattern) pattern.length none
      none flags rasqal_literal_value.zero)

def rasqal_new_decimal_literal (decimal : CString) : rasqal_literal_ptr :=
  rasqal_literal_ptr.ptr
    (rasqal_literal.mk 1 rasqal_literal_type.DECIMAL (some decimal) decimal.length none
      (some (raptor_uri_copy rasqal_xsd_decimal_uri)) none rasqal_literal_value.zero)

def rasqal_new_simple_literal (type : rasqal_literal_type) (string : CString) :
    rasqal_literal_ptr :=
  rasqal_literal_ptr.ptr
    (rasqal_literal.mk 1 type (some string) string.length none none none
      rasqal_literal_value.zero)

def rasqal_new_boolean_literal (value : Int) : rasqal_literal_ptr :=
  rasqal_literal_ptr.ptr
    (rasqal_literal.mk 1 rasqal_literal_type.BOOLEAN
      (some (if value ≠ 0 then RASQAL_XSD_BOOLEAN_TRUE else RASQAL_XSD_BOOLEAN_FALSE))
      (if value ≠ 0 then 4 else 5) none
      (some (raptor_uri_copy rasqal_xsd_boolean_uri)) none
      (rasqal_literal_value.mk value (Dbl.fin 0 0) none rasqal_variable_ptr.null))

def rasqal_new_variable_literal (v : rasqal_variable_ptr) : rasqal_literal_ptr :=
  rasqal_literal_ptr.ptr
    (rasqal_literal.mk 1 rasqal_literal_type.VARIABLE none 0 none none none
      (rasqal_literal_value.mk 0 (Dbl.fin 0 0) none v))

def rasqal_literal_check_boolean_format (string : CString) (_flags : Int) : Int :=
  if strcmp string (cstr "true") == 0 ||
     strcmp string (cstr "TRUE") == 0 ||
     strcmp string (cstr "1") == 0 ||
     strcmp string (cstr "false") == 0 ||
     strcmp string (cstr "FALSE") == 0 ||
     strcmp string (cstr "0") == 0
  then 1 else 0

/-- The byte `*p`: 0 at the end of the string. -/
def peek (p : CString) : Nat := p.headD 0

/-- The statement `if(!*(++p)) return 0;` of the validator below: the advanced
pointer, or nothing when the function returns 0. -/
def ADVANCE_OR_DIE (p : CString) : Option CString :=
  if peek p.tail == 0 then none else some p.tail

/-- The statement `if(isdigit(*p)) { ADVANCE_OR_DIE(p); }`. -/
def dateTime_digit (p : CString) : Option CString :=
  if isdigit (peek p) then ADVANCE_OR_DIE p else some p

/-- The statements `if(*p != c) return 0; ADVANCE_OR_DIE(p);`. -/
def dateTime_char (c : Nat) (p : CString) : Option CString :=
  if peek p != c then none else ADVANCE_OR_DIE p

/-- The statement `if(*p == '-') { ADVANCE_OR_DIE(p); }`. -/
def dateTime_sign (p : CString) : Option CString :=
  if peek p == 45 then ADVANCE_OR_DIE p else some p

/-- The statements of the validator up to the first digit of the seconds, in
order; each one gives the advanced pointer, or nothing when it returns 0. -/
def dateTime_fields : List (CString → Option CString) :=
  [ dateTime_sign,
    dateTime_digit, dateTime_digit, dateTime_digit, dateTime_digit, dateTime_char 45,
    dateTime_digit, dateTime_digit, dateTime_char 45,
    dateTime_digit, dateTime_digit, dateTime_char 84,
    dateTime_digit, dateTime_digit, dateTime_char 58,
    dateTime_digit, dateTime_digit, dateTime_char 58,
    dateTime_digit ]

def rasqal_literal_check_dateTime_format (string : CString) (_flags : Int) : Int :=
  match dateTime_fields.foldl (fun p step => p.bind step) (some string) with
  | none => 0
  | some p =>
    let p := if isdigit (peek p) then p.tail else p
    if peek p == 0 then 1
    else
      let p := if peek p == 46 then p.tail.dropWhile isdigit else p
      if peek p == 90 then (if peek p.tail == 0 then 1 else 0) else 1

def rasqal_literal_check_decimal_format (string : CString) (_flags : Int) : Int :=
  let (_, eptr) := strtod string
  if fully_consumed string eptr then 1 else 0

def rasqal_literal_check_double_format (string : CString) (flags : Int) : Int :=
  rasqal_literal_check_decimal_format string flags

/-- The float validator calls itself on the same arguments; `fuel` bounds the depth
of the recursion. -/
def rasqal_literal_check_float_format : Nat → CString → Int → Exec Int
  | 0, _, _ => .error Fault.out_of_fuel
  | fuel + 1, string, flags => rasqal_literal_check_float_format fuel string flags

def rasqal_literal_check_integer_format (string : CString) (_flags : Int) : Int :=
  let (_, eptr) := strtol string
  if fully_consumed string eptr then 1 else 0

/-- An entry of `sparql_xsd_datatypes_table`.  The function pointer `check` takes the
recursion bound of the float validator as its first argument. -/
structure xsd_datatype where
  type : rasqal_literal_type
  label : CString
  uri : Option raptor_uri
  check : Nat → CString → Int → Exec Int

/-- The static initialiser of `sparql_xsd_datatypes_table`; the closing entry, whose
`check` is NULL, is the end of the list. -/
def sparql_xsd_datatypes_table_static : List xsd_datatype :=
  [ ⟨rasqal_literal_type.BOOLEAN, cstr "boolean", none,
      fun _ s f => .ok (rasqal_literal_check_boolean_format s f)⟩,
    ⟨rasqal_literal_type.INTEGER, cstr "integer", none,
      fun _ s f => .ok (rasqal_literal_check_integer_format s f)⟩,
    ⟨rasqal_literal_type.DOUBLE, cstr "double", none,
      fun _ s f => .ok (rasqal_literal_check_double_format s f)⟩,
    ⟨rasqal_literal_type.FLOAT, cstr "float", none, rasqal_literal_check_float_format⟩,
    ⟨rasqal_literal_type.DECIMAL, cstr "decimal", none,
      fun _ s f => .ok (rasqal_literal_check_decimal_format s f)⟩,
    ⟨rasqal_literal_type.DATETIME, cstr "dateTime", none,
      fun _ s f => .ok (rasqal_literal_check_dateTime_format s f)⟩ ]

/-- Modelled from the spec: the first of the kinds that have a registry entry
(`rasqal.h`); the registry is indexed by the distance to it. -/
def RASQAL_LITERAL_FIRST_XSD : rasqal_literal_type := rasqal_literal_type.BOOLEAN

/-- The assignment `table[type - RASQAL_LITERAL_FIRST_XSD].uri = uri`. -/
def xsd_set_uri (table : List xsd_datatype) (type : rasqal_literal_type)
    (uri : raptor_uri) : List xsd_datatype :=
  table.modify (fun e => { e with uri := some uri })
    (type.to_int - RASQAL_LITERAL_FIRST_XSD.to_int).toNat

def rasqal_xsd_init (table : List xsd_datatype) : List xsd_datatype :=
  let table := xsd_set_uri table rasqal_literal_type.BOOLEAN rasqal_xsd_boolean_uri
  let table := xsd_set_uri table rasqal_literal_type.INTEGER rasqal_xsd_integer_uri
  let table := xsd_set_uri table rasqal_literal_type.DOUBLE rasqal_xsd_double_uri
  let table := xsd_set_uri table rasqal_literal_type.FLOAT rasqal_xsd_float_uri
  let table := xsd_set_uri table rasqal_literal_type.DECIMAL rasqal_xsd_decimal_uri
  xsd_set_uri table rasqal_literal_type.DATETIME rasqal_xsd_datetime_uri

/-- The registry as the literal functions see it, after `rasqal_xsd_init`. -/
def sparql_xsd_datatypes_table : List xsd_datatype :=
  rasqal_xsd_init sparql_xsd_datatypes_table_static

/-- The loop of `rasqal_literal_string_to_native` over the registry: the offset and
the entry of the first datatype equal to `datatype`, if any. -/
def xsd_lookup : List xsd_datatype → Nat → raptor_uri → Exec (Option (Nat × xsd_datatype))
  | [], _, _ => .ok none
  | e :: rest, i, datatype =>
    match e.uri with
    | none => .error Fault.null_deref
    | some uri =>
      if raptor_uri_equals datatype uri then .ok (some (i, e))
      else xsd_lookup rest (i + 1) datatype

/-- The message `"Illegal type %s string '%s'"` formatted with the label and the
text. -/
def illegal_type_message (label string : CString) : CString :=
  cstr "Illegal type " ++ label ++ cstr " string " ++ [39] ++ string ++ [39]

/-- Promotes a datatyped string literal to its native kind in place:
`rasqal_literal_string_to_native`.  `error_handler` is the nullable handler and
`error_data` the sink it writes to; the result is the C return value, the literal
as left by the function and the sink. -/
def rasqal_literal_string_to_native {σ : Type} (fuel : Nat) (l : rasqal_literal)
    (error_handler : Option (σ → CString → σ)) (error_data : σ) :
    Exec (Int × rasqal_literal × σ) :=
  let flags : Int := 0
  match l.datatype with
  | none => .ok (0, l, error_data)
  | some datatype =>
    match xsd_lookup sparql_xsd_datatypes_table 0 datatype with
    | .error f => .error f
    | .ok none => .ok (0, l, error_data)
    | .ok (some (_, entry)) =>
      let native_type := entry.type
      if native_type = rasqal_literal_type.UNKNOWN then .ok (0, l, error_data)
      else
        match l.string with
        | none => .error Fault.null_deref
        | some string =>
          match entry.check fuel string flags with
          | .error f => .error f
          | .ok valid =>
            if valid = 0 then
              match error_handler with
              | some handler =>
                .ok (1, l, handler error_data (illegal_type_message entry.label string))
              | none => .ok (1, l, error_data)
            else
              let l := l.set_language none
              let l := l.set_type native_type
              match native_type with
              | rasqal_literal_type.INTEGER =>
                .ok (0, l.set_integer (atoi string), error_data)
              | rasqal_literal_type.DOUBLE
              | rasqal_literal_type.FLOAT
              | rasqal_literal_type.DECIMAL =>
                .ok (0, l.set_floating (sscanf_lf string (Dbl.fin 0 0)), error_data)
              | rasqal_literal_type.BOOLEAN =>
                let i : Int :=
                  if strcmp string (cstr "true") == 0 ||
                     strcmp string (cstr "TRUE") == 0 ||
                     strcmp string (cstr "1") == 0
                  then 1 else 0
                let l := l.set_string
                  (some (if i ≠ 0 then RASQAL_XSD_BOOLEAN_TRUE else RASQAL_XSD_BOOLEAN_FALSE))
                let l := l.set_string_len (if i ≠ 0 then 4 else 5)
                .ok (0, l.set_integer i, error_data)
              | rasqal_literal_type.DATETIME => .ok (0, l, error_data)
              | _ => .error Fault.fatal

/-- Constructor of a string literal: `rasqal_new_string_literal`.  The promotion is
called with a NULL handler and NULL handler data, as in the source. -/
def rasqal_new_string_literal (fuel : Nat) (string : CString) (language : Option CString)
    (datatype : Option raptor_uri) (datatype_qname : Option CString) :
    Exec rasqal_literal_ptr :=
  let language := if datatype.isSome && language.isSome then none else language
  let l := rasqal_literal.mk 1 rasqal_literal_type.STRING (some string) string.length
    language datatype datatype_qname rasqal_literal_value.zero
  match rasqal_literal_string_to_native fuel l (none : Option (Unit → CString → Unit)) () with
  | .error f => .error f
  | .ok (rc, l, _) =>
    if rc ≠ 0 then
      match rasqal_free_literal l with
      | .error f => .error f
      | .ok _ => .ok rasqal_literal_ptr.null
    else .ok (rasqal_literal_ptr.ptr l)

/-! ## Coercion accessors -/

/-- The test `s && *s` on a nullable string. -/
def str_nonempty (s : Option CString) : Bool :=
  match s with
  | some p => peek p != 0
  | none => false

def rasqal_literal_as_boolean : rasqal_literal_ptr → Int → Exec (Int × Int)
  | rasqal_literal_ptr.null, error => .ok (0, error)
  | rasqal_literal_ptr.ptr
      (rasqal_literal.mk _ type string _ _ datatype _ (rasqal_literal_value.mk i d _ v)),
    error =>
    match type with
    | rasqal_literal_type.STRING =>
      match datatype with
      | some dt =>
        if raptor_uri_equals dt rasqal_xsd_string_uri then
          .ok (c_bool (str_nonempty string), error)
        else .ok (0, 1)
      | none => .ok (c_bool (str_nonempty string), error)
    | rasqal_literal_type.URI
    | rasqal_literal_type.BLANK
    | rasqal_literal_type.PATTERN
    | rasqal_literal_type.QNAME
    | rasqal_literal_type.DECIMAL
    | rasqal_literal_type.DATETIME => .ok (0, 1)
    | rasqal_literal_type.INTEGER
    | rasqal_literal_type.BOOLEAN => .ok (c_bool (i != 0), error)
    | rasqal_literal_type.DOUBLE
    | rasqal_literal_type.FLOAT => .ok (c_bool (!d.is_zero && !d.isnan), error)
    | rasqal_literal_type.VARIABLE =>
      match v with
      | rasqal_variable_ptr.null => .error Fault.null_deref
      | rasqal_variable_ptr.ptr (rasqal_variable.mk _ value) =>
        rasqal_literal_as_boolean value error
    | rasqal_literal_type.UNKNOWN => .error Fault.abort

def rasqal_literal_as_integer : rasqal_literal_ptr → Int → Exec (Int × Int)
  | rasqal_literal_ptr.null, error => .ok (0, error)
  | rasqal_literal_ptr.ptr
      (rasqal_literal.mk _ type string _ _ _ _ (rasqal_literal_value.mk i d _ v)),
    error =>
    match type with
    | rasqal_literal_type.INTEGER => .ok (i, error)
    | rasqal_literal_type.BOOLEAN => .ok (c_bool (i != 0), error)
    | rasqal_literal_type.DOUBLE
    | rasqal_literal_type.FLOAT => .ok (d.to_int, error)
    | rasqal_literal_type.STRING =>
      match string with
      | none => .error Fault.null_deref
      | some s =>
        if fully_consumed s (strtol s).2 then .ok (wrap32 (strtol s).1, error)
        else if fully_consumed s (strtod s).2 then .ok ((strtod s).1.to_int, error)
        else .ok (0, 1)
    | rasqal_literal_type.VARIABLE =>
      match v with
      | rasqal_variable_ptr.null => .error Fault.null_deref
      | rasqal_variable_ptr.ptr (rasqal_variable.mk _ value) =>
        rasqal_literal_as_integer value error
    | rasqal_literal_type.BLANK
    | rasqal_literal_type.URI
    | rasqal_literal_type.QNAME
    | rasqal_literal_type.PATTERN
    | rasqal_literal_type.DECIMAL
    | rasqal_literal_type.DATETIME => .ok (0, 1)
    | rasqal_literal_type.UNKNOWN => .error Fault.abort

/-- Coercion to a double: `rasqal_literal_as_floating`.  A variable is passed on to
`rasqal_literal_as_integer`, as in the source, and the `int` it returns is
converted to `double`. -/
def rasqal_literal_as_floating : rasqal_literal_ptr → Int → Exec (Dbl × Int)
  | rasqal_literal_ptr.null, error => .ok (Dbl.of_int 0, error)
  | rasqal_literal_ptr.ptr l, error =>
    match l.type with
    | rasqal_literal_type.INTEGER
    | rasqal_literal_type.BOOLEAN => .ok (Dbl.of_int l.value.integer, error)
    | rasqal_literal_type.DOUBLE
    | rasqal_literal_type.FLOAT => .ok (l.value.floating, error)
    | rasqal_literal_type.DECIMAL
    | rasqal_literal_type.STRING =>
      match l.string with
      | none => .error Fault.null_deref
      | some s =>
        if fully_consumed s (strtod s).2 then .ok ((strtod s).1, error)
        else .ok (Dbl.fin 0 0, 1)
    | rasqal_literal_type.VARIABLE =>
      match l.get_variable with
      | .error f => .error f
      | .ok v =>
        match rasqal_literal_as_integer v.value error with
        | .error f => .error f
        | .ok (i, error) => .ok (Dbl.of_int i, error)
    | rasqal_literal_type.BLANK
    | rasqal_literal_type.URI
    | rasqal_literal_type.QNAME
    | rasqal_literal_type.PATTERN
    | rasqal_literal_type.DATETIME => .ok (Dbl.fin 0 0, 1)
    | rasqal_literal_type.UNKNOWN => .error Fault.abort

def rasqal_literal_as_uri : rasqal_literal_ptr → Exec (Option raptor_uri)
  | rasqal_literal_ptr.null => .ok none
  | rasqal_literal_ptr.ptr
      (rasqal_literal.mk _ type _ _ _ _ _ (rasqal_literal_value.mk _ _ uri v)) =>
    if type = rasqal_literal_type.URI then .ok uri
    else if type = rasqal_literal_type.VARIABLE then
      match v with
      | rasqal_variable_ptr.null => .error Fault.null_deref
      | rasqal_variable_ptr.ptr (rasqal_variable.mk _ value) => rasqal_literal_as_uri value
    else .error Fault.abort

/-- String form of a literal: `rasqal_literal_as_string_flags`.  `error` is the value
behind the nullable pointer `error`, nothing when the pointer is NULL. -/
def rasqal_literal_as_string_flags :
    rasqal_literal_ptr → Nat → Option Int → Exec (Option CString × Option Int)
  | rasqal_literal_ptr.null, _, error => .ok (none, error)
  | rasqal_literal_ptr.ptr
      (rasqal_literal.mk _ type string _ _ _ _ (rasqal_literal_value.mk _ _ uri v)),
    flags, error =>
    match type with
    | rasqal_literal_type.BOOLEAN
    | rasqal_literal_type.INTEGER
    | rasqal_literal_type.DOUBLE
    | rasqal_literal_type.STRING
    | rasqal_literal_type.BLANK
    | rasqal_literal_type.PATTERN
    | rasqal_literal_type.QNAME
    | rasqal_literal_type.FLOAT
    | rasqal_literal_type.DECIMAL
    | rasqal_literal_type.DATETIME => .ok (string, error)
    | rasqal_literal_type.URI =>
      if flags &&& RASQAL_COMPARE_XQUERY ≠ 0 then .ok (none, error.map (fun _ => 1))
      else
        match uri with
        | none => .error Fault.null_deref
        | some u => .ok (some (raptor_uri_as_string u), error)
    | rasqal_literal_type.VARIABLE =>
      match v with
      | rasqal_variable_ptr.null => .error Fault.null_deref
      | rasqal_variable_ptr.ptr (rasqal_variable.mk _ value) =>
        rasqal_literal_as_string_flags value flags error
    | rasqal_literal_type.UNKNOWN => .error Fault.abort

def rasqal_literal_as_string (l : rasqal_literal_ptr) : Exec (Option CString) :=
  match rasqal_literal_as_string_flags l 0 none with
  | .error f => .error f
  | .ok (s, _) => .ok s

def rasqal_literal_as_variable (l : rasqal_literal) : rasqal_variable_ptr :=
  if l.type = rasqal_literal_type.VARIABLE then l.value.var else rasqal_variable_ptr.null

/-- The sign of a double as an `int`: `double_to_int`. -/
def double_to_int (d : Dbl) : Int :=
  if d.is_zero then 0
  else if d.lt_zero then -1 else 1

/-! ## Comparison -/

/-- Outcome of a part of a function body: the function has returned `r`, or control
goes on with `a`. -/
inductive CFlow (ρ α : Type)
  | ret (r : ρ)
  | next (a : α)

/-- Assignment to element `i` of a two-element local array; an element is `none`
until it is assigned. -/
def slot_set {α : Type} (a : Option α × Option α) (i : Nat) (x : α) : Option α × Option α :=
  if i = 0 then (some x, a.2) else (a.1, some x)

/-- Read of element `i` of a two-element local array. -/
def slot_get {α : Type} (a : Option α × Option α) (i : Nat) : Exec α :=
  assigned (if i = 0 then a.1 else a.2)

/-- Element `i` of the array `lits`. -/
def lits_get (lits : rasqal_literal × rasqal_literal) (i : Nat) : rasqal_literal :=
  if i = 0 then lits.1 else lits.2

/-- The locals of `rasqal_literal_compare` other than `lits`, `type` and the error
flags. -/
structure compare_locals where
  ints : Option Int × Option Int
  doubles : Option Dbl × Option Dbl
  strings : Option (Option CString) × Option (Option CString)
  seen_string : Nat
  seen_int : Nat
  seen_double : Nat
  seen_boolean : Nat
  seen_numeric : Nat

/-- The locals on entry. -/
def compare_locals.init : compare_locals :=
  ⟨(none, none), (none, none), (none, none), 0, 0, 0, 0, 0⟩

/-- Body of the first loop of `rasqal_literal_compare` for index `i`: a variable is
replaced by its binding and the operand is classified.  Both elements of `lits` are
non-NULL when the body starts, so the test `if(lits[1-i])` on an unbound variable
succeeds and the function returns 0 with the error flag set.  A result is the pair
of the C return value and `*error`. -/
def compare_classify (i : Nat) (lits : rasqal_literal × rasqal_literal) (c : compare_locals) :
    Exec (CFlow (Int × Int) ((rasqal_literal × rasqal_literal) × compare_locals)) :=
  let bound : Exec rasqal_literal_ptr :=
    if (lits_get lits i).type = rasqal_literal_type.VARIABLE then
      match (lits_get lits i).get_variable with
      | .error f => .error f
      | .ok v => .ok v.value
    else .ok (rasqal_literal_ptr.ptr (lits_get lits i))
  match bound with
  | .error f => .error f
  | .ok rasqal_literal_ptr.null => .ok (CFlow.ret (0, 1))
  | .ok (rasqal_literal_ptr.ptr li) =>
    let lits := if i = 0 then (li, lits.2) else (lits.1, li)
    match li.type with
    | rasqal_literal_type.URI => .ok (CFlow.next (lits, c))
    | rasqal_literal_type.DECIMAL =>
      .ok (CFlow.next (lits,
        { c with seen_numeric := c.seen_numeric + 1,
                 strings := slot_set c.strings i li.string }))
    | rasqal_literal_type.STRING
    | rasqal_literal_type.BLANK
    | rasqal_literal_type.PATTERN
    | rasqal_literal_type.QNAME
    | rasqal_literal_type.DATETIME =>
      .ok (CFlow.next (lits,
        { c with strings := slot_set c.strings i li.string,
                 seen_string := c.seen_string + 1 }))
    | rasqal_literal_type.BOOLEAN =>
      .ok (CFlow.next (lits,
        { c with seen_boolean := 1, ints := slot_set c.ints i li.value.integer }))
    | rasqal_literal_type.INTEGER =>
      .ok (CFlow.next (lits,
        { c with ints := slot_set c.ints i li.value.integer,
                 seen_int := c.seen_int + 1,
                 seen_numeric := c.seen_numeric + 1 }))
    | rasqal_literal_type.DOUBLE
    | rasqal_literal_type.FLOAT =>
      .ok (CFlow.next (lits,
        { c with doubles := slot_set c.doubles i li.value.floating,
                 seen_double := c.seen_double + 1,
                 seen_numeric := c.seen_numeric + 1 }))
    | rasqal_literal_type.VARIABLE
    | rasqal_literal_type.UNKNOWN => .error Fault.abort

/-- The part "work out type to aim for" of `rasqal_literal_compare`. -/
def compare_target (lits : rasqal_literal × rasqal_literal) (c : compare_locals)
    (flags : Nat) : CFlow (Int × Int) rasqal_literal_type :=
  if lits.1.type ≠ lits.2.type then
    if flags &&& RASQAL_COMPARE_XQUERY ≠ 0 then
      let type0 := lits.1.type.to_int
      let type1 := lits.2.type.to_int
      if c.seen_numeric ≠ 2 then CFlow.ret (type0 - type1, 0)
      else
        CFlow.next
          (if c.seen_double ≠ 0 then rasqal_literal_type.DOUBLE
           else rasqal_literal_type.INTEGER)
    else
      let type :=
        if c.seen_string ≠ 0 then rasqal_literal_type.STRING
        else rasqal_literal_type.INTEGER
      let type :=
        if c.seen_int &&& c.seen_double ≠ 0 ∨ c.seen_int &&& c.seen_string ≠ 0 then
          rasqal_literal_type.DOUBLE
        else type
      let type :=
        if c.seen_boolean &&& c.seen_string ≠ 0 then rasqal_literal_type.STRING else type
      CFlow.next type
  else CFlow.next lits.1.type

/-- Body of the promotion loop of `rasqal_literal_compare` for index `i`; `errori` is
the local error flag the accessors write to. -/
def compare_promote (i : Nat) (lits : rasqal_literal × rasqal_literal)
    (type : rasqal_literal_type) (c : compare_locals) (errori : Int) :
    Exec (CFlow (Int × Int) (compare_locals × Int)) :=
  if (lits_get lits i).type = type then .ok (CFlow.next (c, errori))
  else
    match type with
    | rasqal_literal_type.DOUBLE =>
      match rasqal_literal_as_floating (rasqal_literal_ptr.ptr (lits_get lits i)) errori with
      | .error f => .error f
      | .ok (d, errori) =>
        if errori ≠ 0 then .ok (CFlow.ret (1, 0))
        else .ok (CFlow.next ({ c with doubles := slot_set c.doubles i d }, errori))
    | rasqal_literal_type.INTEGER =>
      match rasqal_literal_as_integer (rasqal_literal_ptr.ptr (lits_get lits i)) errori with
      | .error f => .error f
      | .ok (n, errori) =>
        if errori ≠ 0 then .ok (CFlow.ret (1, 0))
        else .ok (CFlow.next ({ c with ints := slot_set c.ints i n }, errori))
    | rasqal_literal_type.STRING =>
      match rasqal_literal_as_string (rasqal_literal_ptr.ptr (lits_get lits i)) with
      | .error f => .error f
      | .ok s => .ok (CFlow.next ({ c with strings := slot_set c.strings i s }, errori))
    | rasqal_literal_type.BOOLEAN =>
      match rasqal_literal_as_boolean (rasqal_literal_ptr.ptr (lits_get lits i)) errori with
      | .error f => .error f
      | .ok (b, errori) =>
        if errori ≠ 0 then .ok (CFlow.ret (1, 0))
        else .ok (CFlow.next ({ c with ints := slot_set c.ints i b }, errori))
    | _ => .ok (CFlow.ret (0, 1))

/-- The language test that comparison and equality make on two string literals:
`if(a || b) { if(!a || !b) fail; if(rasqal_strcasecmp(a, b)) fail; }`.  True when
the test fails: one tag is absent and the other present, or the tags differ
ignoring case. -/
def language_differs (a b : Option CString) : Bool :=
  match a, b with
  | none, none => false
  | some a, some b => rasqal_strcasecmp a b != 0
  | _, _ => true

/-- The comparison of `strings[0]` and `strings[1]` that ends the string-like
cases. -/
def compare_strings (c : compare_locals) (flags : Nat) : Exec (Int × Int) :=
  match slot_get c.strings 0, slot_get c.strings 1 with
  | .error f, _ => .error f
  | _, .error f => .error f
  | .ok none, _ => .error Fault.null_deref
  | _, .ok none => .error Fault.null_deref
  | .ok (some s0), .ok (some s1) =>
    if flags &&& RASQAL_COMPARE_NOCASE ≠ 0 then .ok (rasqal_strcasecmp s0 s1, 0)
    else .ok (strcmp s0 s1, 0)

/-- The final `switch(type)` of `rasqal_literal_compare`. -/
def compare_final (lits : rasqal_literal × rasqal_literal) (type : rasqal_literal_type)
    (c : compare_locals) (flags : Nat) : Exec (Int × Int) :=
  match type with
  | rasqal_literal_type.URI =>
    match lits.1.value.uri, lits.2.value.uri with
    | some u0, some u1 => .ok (strcmp (raptor_uri_as_string u0) (raptor_uri_as_string u1), 0)
    | _, _ => .error Fault.null_deref
  | rasqal_literal_type.STRING =>
    if language_differs lits.1.language lits.2.language then .ok (1, 0)
    else
      match lits.1.datatype, lits.2.datatype with
      | none, none => compare_strings c flags
      | some d0, some d1 =>
        let result := strcmp (raptor_uri_as_string d0) (raptor_uri_as_string d1)
        if result ≠ 0 then .ok (result, 0) else compare_strings c flags
      | _, _ => .ok (0, 1)
  | rasqal_literal_type.BLANK
  | rasqal_literal_type.PATTERN
  | rasqal_literal_type.QNAME
  | rasqal_literal_type.DECIMAL
  | rasqal_literal_type.DATETIME => compare_strings c flags
  | rasqal_literal_type.INTEGER
  | rasqal_literal_type.BOOLEAN =>
    match slot_get c.ints 0, slot_get c.ints 1 with
    | .ok a, .ok b => .ok (wrap32 (a - b), 0)
    | .error f, _ => .error f
    | _, .error f => .error f
  | rasqal_literal_type.DOUBLE
  | rasqal_literal_type.FLOAT =>
    match slot_get c.doubles 0, slot_get c.doubles 1 with
    | .ok a, .ok b => .ok (double_to_int (Dbl.sub a b), 0)
    | .error f, _ => .error f
    | _, .error f => .error f
  | rasqal_literal_type.UNKNOWN
  | rasqal_literal_type.VARIABLE => .error Fault.abort

/-- Three-way comparison with type promotion: `rasqal_literal_compare`.  The result is
the C return value paired with the value left in `*error`, which the function
clears on entry. -/
def rasqal_literal_compare (l1 l2 : rasqal_literal_ptr) (flags : Nat) : Exec (Int × Int) :=
  match l1, l2 with
  | rasqal_literal_ptr.null, rasqal_literal_ptr.null => .ok (0, 0)
  | rasqal_literal_ptr.null, rasqal_literal_ptr.ptr _ => .ok (0, 1)
  | rasqal_literal_ptr.ptr _, rasqal_literal_ptr.null => .ok (0, 1)
  | rasqal_literal_ptr.ptr a, rasqal_literal_ptr.ptr b =>
    match compare_classify 0 (a, b) compare_locals.init with
    | .error f => .error f
    | .ok (CFlow.ret r) => .ok r
    | .ok (CFlow.next (lits, c)) =>
      match compare_classify 1 lits c with
      | .error f => .error f
      | .ok (CFlow.ret r) => .ok r
      | .ok (CFlow.next (lits, c)) =>
        match compare_target lits c flags with
        | CFlow.ret r => .ok r
        | CFlow.next type =>
          match compare_promote 0 lits type c 0 with
          | .error f => .error f
          | .ok (CFlow.ret r) => .ok r
          | .ok (CFlow.next (c, errori)) =>
            match compare_promote 1 lits type c errori with
            | .error f => .error f
            | .ok (CFlow.ret r) => .ok r
            | .ok (CFlow.next (c, _)) => compare_final lits type c flags

/-- Equality without type promotion: `rasqal_literal_equals`. -/
def rasqal_literal_equals : rasqal_literal_ptr → rasqal_literal_ptr → Exec Int
  | rasqal_literal_ptr.null, rasqal_literal_ptr.null => .ok 0
  | rasqal_literal_ptr.null, rasqal_literal_ptr.ptr _ => .ok 1
  | rasqal_literal_ptr.ptr _, rasqal_literal_ptr.null => .ok 1
  | rasqal_literal_ptr.ptr
      (rasqal_literal.mk _ type1 string1 _ language1 datatype1 _
        (rasqal_literal_value.mk i1 d1 uri1 v1)),
    rasqal_literal_ptr.ptr
      (rasqal_literal.mk _ type2 string2 _ language2 datatype2 _
        (rasqal_literal_value.mk i2 d2 uri2 v2)) =>
    let strings_equal : Exec Int :=
      match string1, string2 with
      | some s1, some s2 => .ok (c_bool (strcmp s1 s2 == 0))
      | _, _ => .error Fault.null_deref
    if type1 ≠ type2 then
      if type2 = rasqal_literal_type.BOOLEAN ∧ type1 = rasqal_literal_type.STRING then
        strings_equal
      else .ok 0
    else
      match type1 with
      | rasqal_literal_type.URI =>
        match uri1, uri2 with
        | some u1, some u2 => .ok (c_bool (raptor_uri_equals u1 u2))
        | _, _ => .error Fault.null_deref
      | rasqal_literal_type.STRING =>
        if language_differs language1 language2 then .ok 0
        else
          match datatype1, datatype2 with
          | none, none => strings_equal
          | some a, some b => if !raptor_uri_equals a b then .ok 0 else strings_equal
          | _, _ => .ok 0
      | rasqal_literal_type.BLANK
      | rasqal_literal_type.PATTERN
      | rasqal_literal_type.QNAME
      | rasqal_literal_type.DECIMAL
      | rasqal_literal_type.DATETIME => strings_equal
      | rasqal_literal_type.INTEGER
      | rasqal_literal_type.BOOLEAN => .ok (c_bool (i1 == i2))
      | rasqal_literal_type.DOUBLE
      | rasqal_literal_type.FLOAT => .ok (c_bool (Dbl.eq d1 d2))
      | rasqal_literal_type.VARIABLE =>
        match v1, v2 with
        | rasqal_variable_ptr.ptr (rasqal_variable.mk _ value1),
          rasqal_variable_ptr.ptr (rasqal_variable.mk _ value2) =>
          rasqal_literal_equals value1 value2
        | _, _ => .error Fault.null_deref
      | rasqal_literal_type.UNKNOWN => .error Fault.abort

/-! ## Effective boolean value and cast -/

/-- Effective boolean value: `rasqal_literal_ebv`.  The argument is dereferenced
without a NULL test by `rasqal_literal_as_variable`. -/
def rasqal_literal_ebv (l : rasqal_literal_ptr) : Exec Int :=
  match l with
  | rasqal_literal_ptr.null => .error Fault.null_deref
  | rasqal_literal_ptr.ptr l =>
    let bound : rasqal_literal_ptr :=
      match rasqal_literal_as_variable l with
      | rasqal_variable_ptr.ptr v => v.value
      | rasqal_variable_ptr.null => rasqal_literal_ptr.ptr l
    match bound with
    | rasqal_literal_ptr.null => .ok 0
    | rasqal_literal_ptr.ptr l =>
      if l.type = rasqal_literal_type.BOOLEAN ∧ l.value.integer = 0 then .ok 0
      else if l.type = rasqal_literal_type.STRING ∧ l.datatype = none ∧ l.string_len = 0 then
        .ok 0
      else if (l.type = rasqal_literal_type.INTEGER ∧ l.value.integer = 0) ∨
          ((l.type = rasqal_literal_type.DOUBLE ∨ l.type = rasqal_literal_type.FLOAT) ∧
            l.value.floating.is_zero = true) then
        .ok 0
      else if (l.type = rasqal_literal_type.DOUBLE ∨ l.type = rasqal_literal_type.FLOAT) ∧
          l.value.floating.isnan = true then
        .ok 0
      else .ok 1

def rasqal_literal_datatype : rasqal_literal_ptr → Exec (Option raptor_uri)
  | rasqal_literal_ptr.null => .ok none
  | rasqal_literal_ptr.ptr
      (rasqal_literal.mk _ type _ _ _ datatype _ (rasqal_literal_value.mk _ _ _ v)) =>
    if type ≠ rasqal_literal_type.VARIABLE then .ok datatype
    else
      match v with
      | rasqal_variable_ptr.null => .error Fault.null_deref
      | rasqal_variable_ptr.ptr (rasqal_variable.mk _ value) => rasqal_literal_datatype value

/-- The legality switch of `rasqal_literal_cast` on the kind of the source, taken
when the source's datatype is not the target: the local `string` and `*error_p`
after it. -/
def cast_check (l : rasqal_literal) (to_datatype : raptor_uri) (error_p : Int) :
    Exec (Option CString × Int) :=
  match l.type with
  | rasqal_literal_type.STRING => .ok (l.string, error_p)
  | rasqal_literal_type.BOOLEAN
  | rasqal_literal_type.INTEGER
  | rasqal_literal_type.DOUBLE
  | rasqal_literal_type.FLOAT
  | rasqal_literal_type.DECIMAL =>
    if raptor_uri_equals to_datatype rasqal_xsd_datetime_uri then .ok (none, 1)
    else .ok (l.string, error_p)
  | rasqal_literal_type.DATETIME =>
    match l.datatype with
    | none => .ok (none, 1)
    | some from_datatype =>
      if !raptor_uri_equals from_datatype rasqal_xsd_string_uri then .ok (none, 1)
      else .ok (l.string, error_p)
  | rasqal_literal_type.BLANK
  | rasqal_literal_type.PATTERN
  | rasqal_literal_type.QNAME => .ok (l.string, error_p)
  | rasqal_literal_type.URI =>
    if !raptor_uri_equals to_datatype rasqal_xsd_string_uri then .ok (none, 1)
    else
      match l.value.uri with
      | none => .error Fault.null_deref
      | some uri => .ok (some (raptor_uri_as_string uri), error_p)
  | rasqal_literal_type.VARIABLE
  | rasqal_literal_type.UNKNOWN => .error Fault.abort

/-- The end of `rasqal_literal_cast`: the text in the local `string` is copied
(`strlen` and `strcpy` read through `string`, which may be NULL) and a string
literal with the target datatype is built from the copy. -/
def cast_build (fuel : Nat) (string : Option CString) (to_datatype : raptor_uri)
    (error_p : Int) : Exec (rasqal_literal_ptr × Int) :=
  match string with
  | none => .error Fault.null_deref
  | some s =>
    match rasqal_new_string_literal fuel s none (some (raptor_uri_copy to_datatype)) none with
    | .error f => .error f
    | .ok rasqal_literal_ptr.null => .ok (rasqal_literal_ptr.null, 1)
    | .ok result => .ok (result, error_p)

/-- Cast to a datatype: `rasqal_literal_cast`.  The result is the literal returned,
NULL for none, paired with the value left in `*error_p`; `error_p` is its value on
entry and `fuel` bounds the recursion of the float validator. -/
def rasqal_literal_cast (fuel : Nat) (l : rasqal_literal_ptr) (to_datatype : raptor_uri)
    (_flags : Int) (error_p : Int) : Exec (rasqal_literal_ptr × Int) :=
  match l with
  | rasqal_literal_ptr.null => .ok (rasqal_literal_ptr.null, error_p)
  | rasqal_literal_ptr.ptr l =>
    let bound : Exec rasqal_literal_ptr :=
      if l.type = rasqal_literal_type.VARIABLE then
        match l.get_variable with
        | .error f => .error f
        | .ok v => .ok v.value
      else .ok (rasqal_literal_ptr.ptr l)
    match bound with
    | .error f => .error f
    | .ok rasqal_literal_ptr.null => .ok (rasqal_literal_ptr.null, error_p)
    | .ok (rasqal_literal_ptr.ptr l) =>
      let same : Bool :=
        match l.datatype with
        | some from_datatype => raptor_uri_equals from_datatype to_datatype
        | none => false
      if same then cast_build fuel none to_datatype error_p
      else
        match cast_check l to_datatype error_p with
        | .error f => .error f
        | .ok (string, error_p) =>
          if error_p ≠ 0 then .ok (rasqal_literal_ptr.null, error_p)
          else cast_build fuel string to_datatype error_p

/-! ## The date-time lexical form as the specification words it -/

/-- The fixed-width part of the date-time form: four digits, `-`, two digits, `-`,
two digits, `T`, two digits, `:`, two digits, `:`, two digits.  Returns what
follows it. -/
def dateTime_form_core : CString → Option CString
  | y1 :: y2 :: y3 :: y4 :: c1 :: m1 :: m2 :: c2 :: d1 :: d2 :: c3 :: h1 :: h2 :: c4 ::
      n1 :: n2 :: c5 :: s1 :: s2 :: rest =>
    if isdigit y1 && isdigit y2 && isdigit y3 && isdigit y4 && c1 == 45 &&
        isdigit m1 && isdigit m2 && c2 == 45 && isdigit d1 && isdigit d2 && c3 == 84 &&
        isdigit h1 && isdigit h2 && c4 == 58 && isdigit n1 && isdigit n2 && c5 == 58 &&
        isdigit s1 && isdigit s2
    then some rest else none
  | _ => none

/-- A text without its optional leading `-`. -/
def dateTime_form_unsigned : CString → CString
  | 45 :: r => r
  | s => s

/-- A text without its optional fraction, a `.` followed by digits. -/
def dateTime_form_after_fraction : CString → CString
  | 46 :: r => r.dropWhile isdigit
  | s => s

/-- The date-time lexical form in the specification's words: an optional leading
`-`, the fixed-width part, an optional `.` followed by digits, an optional trailing
`Z`, and nothing else. -/
def dateTime_form (s : CString) : Bool :=
  match dateTime_form_core (dateTime_form_unsigned s) with
  | none => false
  | some rest =>
    dateTime_form_after_fraction rest == [] || dateTime_form_after_fraction rest == [90]

/-! ## Qualified-name expansion -/

/-- Expands the qualified name of a literal: `rasqal_literal_expand_qname`.
`raptor_qname_string_to_uri` stands for the call of that name of the raptor library
with the namespaces and the error handler of the query: it takes the name, its
length and the query, and gives the URI, NULL on failure, and the query after any
report.  `rasqal_query_simple_error` is the handler handed to the promotion.  The
result is the C return value, the literal as the function leaves it (NULL when its
last reference was released) and the query. -/
def rasqal_literal_expand_qname {σ : Type} (fuel : Nat)
    (raptor_qname_string_to_uri : Option CString → Nat → σ → Option raptor_uri × σ)
    (rasqal_query_simple_error : σ → CString → σ) (rq : σ) (l : rasqal_literal) :
    Exec (Int × rasqal_literal_ptr × σ) :=
  if l.type = rasqal_literal_type.QNAME then
    match raptor_qname_string_to_uri l.string l.string_len rq with
    | (none, rq) => .ok (1, rasqal_literal_ptr.ptr l, rq)
    | (some uri, rq) =>
      let l := l.set_string none
      let l := l.set_type rasqal_literal_type.URI
      let l := l.set_uri (some uri)
      .ok (0, rasqal_literal_ptr.ptr l, rq)
  else if l.type = rasqal_literal_type.STRING then
    match l.flags with
    | none => .ok (0, rasqal_literal_ptr.ptr l, rq)
    | some flags =>
      match raptor_qname_string_to_uri (some flags) flags.length rq with
      | (none, rq) => .ok (1, rasqal_literal_ptr.ptr l, rq)
      | (some uri, rq) =>
        let l := l.set_datatype (some uri)
        let l := l.set_flags none
        let l := if l.language.isSome then l.set_language none else l
        match rasqal_literal_string_to_native fuel l (some rasqal_query_simple_error) rq with
        | .error f => .error f
        | .ok (rc, l, rq) =>
          if rc ≠ 0 then
            match rasqal_free_literal l with
            | .error f => .error f
            | .ok (l, _) => .ok (1, l, rq)
          else .ok (0, rasqal_literal_ptr.ptr l, rq)
  else .ok (0, rasqal_literal_ptr.ptr l, rq)

/-! ## Formulas -/

/-- Modelled from the spec: the struct `rasqal_formula`: an owned sequence of triple
patterns, NULL when there is none, and an owned optional literal, its value. -/
structure rasqal_formula where
  triples : Option raptor_sequence
  value : rasqal_literal_ptr
  deriving DecidableEq

/-- A formula as `rasqal_new_formula` allocates it, zeroed. -/
def rasqal_new_formula : rasqal_formula := ⟨none, rasqal_literal_ptr.null⟩

/-- Releases a formula: `rasqal_free_formula`.  Gives the calls that give memory
back, in order. -/
def rasqal_free_formula (formula : rasqal_formula) : Exec (List heap_release) :=
  let triples : List heap_release :=
    match formula.triples with
    | some t => [heap_release.sequence t]
    | none => []
  match formula.value with
  | rasqal_literal_ptr.null => .ok (triples ++ [heap_release.formula])
  | rasqal_literal_ptr.ptr v =>
    match rasqal_free_literal v with
    | .error f => .error f
    | .ok (_, released) => .ok (triples ++ released ++ [heap_release.formula])

/-- The call `raptor_sequence_join(dest, src)` of the raptor library: it moves the
items of `src` to the end of `dest`, leaves `src` empty and returns 0; when it
cannot grow `dest` it returns non-zero and moves nothing.  `grow` tells whether
`dest` can be grown.  The result is the return value, `dest` and `src`. -/
def raptor_sequence_join (grow : Bool) (dest src : raptor_sequence) :
    Int × raptor_sequence × raptor_sequence :=
  if grow then (0, dest ++ src, []) else (1, dest, src)

/-- The block of `rasqal_formula_join` that merges the triples of two present
formulas.  Gives the first formula, NULL when it was released after a failed
join of the sequences, the second formula, and the calls that give memory back. -/
def formula_join_triples (grow : Bool) (first_formula second_formula : rasqal_formula) :
    Exec (Option rasqal_formula × rasqal_formula × List heap_release) :=
  match first_formula.triples, second_formula.triples with
  | none, none => .ok (some first_formula, second_formula, [])
  | none, some t2 =>
    .ok (some { first_formula with triples := some t2 },
      { second_formula with triples := none }, [])
  | some _, none => .ok (some first_formula, second_formula, [])
  | some t1, some t2 =>
    match raptor_sequence_join grow t1 t2 with
    | (rc, dest, src) =>
      let first_formula := { first_formula with triples := some dest }
      let second_formula := { second_formula with triples := some src }
      if rc ≠ 0 then
        match rasqal_free_formula first_formula with
        | .error f => .error f
        | .ok released => .ok (none, second_formula, released)
      else .ok (some first_formula, second_formula, [])

/-- Merges two formulas: `rasqal_formula_join`.  Gives the formula returned and the
calls that give memory back.  The two formulas are taken to be distinct objects
that share no literal. -/
def rasqal_formula_join (grow : Bool) (first_formula second_formula : Option rasqal_formula) :
    Exec (Option rasqal_formula × List heap_release) :=
  match first_formula, second_formula with
  | none, none => .ok (none, [])
  | none, some second_formula => .ok (some second_formula, [])
  | some first_formula, none => .ok (some first_formula, [])
  | some first_formula, some second_formula =>
    match formula_join_triples grow first_formula second_formula with
    | .error f => .error f
    | .ok (first_formula, second_formula, released1) =>
      match rasqal_free_formula second_formula with
      | .error f => .error f
      | .ok released2 => .ok (first_formula, released1 ++ released2)

/-! ## Algebra nodes -/

/-- The algebra operators, in the order of `rasqal_algebra_node_operator_labels`. -/
inductive rasqal_algebra_node_operator
  | UNKNOWN
  | BGP
  | FILTER
  | JOIN
  | DIFF
  | LEFTJOIN
  | UNION
  | TOLIST
  | ORDERBY
  | PROJECT
  | DISTINCT
  | REDUCED
  | SLICE
  deriving DecidableEq, Repr

/-- Modelled from the spec: an expression.  Its content is opaque to the algebra
code; `id` stands for it. -/
structure rasqal_expression where
  id : Nat
  deriving DecidableEq, Repr

/-- Modelled from the spec: the operators of a parsed graph pattern. -/
inductive rasqal_graph_pattern_operator
  | UNKNOWN
  | BASIC
  | OPTIONAL
  | UNION
  | GROUP
  | GRAPH
  deriving DecidableEq, Repr

mutual
/-- Modelled from the spec: the struct `rasqal_graph_pattern` as the translator reads
it: the operator, the sequence of sub-patterns and the column range into the
triple sequence of the query. -/
inductive rasqal_graph_pattern : Type
  | mk (op : rasqal_graph_pattern_operator) (graph_patterns : rasqal_graph_pattern_seq)
      (start_column end_column : Int)
/-- The sequence of sub-patterns of a graph pattern, in order; an absent sequence
and an empty one are both `nil`. -/
inductive rasqal_graph_pattern_seq : Type
  | nil
  | cons (gp : rasqal_graph_pattern) (rest : rasqal_graph_pattern_seq)
end

deriving instance DecidableEq for rasqal_graph_pattern, rasqal_graph_pattern_seq

namespace rasqal_graph_pattern

def op : rasqal_graph_pattern → rasqal_graph_pattern_operator
  | mk o _ _ _ => o

def graph_patterns : rasqal_graph_pattern → rasqal_graph_pattern_seq
  | mk _ g _ _ => g

def start_column : rasqal_graph_pattern → Int
  | mk _ _ s _ => s

def end_column : rasqal_graph_pattern → Int
  | mk _ _ _ e => e

end rasqal_graph_pattern

/-- Modelled from the spec: the struct `rasqal_query` as the algebra code reads it:
the triple sequence shared by the whole query and the root graph pattern. -/
structure rasqal_query where
  triples : Option raptor_sequence
  query_graph_pattern : Option rasqal_graph_pattern
  deriving DecidableEq

/-- Modelled from the spec: `rasqal_query_get_triple_sequence` reads the member
`triples` of the query. -/
def rasqal_query_get_triple_sequence (query : Option rasqal_query) :
    Exec (Option raptor_sequence) :=
  match query with
  | none => .error Fault.null_deref
  | some q => .ok q.triples

/-- Modelled from the spec: `rasqal_query_get_query_graph_pattern` reads the member
`query_graph_pattern` of the query. -/
def rasqal_query_get_query_graph_pattern (query : Option rasqal_query) :
    Exec (Option rasqal_graph_pattern) :=
  match query with
  | none => .error Fault.null_deref
  | some q => .ok q.query_graph_pattern

mutual
/-- The struct `rasqal_algebra_node`, with the members the algebra code uses. -/
inductive rasqal_algebra_node : Type
  | mk (query : Option rasqal_query) (op : rasqal_algebra_node_operator)
      (triples : Option raptor_sequence) (start_column end_column : Int)
      (node1 node2 : rasqal_algebra_node_ptr) (expr : Option rasqal_expression)
      (start length : Int)
/-- A `rasqal_algebra_node*`. -/
inductive rasqal_algebra_node_ptr : Type
  | null
  | ptr (n : rasqal_algebra_node)
end

deriving instance DecidableEq for rasqal_algebra_node, rasqal_algebra_node_ptr

namespace rasqal_algebra_node

def query : rasqal_algebra_node → Option rasqal_query
  | mk q _ _ _ _ _ _ _ _ _ => q

def op : rasqal_algebra_node → rasqal_algebra_node_operator
  | mk _ o _ _ _ _ _ _ _ _ => o

def triples : rasqal_algebra_node → Option raptor_sequence
  | mk _ _ t _ _ _ _ _ _ _ => t

def start_column : rasqal_algebra_node → Int
  | mk _ _ _ s _ _ _ _ _ _ => s

def end_column : rasqal_algebra_node → Int
  | mk _ _ _ _ e _ _ _ _ _ => e

def node1 : rasqal_algebra_node → rasqal_algebra_node_ptr
  | mk _ _ _ _ _ n _ _ _ _ => n

def node2 : rasqal_algebra_node → rasqal_algebra_node_ptr
  | mk _ _ _ _ _ _ n _ _ _ => n

def expr : rasqal_algebra_node → Option rasqal_expression
  | mk _ _ _ _ _ _ _ x _ _ => x

def start : rasqal_algebra_node → Int
  | mk _ _ _ _ _ _ _ _ s _ => s

def length : rasqal_algebra_node → Int
  | mk _ _ _ _ _ _ _ _ _ l => l

def set_triples (t : Option raptor_sequence) : rasqal_algebra_node → rasqal_algebra_node
  | mk q o _ s e n1 n2 x st len => mk q o t s e n1 n2 x st len

def set_start_column (s : Int) : rasqal_algebra_node → rasqal_algebra_node
  | mk q o t _ e n1 n2 x st len => mk q o t s e n1 n2 x st len

def set_end_column (e : Int) : rasqal_algebra_node → rasqal_algebra_node
  | mk q o t s _ n1 n2 x st len => mk q o t s e n1 n2 x st len

def set_node1 (n1 : rasqal_algebra_node_ptr) : rasqal_algebra_node → rasqal_algebra_node
  | mk q o t s e _ n2 x st len => mk q o t s e n1 n2 x st len

def set_node2 (n2 : rasqal_algebra_node_ptr) : rasqal_algebra_node → rasqal_algebra_node
  | mk q o t s e n1 _ x st len => mk q o t s e n1 n2 x st len

def set_expr (x : Option rasqal_expression) : rasqal_algebra_node → rasqal_algebra_node
  | mk q o t s e n1 n2 _ st len => mk q o t s e n1 n2 x st len

end rasqal_algebra_node

/-! ## Algebra node constructors

Allocation is taken to succeed: `RASQAL_CALLOC` returns zeroed memory. -/

def rasqal_new_algebra_node (query : Option rasqal_query) (op : rasqal_algebra_node_operator) :
    rasqal_algebra_node_ptr :=
  match query with
  | none => rasqal_algebra_node_ptr.null
  | some _ =>
    rasqal_algebra_node_ptr.ptr
      (rasqal_algebra_node.mk query op none 0 0 rasqal_algebra_node_ptr.null
        rasqal_algebra_node_ptr.null none 0 0)

def rasqal_new_expr_algebra_node (query : Option rasqal_query)
    (op : rasqal_algebra_node_operator) (expr : Option rasqal_expression) :
    rasqal_algebra_node_ptr :=
  if query.isNone || expr.isNone then rasqal_algebra_node_ptr.null
  else
    match rasqal_new_algebra_node query op with
    | rasqal_algebra_node_ptr.null => rasqal_algebra_node_ptr.null
    | rasqal_algebra_node_ptr.ptr node => rasqal_algebra_node_ptr.ptr (node.set_expr expr)

def rasqal_new_triples_algebra_node (query : Option rasqal_query)
    (triples : Option raptor_sequence) (start_column end_column : Int) :
    rasqal_algebra_node_ptr :=
  if query.isNone then rasqal_algebra_node_ptr.null
  else
    match rasqal_new_algebra_node query rasqal_algebra_node_operator.BGP with
    | rasqal_algebra_node_ptr.null => rasqal_algebra_node_ptr.null
    | rasqal_algebra_node_ptr.ptr node =>
      let node := node.set_triples triples
      let start_column := if triples.isNone then -1 else start_column
      let end_column := if triples.isNone then -1 else end_column
      let node := node.set_start_column start_column
      let node := node.set_end_column end_column
      rasqal_algebra_node_ptr.ptr node

def rasqal_new_empty_algebra_node (query : Option rasqal_query) : rasqal_algebra_node_ptr :=
  if query.isNone then rasqal_algebra_node_ptr.null
  else
    match rasqal_new_algebra_node query rasqal_algebra_node_operator.BGP with
    | rasqal_algebra_node_ptr.null => rasqal_algebra_node_ptr.null
    | rasqal_algebra_node_ptr.ptr node =>
      let node := node.set_triples none
      let node := node.set_start_column (-1)
      let node := node.set_end_column (-1)
      rasqal_algebra_node_ptr.ptr node

def rasqal_new_2op_algebra_node (query : Option rasqal_query)
    (op : rasqal_algebra_node_operator) (node1 node2 : rasqal_algebra_node_ptr) :
    rasqal_algebra_node_ptr :=
  if query.isNone || node1 = rasqal_algebra_node_ptr.null then rasqal_algebra_node_ptr.null
  else if op ≠ rasqal_algebra_node_operator.TOLIST ∧ node2 = rasqal_algebra_node_ptr.null then
    rasqal_algebra_node_ptr.null
  else
    match rasqal_new_algebra_node query op with
    | rasqal_algebra_node_ptr.null => rasqal_algebra_node_ptr.null
    | rasqal_algebra_node_ptr.ptr node =>
      let node := node.set_node1 node1
      let node := node.set_node2 node2
      rasqal_algebra_node_ptr.ptr node

def rasqal_new_leftjoin_algebra_node (query : Option rasqal_query)
    (node1 node2 : rasqal_algebra_node_ptr) (expr : Option rasqal_expression) :
    rasqal_algebra_node_ptr :=
  if query.isNone || node1 = rasqal_algebra_node_ptr.null ||
      node2 = rasqal_algebra_node_ptr.null || expr.isNone then rasqal_algebra_node_ptr.null
  else
    match rasqal_new_algebra_node query rasqal_algebra_node_operator.LEFTJOIN with
    | rasqal_algebra_node_ptr.null => rasqal_algebra_node_ptr.null
    | rasqal_algebra_node_ptr.ptr node =>
      let node := node.set_node1 node1
      let node := node.set_node2 node2
      let node := node.set_expr expr
      rasqal_algebra_node_ptr.ptr node

def rasqal_algebra_node_get_operator (node : rasqal_algebra_node) :
    rasqal_algebra_node_operator :=
  node.op

/-! ## Visiting an algebra tree -/

/-- Visits a user function over a tree: `rasqal_algebra_node_visit`.  The user
function takes the query, the node and the user data and gives its return value
and the user data as it leaves them. -/
def rasqal_algebra_node_visit {σ : Type} (query : Option rasqal_query) :
    rasqal_algebra_node →
    (Option rasqal_query → rasqal_algebra_node → σ → Int × σ) → σ → Int × σ
  | rasqal_algebra_node.mk q o t s e node1 node2 x st len, fn, user_data =>
    match fn query (rasqal_algebra_node.mk q o t s e node1 node2 x st len) user_data with
    | (result, user_data) =>
      if result ≠ 0 then (result, user_data)
      else
        match (match node1 with
          | rasqal_algebra_node_ptr.null => ((0 : Int), user_data)
          | rasqal_algebra_node_ptr.ptr n1 =>
            rasqal_algebra_node_visit query n1 fn user_data) with
        | (result, user_data) =>
          if result ≠ 0 then (result, user_data)
          else
            match (match node2 with
              | rasqal_algebra_node_ptr.null => ((0 : Int), user_data)
              | rasqal_algebra_node_ptr.ptr n2 =>
                rasqal_algebra_node_visit query n2 fn user_data) with
            | (result, user_data) =>
              if result ≠ 0 then (result, user_data) else (0, user_data)

/-! ## The translator from graph patterns to algebra -/

mutual
/-- Translates a graph pattern: `rasqal_algebra_graph_pattern_to_algebra`. -/
def rasqal_algebra_graph_pattern_to_algebra (query : Option rasqal_query) :
    rasqal_graph_pattern → Exec rasqal_algebra_node_ptr
  | rasqal_graph_pattern.mk rasqal_graph_pattern_operator.BASIC _ start_column end_column =>
    match rasqal_query_get_triple_sequence query with
    | .error f => .error f
    | .ok triples =>
      .ok (rasqal_new_triples_algebra_node query triples start_column end_column)
  | rasqal_graph_pattern.mk rasqal_graph_pattern_operator.UNION graph_patterns _ _ =>
    graph_pattern_union_loop query graph_patterns rasqal_algebra_node_ptr.null
  | rasqal_graph_pattern.mk _ _ _ _ => .ok rasqal_algebra_node_ptr.null
/-- The `while(1)` loop of the Union case over the sub-patterns from the index
`idx` on, which are the elements of the sequence still to come; `node` is the tree
built so far. -/
def graph_pattern_union_loop (query : Option rasqal_query) :
    rasqal_graph_pattern_seq → rasqal_algebra_node_ptr → Exec rasqal_algebra_node_ptr
  | rasqal_graph_pattern_seq.nil, node => .ok node
  | rasqal_graph_pattern_seq.cons sgp rest, node =>
    match node with
    | rasqal_algebra_node_ptr.null =>
      match rasqal_algebra_graph_pattern_to_algebra query sgp with
      | .error f => .error f
      | .ok node => graph_pattern_union_loop query rest node
    | rasqal_algebra_node_ptr.ptr _ =>
      match rasqal_algebra_graph_pattern_to_algebra query sgp with
      | .error f => .error f
      | .ok rasqal_algebra_node_ptr.null => .ok node
      | .ok gnode =>
        graph_pattern_union_loop query rest
          (rasqal_new_2op_algebra_node query rasqal_algebra_node_operator.UNION node gnode)
end

/-- Translates the root graph pattern of a query: `rasqal_algebra_query_to_algebra`. -/
def rasqal_algebra_query_to_algebra (query : Option rasqal_query) :
    Exec rasqal_algebra_node_ptr :=
  match rasqal_query_get_query_graph_pattern query with
  | .error f => .error f
  | .ok none => .ok rasqal_algebra_node_ptr.null
  | .ok (some query_gp) => rasqal_algebra_graph_pattern_to_algebra query query_gp

/-! ## The algebra tree as the specification words it -/

/-- The sequence of sub-patterns that holds the patterns of a list, in order. -/
def rasqal_graph_pattern_seq.of_list : List rasqal_graph_pattern → rasqal_graph_pattern_seq
  | [] => rasqal_graph_pattern_seq.nil
  | p :: ps => rasqal_graph_pattern_seq.cons p (rasqal_graph_pattern_seq.of_list ps)

/-- The BGP node of the specification for a Basic pattern: it references the triple
sequence of the query with the column range of the pattern. -/
def spec_bgp_node (query : rasqal_query) (p : rasqal_graph_pattern) : rasqal_algebra_node :=
  rasqal_algebra_node.mk (some query) rasqal_algebra_node_operator.BGP query.triples
    p.start_column p.end_column rasqal_algebra_node_ptr.null rasqal_algebra_node_ptr.null
    none 0 0

/-- The binary Union node of the specification over two trees. -/
def spec_union_node (query : rasqal_query) (a b : rasqal_algebra_node) : rasqal_algebra_node :=
  rasqal_algebra_node.mk (some query) rasqal_algebra_node_operator.UNION none 0 0
    (rasqal_algebra_node_ptr.ptr a) (rasqal_algebra_node_ptr.ptr b) none 0 0

/-- The left-nested tree of the specification over the Basic patterns `p1, ps`:
`Union(...Union(Union(BGP p1, BGP p2), BGP p3)..., BGP pn)`. -/
def spec_union_fold (query : rasqal_query) (p1 : rasqal_graph_pattern)
    (ps : List rasqal_graph_pattern) : rasqal_algebra_node :=
  ps.foldl (fun tree p => spec_union_node query tree (spec_bgp_node query p))
    (spec_bgp_node query p1)

/-- The nodes of a tree in pre-order: the node, then the subtree of `node1`, then
the subtree of `node2`. -/
def rasqal_algebra_node.preorder : rasqal_algebra_node → List rasqal_algebra_node
  | rasqal_algebra_node.mk q o t s e node1 node2 x st len =>
    rasqal_algebra_node.mk q o t s e node1 node2 x st len ::
      ((match node1 with
        | rasqal_algebra_node_ptr.null => []
        | rasqal_algebra_node_ptr.ptr n1 => rasqal_algebra_node.preorder n1) ++
       (match node2 with
        | rasqal_algebra_node_ptr.null => []
        | rasqal_algebra_node_ptr.ptr n2 => rasqal_algebra_node.preorder n2))

/-- The walk of the specification over a list of nodes: the user function is called
on the nodes in order until it returns non-zero, which is then the result; the
result is 0 when it returns 0 on every node. -/
def spec_visit_walk {σ : Type} (query : Option rasqal_query)
    (fn : Option rasqal_query → rasqal_algebra_node → σ → Int × σ) :
    List rasqal_algebra_node → σ → Int × σ
  | [], user_data => (0, user_data)
  | n :: rest, user_data =>
    match fn query n user_data with
    | (result, user_data) =>
      if result ≠ 0 then (result, user_data) else spec_visit_walk query fn rest user_data

/-- A user function for `rasqal_algebra_node_visit` that returns `f` of the node and
records, in its user data, the nodes it is called on, in order. -/
def spec_recording_fn (f : rasqal_algebra_node → Int) :
    Option rasqal_query → rasqal_algebra_node → List rasqal_algebra_node →
      Int × List rasqal_algebra_node :=
  fun _ node calls => (f node, calls ++ [node])

/-! ## Kind ranks as the specification words them -/

/-- The rank order of the specification: blank < uri < string < boolean < integer <
double < float < decimal < datetime < pattern < qname. -/
def spec_kind_order : List rasqal_literal_type :=
  [rasqal_literal_type.BLANK, rasqal_literal_type.URI, rasqal_literal_type.STRING,
   rasqal_literal_type.BOOLEAN, rasqal_literal_type.INTEGER, rasqal_literal_type.DOUBLE,
   rasqal_literal_type.FLOAT, rasqal_literal_type.DECIMAL, rasqal_literal_type.DATETIME,
   rasqal_literal_type.PATTERN, rasqal_literal_type.QNAME]

/-- The rank of a kind: its place in the rank order of the specification. -/
def spec_kind_rank (t : rasqal_literal_type) : Int :=
  (spec_kind_order.indexOf t : Nat)

/-- The numeric kinds of the specification: integer, double, float, decimal. -/
def spec_kind_numeric (t : rasqal_literal_type) : Bool :=
  t = rasqal_literal_type.INTEGER || t = rasqal_literal_type.DOUBLE ||
    t = rasqal_literal_type.FLOAT || t = rasqal_literal_type.DECIMAL

/-! ## Rendering of an algebra tree -/

/-- The integer value of an operator constant, its place in
`rasqal_algebra_node_operator_labels`. -/
def rasqal_algebra_node_operator.to_int : rasqal_algebra_node_operator → Int
  | UNKNOWN => 0
  | BGP => 1
  | FILTER => 2
  | JOIN => 3
  | DIFF => 4
  | LEFTJOIN => 5
  | UNION => 6
  | TOLIST => 7
  | ORDERBY => 8
  | PROJECT => 9
  | DISTINCT => 10
  | REDUCED => 11
  | SLICE => 12

/-- Modelled from the spec: the last operator of the enumeration. -/
def RASQAL_ALGEBRA_OPERATOR_LAST : rasqal_algebra_node_operator :=
  rasqal_algebra_node_operator.SLICE

def rasqal_algebra_node_operator_labels : List CString :=
  [cstr "UNKNOWN", cstr "BGP", cstr "Filter", cstr "Join", cstr "Diff", cstr "Leftjoin",
   cstr "Union", cstr "ToList", cstr "OrderBy", cstr "Project", cstr "Distinct",
   cstr "Reduced", cstr "Slice"]

def rasqal_algebra_node_operator_as_string (op : rasqal_algebra_node_operator) : CString :=
  let op :=
    if op.to_int ≤ rasqal_algebra_node_operator.UNKNOWN.to_int ∨
        op.to_int > RASQAL_ALGEBRA_OPERATOR_LAST.to_int
    then rasqal_algebra_node_operator.UNKNOWN else op
  rasqal_algebra_node_operator_labels.getD op.to_int.toNat []

def SPACES_LENGTH : Int := 80

/-- The `while(indent > 0)` loop of `rasqal_algebra_write_indent`; `fuel` bounds the
number of rounds.  Gives the bytes written. -/
def write_indent_loop : Nat → Int → CString
  | 0, _ => []
  | fuel + 1, indent =>
    if indent > 0 then
      let sp := if indent > SPACES_LENGTH then SPACES_LENGTH else indent
      List.replicate sp.toNat 32 ++ write_indent_loop fuel (indent - sp)
    else []

/-- Writes `indent` spaces: `rasqal_algebra_write_indent`.  Gives the bytes written.
Every round of the loop takes at least one off `indent`, so `indent` rounds are
enough. -/
def rasqal_algebra_write_indent (indent : Int) : CString :=
  write_indent_loop indent.toNat indent

/-- The call `raptor_sequence_get_at(seq, idx)` of the raptor library: the item at the
index, NULL when the index is out of range. -/
def raptor_sequence_get_at (seq : raptor_sequence) (idx : Int) : Option rasqal_triple :=
  if idx < 0 then none else seq[idx.toNat]?

/-- The statements `if(arg_count) { write " ,\n"; write the indent }` that come before
every argument.  Gives the bytes written. -/
def write_separator (arg_count : Int) (indent : Int) : CString :=
  if arg_count ≠ 0 then cstr " ,\n" ++ rasqal_algebra_write_indent indent else []

/-- The `for` loop over the columns of a BGP node, from column `i` on; `fuel` bounds
the number of rounds.  `rasqal_triple_write` gives the text that the function of
that name writes for a triple.  Gives the bytes written and `arg_count`. -/
def write_triples_loop (rasqal_triple_write : rasqal_triple → CString)
    (triples : Option raptor_sequence) (end_column indent : Int) :
    Nat → Int → Int → Exec (CString × Int)
  | 0, _, arg_count => .ok ([], arg_count)
  | fuel + 1, i, arg_count =>
    if i ≤ end_column then
      match triples with
      | none => .error Fault.null_deref
      | some seq =>
        match raptor_sequence_get_at seq i with
        | none => .error Fault.null_deref
        | some t =>
          match write_triples_loop rasqal_triple_write triples end_column indent fuel (i + 1)
              (arg_count + 1) with
          | .error f => .error f
          | .ok (rest, arg_count1) =>
            .ok (write_separator arg_count indent ++ rasqal_triple_write t ++ rest, arg_count1)
    else .ok ([], arg_count)

/-- The statements of `rasqal_algebra_algebra_node_write_internal` that follow the
children and come before the closing line: the expression, then the numbers of a
Slice node.  `rasqal_expression_write` gives the text that the function of that name
writes for an expression.  Gives the bytes written. -/
def write_node_args (rasqal_expression_write : rasqal_expression → CString)
    (op : rasqal_algebra_node_operator) (expr : Option rasqal_expression)
    (start length : Int) (indent arg_count : Int) : CString :=
  let part1 : CString × Int :=
    match expr with
    | some x => (write_separator arg_count indent ++ rasqal_expression_write x, arg_count + 1)
    | none => ([], arg_count)
  let part2 : CString :=
    if op = rasqal_algebra_node_operator.SLICE then
      write_separator part1.2 indent ++ cstr "slice start " ++ sprintf_d start ++
        cstr " length " ++ sprintf_d length ++ [10]
    else []
  part1.1 ++ part2

/-- The last statements of `rasqal_algebra_algebra_node_write_internal`: a newline,
`indent -= indent_delta`, the indent and the closing parenthesis.  Gives the bytes
written. -/
def write_node_close (indent indent_delta : Int) : CString :=
  let indent := indent - indent_delta
  [10] ++ rasqal_algebra_write_indent indent ++ [41]

/-- Writes a tree in the debug format: `rasqal_algebra_algebra_node_write_internal`.
Gives the bytes written to the stream, in order; the C function returns 0 on every
path. -/
def rasqal_algebra_algebra_node_write_internal
    (rasqal_triple_write : rasqal_triple → CString)
    (rasqal_expression_write : rasqal_expression → CString) :
    rasqal_algebra_node → Int → Exec CString
  | rasqal_algebra_node.mk _ op triples start_column end_column node1 node2 expr start length,
    indent =>
    let op_string := rasqal_algebra_node_operator_as_string op
    if op = rasqal_algebra_node_operator.BGP ∧ triples = none then .ok [90]
    else
      let indent_delta : Int := op_string.length
      let indent_delta := indent_delta + 1
      let indent := indent + indent_delta
      let head := op_string ++ cstr "(\n" ++ rasqal_algebra_write_indent indent
      match (if op = rasqal_algebra_node_operator.BGP then
          write_triples_loop rasqal_triple_write triples end_column indent
            (end_column - start_column + 1).toNat start_column 0
        else .ok ([], 0)) with
      | .error f => .error f
      | .ok (bgp, arg_count) =>
        match node1 with
        | rasqal_algebra_node_ptr.null =>
          .ok (head ++ bgp ++
            write_node_args rasqal_expression_write op expr start length indent arg_count ++
            write_node_close indent indent_delta)
        | rasqal_algebra_node_ptr.ptr n1 =>
          match rasqal_algebra_algebra_node_write_internal rasqal_triple_write
              rasqal_expression_write n1 indent with
          | .error f => .error f
          | .ok text1 =>
            match node2 with
            | rasqal_algebra_node_ptr.null =>
              .ok (head ++ bgp ++ write_separator arg_count indent ++ text1 ++
                write_node_args rasqal_expression_write op expr start length indent
                  (arg_count + 1) ++
                write_node_close indent indent_delta)
            | rasqal_algebra_node_ptr.ptr n2 =>
              match rasqal_algebra_algebra_node_write_internal rasqal_triple_write
                  rasqal_expression_write n2 indent with
              | .error f => .error f
              | .ok text2 =>
                .ok (head ++ bgp ++ write_separator arg_count indent ++ text1 ++
                  write_separator (arg_count + 1) indent ++ text2 ++
                  write_node_args rasqal_expression_write op expr start length indent
                    (arg_count + 2) ++
                  write_node_close indent indent_delta)

def rasqal_algebra_algebra_node_write
    (rasqal_triple_write : rasqal_triple → CString)
    (rasqal_expression_write : rasqal_expression → CString)
    (node : rasqal_algebra_node) : Exec CString :=
  rasqal_algebra_algebra_node_write_internal rasqal_triple_write rasqal_expression_write
    node 0

/-! ## Assigned operand slots in the comparison -/

theorem strcmp_eq_zero_iff (a b : CString) : strcmp a b = 0 ↔ a = b := by
  induction a generalizing b with
  | nil => cases b <;> simp [strcmp]
  | cons c cs ih =>
    cases b with
    | nil => simp [strcmp]
    | cons d ds =>
      by_cases h : c = d
      · simp [strcmp, h, ih]
      · by_cases h2 : c < d <;> simp [strcmp, h, h2]

theorem strcmp_antisymm (a b : CString) : strcmp b a = - strcmp a b := by
  induction a generalizing b with
  | nil => cases b <;> simp [strcmp]
  | cons c cs ih =>
    cases b with
    | nil => simp [strcmp]
    | cons d ds =>
      by_cases h : c = d
      · subst h
        simp [strcmp, ih]
      · have h' : ¬ d = c := fun e => h e.symm
        by_cases h2 : c < d
        · have h3 : ¬ d < c := by omega
          simp [strcmp, h, h', h2, h3]
        · have h3 : d < c := by omega
          simp [strcmp, h, h', h2, h3]

theorem rasqal_strcasecmp_antisymm (a b : CString) :
    rasqal_strcasecmp b a = - rasqal_strcasecmp a b := by
  unfold rasqal_strcasecmp
  exact strcmp_antisymm _ _

/-! ## Equality -/

theorem equals_kinds_differ (l1 l2 : rasqal_literal) (h : l1.type ≠ l2.type)
    (hc : ¬ (l2.type = rasqal_literal_type.BOOLEAN ∧ l1.type = rasqal_literal_type.STRING)) :
    rasqal_literal_equals (rasqal_literal_ptr.ptr l1) (rasqal_literal_ptr.ptr l2) = .ok 0 := by
  obtain ⟨u1, t1, s1, n1, g1, dt1, f1, ⟨i1, d1, r1, v1⟩⟩ := l1
  obtain ⟨u2, t2, s2, n2, g2, dt2, f2, ⟨i2, d2, r2, v2⟩⟩ := l2
  simp only [rasqal_literal.type] at h hc
  unfold rasqal_literal_equals
  simp [h, hc]

/-- Claim C9 (as amended): for a string literal `s` and a boolean literal `b`, each with
its lexical text present, `rasqal_literal_equals(s, b)` is 1 when the text of `s`
equals the lexical text of `b` and 0 otherwise, while `rasqal_literal_equals(b, s)`
is 0 whatever the texts: the carve-out applies only when the boolean is the second
operand. -/
theorem rasqal_literal_equals_boolean_string_carve_out (s b : rasqal_literal)
    (ts tb : CString) (hs : s.type = rasqal_literal_type.STRING)
    (hb : b.type = rasqal_literal_type.BOOLEAN) (hts : s.string = some ts)
    (htb : b.string = some tb) :
    rasqal_literal_equals (rasqal_literal_ptr.ptr s) (rasqal_literal_ptr.ptr b)
        = .ok (if ts = tb then 1 else 0) ∧
      rasqal_literal_equals (rasqal_literal_ptr.ptr b) (rasqal_literal_ptr.ptr s) = .ok 0 := by
  obtain ⟨u1, t1, s1, n1, g1, dt1, f1, ⟨i1, d1, r1, v1⟩⟩ := s
  obtain ⟨u2, t2, s2, n2, g2, dt2, f2, ⟨i2, d2, r2, v2⟩⟩ := b
  simp only [rasqal_literal.type, rasqal_literal.string] at hs hb hts htb
  subst hs hb hts htb
  constructor
  · unfold rasqal_literal_equals
    simp [c_bool, strcmp_eq_zero_iff]
  · unfold rasqal_literal_equals
    simp

/-- Claim C9 (counterexample): the boolean literal true and the plain string "true"
have the same lexical text, yet `rasqal_literal_equals(b, s)` with the boolean first
is 0. -/
theorem rasqal_literal_equals_boolean_first_counterexample :
    rasqal_new_boolean_literal 1 = rasqal_literal_ptr.ptr
        (rasqal_literal.mk 1 rasqal_literal_type.BOOLEAN (some (cstr "true")) 4 none
          (some rasqal_xsd_boolean_uri) none
          (rasqal_literal_value.mk 1 (Dbl.fin 0 0) none rasqal_variable_ptr.null)) ∧
      rasqal_new_string_literal 0 (cstr "true") none none none = .ok (rasqal_literal_ptr.ptr
        (rasqal_literal.mk 1 rasqal_literal_type.STRING (some (cstr "true")) 4 none none none
          rasqal_literal_value.zero)) ∧
      rasqal_literal_equals (rasqal_new_boolean_literal 1)
        (rasqal_literal_ptr.ptr
          (rasqal_literal.mk 1 rasqal_literal_type.STRING (some (cstr "true")) 4 none none none
            rasqal_literal_value.zero)) = .ok 0 := by
  decide

/-- Claim C9 (witness): the amended statement at the plain string "true" and the boolean
literal true. -/
theorem rasqal_literal_equals_boolean_string_carve_out_witness :
    rasqal_literal_equals
        (rasqal_literal_ptr.ptr
          (rasqal_literal.mk 1 rasqal_literal_type.STRING (some (cstr "true")) 4 none none none
            rasqal_literal_value.zero))
        (rasqal_literal_ptr.ptr
          (rasqal_literal.mk 1 rasqal_literal_type.BOOLEAN (some (cstr "true")) 4 none
            (some rasqal_xsd_boolean_uri) none
            (rasqal_literal_value.mk 1 (Dbl.fin 0 0) none rasqal_variable_ptr.null)))
        = .ok (if cstr "true" = cstr "true" then 1 else 0) ∧
      rasqal_literal_equals
        (rasqal_literal_ptr.ptr
          (rasqal_literal.mk 1 rasqal_literal_type.BOOLEAN (some (cstr "true")) 4 none
            (some rasqal_xsd_boolean_uri) none
            (rasqal_literal_value.mk 1 (Dbl.fin 0 0) none rasqal_variable_ptr.null)))
        (rasqal_literal_ptr.ptr
          (rasqal_literal.mk 1 rasqal_literal_type.STRING (some (cstr "true")) 4 none none none
            rasqal_literal_value.zero)) = .ok 0 :=
  rasqal_literal_equals_boolean_string_carve_out _ _ (cstr "true") (cstr "true")
    rfl rfl rfl rfl

/-- Claim C10 (the code at the failing input): with exactly one operand absent
`rasqal_literal_equals` returns 1, the value that means equal; so a variable
literal bound to the integer 1 and an unbound variable literal are reported
equal. -/
theorem rasqal_literal_equals_one_absent_returns_one :
    (∀ l : rasqal_literal,
        rasqal_literal_equals rasqal_literal_ptr.null (rasqal_literal_ptr.ptr l) = .ok 1 ∧
        rasqal_literal_equals (rasqal_literal_ptr.ptr l) rasqal_literal_ptr.null = .ok 1) ∧
      rasqal_literal_equals
        (rasqal_new_variable_literal (rasqal_variable_ptr.ptr (rasqal_variable.mk (cstr "x")
          (rasqal_new_integer_literal rasqal_literal_type.INTEGER 1))))
        (rasqal_new_variable_literal (rasqal_variable_ptr.ptr (rasqal_variable.mk (cstr "y")
          rasqal_literal_ptr.null))) = .ok 1 := by
  refine ⟨fun l => ⟨?_, ?_⟩, by decide⟩
  · unfold rasqal_literal_equals
    rfl
  · obtain ⟨u, t, s, n, g, dt, f, ⟨i, d, r, v⟩⟩ := l
    unfold rasqal_literal_equals
    rfl

/-- Claim C2 (the code at the failing input): comparing the integer literals -2147483648
and 1 returns 2147483647, a positive value, with the error flag unset, for every
flags value, although -2147483648 < 1. -/
theorem rasqal_literal_compare_integer_overflow (flags : Nat) :
    rasqal_literal_compare
        (rasqal_new_integer_literal rasqal_literal_type.INTEGER (-2147483648))
        (rasqal_new_integer_literal rasqal_literal_type.INTEGER 1) flags
      = .ok (2147483647, 0) := by
  rfl

/-! ## Decimal rendering and parsing -/

theorem isdigit_render (n : Nat) (h : n < 10) : isdigit (48 + n) = true := by
  simp [isdigit]
  omega

theorem render_nat_aux_digits (fuel n : Nat) (tl : CString) (h : n < fuel)
    (htl : ∀ c ∈ tl, isdigit c = true) :
    ∀ c ∈ render_nat_aux fuel n tl, isdigit c = true := by
  induction fuel generalizing n tl with
  | zero => omega
  | succ fuel ih =>
    unfold render_nat_aux
    split
    · intro c hc
      rcases List.mem_cons.mp hc with rfl | hc
      · exact isdigit_render n (by assumption)
      · exact htl c hc
    · apply ih
      · omega
      · intro c hc
        rcases List.mem_cons.mp hc with rfl | hc
        · exact isdigit_render _ (Nat.mod_lt _ (by decide))
        · exact htl c hc

theorem render_nat_aux_ne_nil (fuel n : Nat) (tl : CString) (h : n < fuel) :
    render_nat_aux fuel n tl ≠ [] := by
  induction fuel generalizing n tl with
  | zero => omega
  | succ fuel ih =>
    unfold render_nat_aux
    split
    · simp
    · apply ih
      omega

theorem scan_digits_render_nat_aux (fuel n : Nat) (tl : CString) (acc : Nat) (h : n < fuel) :
    ∃ k, scan_digits (render_nat_aux fuel n tl) acc = scan_digits tl (acc * 10 ^ k + n) := by
  induction fuel generalizing n tl acc with
  | zero => omega
  | succ fuel ih =>
    unfold render_nat_aux
    split
    · refine ⟨1, ?_⟩
      simp [scan_digits, isdigit_render n (by assumption)]
    · obtain ⟨k, hk⟩ := ih (n / 10) ((48 + n % 10) :: tl) acc (by omega)
      refine ⟨k + 1, ?_⟩
      rw [hk]
      simp only [scan_digits, isdigit_render _ (Nat.mod_lt n (by decide : 0 < 10)), if_true]
      congr 1
      have := Nat.div_add_mod n 10
      rw [pow_succ]
      simp only [Nat.add_sub_cancel_left]
      nlinarith [Nat.div_add_mod n 10]

theorem render_nat_digits (n : Nat) : ∀ c ∈ render_nat n, isdigit c = true :=
  render_nat_aux_digits (n + 1) n [] (by omega) (by simp)

theorem render_nat_ne_nil (n : Nat) : render_nat n ≠ [] :=
  render_nat_aux_ne_nil (n + 1) n [] (by omega)

theorem scan_digits_render_nat (n : Nat) : scan_digits (render_nat n) 0 = (n, []) := by
  obtain ⟨k, hk⟩ := scan_digits_render_nat_aux (n + 1) n [] 0 (by omega)
  unfold render_nat
  rw [hk]
  simp [scan_digits]

/-- A text of decimal digits is read by `strtol` as its value, clamped to
`LONG_MAX`, and consumed whole. -/
theorem strtol_of_digits (s : CString) (hne : s ≠ []) (hd : ∀ c ∈ s, isdigit c = true) :
    strtol s = (min ((scan_digits s 0).1 : Int) LONG_MAX, (scan_digits s 0).2) := by
  cases s with
  | nil => exact absurd rfl hne
  | cons c cs =>
    have hc : isdigit c = true := hd c (List.mem_cons_self _ _)
    have hsp : isspace c = false := by
      simp [isdigit] at hc
      simp [isspace]
      omega
    have h45 : c ≠ 45 := by
      rintro rfl
      simp [isdigit] at hc
    have h43 : c ≠ 43 := by
      rintro rfl
      simp [isdigit] at hc
    have hsign : scan_sign (c :: cs) = (false, c :: cs) := by
      unfold scan_sign
      split
      · simp_all
      · simp_all
      · rfl
    simp [strtol, List.dropWhile, hsp, hsign, hc]

/-- A minus sign followed by decimal digits is read by `strtol` as the negated value,
clamped to `LONG_MIN`, and consumed whole. -/
theorem strtol_of_neg_digits (s : CString) (hne : s ≠ []) (hd : ∀ c ∈ s, isdigit c = true) :
    strtol (45 :: s) = (max (-((scan_digits s 0).1 : Int)) LONG_MIN, (scan_digits s 0).2) := by
  cases s with
  | nil => exact absurd rfl hne
  | cons c cs =>
    have hc : isdigit c = true := hd c (List.mem_cons_self _ _)
    have hsp : isspace 45 = false := by decide
    simp [strtol, List.dropWhile, hsp, scan_sign, hc]

theorem strtol_sprintf_d (n : Int) (hlo : LONG_MIN ≤ n) (hhi : n ≤ LONG_MAX) :
    strtol (sprintf_d n) = (n, []) := by
  unfold sprintf_d
  split
  · rw [strtol_of_neg_digits _ (render_nat_ne_nil _) (render_nat_digits _),
      scan_digits_render_nat]
    simp only [Prod.mk.injEq, and_true]
    omega
  · rw [strtol_of_digits _ (render_nat_ne_nil _) (render_nat_digits _),
      scan_digits_render_nat]
    simp only [Prod.mk.injEq, and_true]
    omega

theorem sprintf_d_ne_nil (n : Int) : sprintf_d n ≠ [] := by
  unfold sprintf_d
  split
  · simp
  · exact render_nat_ne_nil _

theorem wrap32_of_int (n : Int) (hlo : INT_MIN ≤ n) (hhi : n ≤ INT_MAX) : wrap32 n = n := by
  unfold INT_MIN at hlo
  unfold INT_MAX at hhi
  unfold wrap32
  omega

theorem atoi_sprintf_d (n : Int) (hlo : INT_MIN ≤ n) (hhi : n ≤ INT_MAX) :
    atoi (sprintf_d n) = n := by
  unfold atoi
  rw [strtol_sprintf_d n (by unfold INT_MIN at hlo; unfold LONG_MIN; omega)
    (by unfold INT_MAX at hhi; unfold LONG_MAX; omega)]
  exact wrap32_of_int n hlo hhi

theorem check_integer_format_sprintf_d (n : Int) (hlo : INT_MIN ≤ n) (hhi : n ≤ INT_MAX)
    (flags : Int) : rasqal_literal_check_integer_format (sprintf_d n) flags = 1 := by
  unfold rasqal_literal_check_integer_format
  rw [strtol_sprintf_d n (by unfold INT_MIN at hlo; unfold LONG_MIN; omega)
    (by unfold INT_MAX at hhi; unfold LONG_MAX; omega)]
  have := sprintf_d_ne_nil n
  cases h : sprintf_d n with
  | nil => exact absurd h this
  | cons c cs => simp [fully_consumed]

/-! ## The registry and the promotion of typed strings -/

theorem sparql_xsd_datatypes_table_eq :
    sparql_xsd_datatypes_table =
      [ ⟨rasqal_literal_type.BOOLEAN, cstr "boolean", some rasqal_xsd_boolean_uri,
          fun _ s f => .ok (rasqal_literal_check_boolean_format s f)⟩,
        ⟨rasqal_literal_type.INTEGER, cstr "integer", some rasqal_xsd_integer_uri,
          fun _ s f => .ok (rasqal_literal_check_integer_format s f)⟩,
        ⟨rasqal_literal_type.DOUBLE, cstr "double", some rasqal_xsd_double_uri,
          fun _ s f => .ok (rasqal_literal_check_double_format s f)⟩,
        ⟨rasqal_literal_type.FLOAT, cstr "float", some rasqal_xsd_float_uri,
          rasqal_literal_check_float_format⟩,
        ⟨rasqal_literal_type.DECIMAL, cstr "decimal", some rasqal_xsd_decimal_uri,
          fun _ s f => .ok (rasqal_literal_check_decimal_format s f)⟩,
        ⟨rasqal_literal_type.DATETIME, cstr "dateTime", some rasqal_xsd_datetime_uri,
          fun _ s f => .ok (rasqal_literal_check_dateTime_format s f)⟩ ] := rfl

/-- Every entry of the registry is found by the lookup of its own datatype, and its
kind is not UNKNOWN. -/
theorem xsd_lookup_mem (e : xsd_datatype) (he : e ∈ sparql_xsd_datatypes_table) :
    ∃ i u, e.uri = some u ∧ e.type ≠ rasqal_literal_type.UNKNOWN ∧
      xsd_lookup sparql_xsd_datatypes_table 0 u = .ok (some (i, e)) := by
  rw [sparql_xsd_datatypes_table_eq] at he
  simp only [List.mem_cons, List.mem_singleton, List.not_mem_nil, or_false] at he
  rcases he with rfl | rfl | rfl | rfl | rfl | rfl
  · exact ⟨0, _, rfl, by decide, rfl⟩
  · exact ⟨1, _, rfl, by decide, rfl⟩
  · exact ⟨2, _, rfl, by decide, rfl⟩
  · exact ⟨3, _, rfl, by decide, rfl⟩
  · exact ⟨4, _, rfl, by decide, rfl⟩
  · exact ⟨5, _, rfl, by decide, rfl⟩

/-- When the validator of the literal's registry entry rejects the text, the promotion
returns 1, leaves the literal as it was, and calls the handler, if there is one,
with the message naming the entry's label and the text. -/
theorem string_to_native_rejected {σ : Type} (e : xsd_datatype)
    (he : e ∈ sparql_xsd_datatypes_table) (fuel : Nat) (l : rasqal_literal) (s : CString)
    (hdt : l.datatype = e.uri) (hs : l.string = some s) (hrej : e.check fuel s 0 = .ok 0)
    (handler : Option (σ → CString → σ)) (data : σ) :
    rasqal_literal_string_to_native fuel l handler data =
      .ok (1, l,
        match handler with
        | some h => h data (illegal_type_message e.label s)
        | none => data) := by
  obtain ⟨i, u, hu, hty, hlook⟩ := xsd_lookup_mem e he
  unfold rasqal_literal_string_to_native
  rw [hdt, hu]
  simp only [hlook, hs, hrej, hty, if_false, if_true]
  cases handler <;> rfl

/-- The promotion of a string literal typed xsd:integer whose text the integer
validator accepts. -/
theorem string_to_native_integer {σ : Type} (fuel : Nat) (u : Int) (t : rasqal_literal_type)
    (s : CString) (n : Nat) (g f : Option CString) (v : rasqal_literal_value)
    (handler : Option (σ → CString → σ)) (data : σ)
    (hok : rasqal_literal_check_integer_format s 0 = 1) :
    rasqal_literal_string_to_native fuel
        (rasqal_literal.mk u t (some s) n g (some rasqal_xsd_integer_uri) f v) handler data =
      .ok (0, rasqal_literal.mk u rasqal_literal_type.INTEGER (some s) n none
        (some rasqal_xsd_integer_uri) f
        (rasqal_literal_value.mk (atoi s) v.floating v.uri v.var), data) := by
  obtain ⟨i, d, r, w⟩ := v
  have hlook : xsd_lookup sparql_xsd_datatypes_table 0 rasqal_xsd_integer_uri =
      .ok (some (1, ⟨rasqal_literal_type.INTEGER, cstr "integer", some rasqal_xsd_integer_uri,
        fun _ s f => .ok (rasqal_literal_check_integer_format s f)⟩)) := rfl
  unfold rasqal_literal_string_to_native
  simp [rasqal_literal.datatype, rasqal_literal.string, hlook, hok,
    rasqal_literal.set_language, rasqal_literal.set_type,
    rasqal_literal.set_integer, rasqal_literal_value.floating, rasqal_literal_value.uri,
    rasqal_literal_value.var]

/-- Claim C4: for every entry of the datatype registry (boolean, integer, double,
decimal, dateTime; the float validator never returns an answer) and every text that
the entry's validator rejects, `rasqal_new_string_literal` with that text and the
entry's datatype returns NULL: the construction fails and there is no fall-back to a
string literal.  In particular this holds for the integer entry. -/
theorem rasqal_new_string_literal_rejected_text (e : xsd_datatype)
    (he : e ∈ sparql_xsd_datatypes_table) (fuel : Nat) (s : CString)
    (language datatype_qname : Option CString) (hrej : e.check fuel s 0 = .ok 0) :
    rasqal_new_string_literal fuel s language e.uri datatype_qname =
      .ok rasqal_literal_ptr.null := by
  unfold rasqal_new_string_literal
  simp only
  rw [string_to_native_rejected e he fuel
    (rasqal_literal.mk 1 rasqal_literal_type.STRING (some s) s.length
      (if (e.uri.isSome && language.isSome) = true then none else language) e.uri
      datatype_qname rasqal_literal_value.zero) s rfl rfl hrej]
  simp [rasqal_free_literal, rasqal_literal.usage, rasqal_literal.type,
    rasqal_literal.set_usage, wrap32]

/-- Claim C4 (witness): the texts "abc" and "" with the integer entry of the registry. -/
theorem rasqal_new_string_literal_rejected_text_witness :
    rasqal_new_string_literal 0 (cstr "abc") none (some rasqal_xsd_integer_uri) none =
        .ok rasqal_literal_ptr.null ∧
      rasqal_new_string_literal 0 (cstr "") none (some rasqal_xsd_integer_uri) none =
        .ok rasqal_literal_ptr.null :=
  ⟨rasqal_new_string_literal_rejected_text
      ⟨rasqal_literal_type.INTEGER, cstr "integer", some rasqal_xsd_integer_uri,
        fun _ s f => .ok (rasqal_literal_check_integer_format s f)⟩
      (List.Mem.tail _ (List.Mem.head _)) 0 (cstr "abc") none none (by decide),
    rasqal_new_string_literal_rejected_text
      ⟨rasqal_literal_type.INTEGER, cstr "integer", some rasqal_xsd_integer_uri,
        fun _ s f => .ok (rasqal_literal_check_integer_format s f)⟩
      (List.Mem.tail _ (List.Mem.head _)) 0 (cstr "") none none (by decide)⟩

/-- Claim C5 (as amended): when the validator of the literal's registry entry rejects the
text, `rasqal_literal_string_to_native` called with a handler reports to it exactly
the message "Illegal type <label> string '<text>'" and returns failure; called
without a handler, as `rasqal_new_string_literal` calls it, it returns failure and
reports nothing. -/
theorem rasqal_literal_string_to_native_reports {σ : Type} (e : xsd_datatype)
    (he : e ∈ sparql_xsd_datatypes_table) (fuel : Nat) (l : rasqal_literal) (s : CString)
    (hdt : l.datatype = e.uri) (hs : l.string = some s) (hrej : e.check fuel s 0 = .ok 0)
    (handler : σ → CString → σ) (data : σ) :
    rasqal_literal_string_to_native fuel l (some handler) data =
        .ok (1, l, handler data
          (cstr "Illegal type " ++ e.label ++ cstr " string " ++ [39] ++ s ++ [39])) ∧
      rasqal_literal_string_to_native fuel l (none : Option (σ → CString → σ)) data =
        .ok (1, l, data) :=
  ⟨string_to_native_rejected e he fuel l s hdt hs hrej (some handler) data,
    string_to_native_rejected e he fuel l s hdt hs hrej none data⟩

/-! ## Lemmas on the model of `double` -/

theorem Dbl.round_finite (num : Int) (den : Nat) (h : num.natAbs < DBL_OVERFLOW * den) :
    ∃ m e, Dbl.round num den = Dbl.fin m e := by
  unfold Dbl.round
  simp only
  split_ifs <;> first | exact ⟨_, _, rfl⟩ | omega

theorem Dbl.of_int_finite (n : Int) (hlo : INT_MIN ≤ n) (hhi : n ≤ INT_MAX) :
    ∃ m e, Dbl.of_int n = Dbl.fin m e := by
  apply Dbl.round_finite
  have h : (2147483649 : Nat) ≤ DBL_OVERFLOW := by decide
  unfold INT_MIN at hlo
  unfold INT_MAX at hhi
  omega

theorem Dbl.sub_self_fin (m e : Int) : Dbl.sub (Dbl.fin m e) (Dbl.fin m e) = Dbl.fin 0 0 := by
  simp [Dbl.sub, Dbl.round_scaled, Dbl.round]

theorem double_to_int_sub_self (x : Dbl) (h : ∃ m e, x = Dbl.fin m e) :
    double_to_int (Dbl.sub x x) = 0 := by
  obtain ⟨m, e, rfl⟩ := h
  rw [Dbl.sub_self_fin]
  rfl

theorem scan_hex_of_digits (u : CString) (hd : ∀ c ∈ u, isdigit c = true) :
    scan_hex u = none := by
  unfold scan_hex
  split
  · rename_i x r
    have hx : isdigit x = true := hd x (by simp)
    have h120 : x ≠ 120 := by
      rintro rfl
      simp [isdigit] at hx
    have h88 : x ≠ 88 := by
      rintro rfl
      simp [isdigit] at hx
    simp [h120, h88]
  · rfl

theorem scan_decimal_of_digits (u : CString) (n : Nat) (hne : u ≠ [])
    (hscan : scan_digits u 0 = (n, [])) : scan_decimal u = some (n, 0, []) := by
  unfold scan_decimal
  have hlen : u.length ≠ 0 := by
    cases u with
    | nil => exact absurd rfl hne
    | cons c cs => simp
  simp [hscan, hlen, scan_exponent]

theorem strtod_of_digits (u : CString) (n : Nat) (hne : u ≠ [])
    (hd : ∀ c ∈ u, isdigit c = true) (hscan : scan_digits u 0 = (n, [])) :
    strtod u = (Dbl.round (n : Int) 1, []) ∧ strtod (45 :: u) = (Dbl.round (-(n : Int)) 1, []) := by
  cases u with
  | nil => exact absurd rfl hne
  | cons c cs =>
    have hc : isdigit c = true := hd c (List.mem_cons_self _ _)
    have hsp : isspace c = false := by
      simp [isdigit] at hc
      simp [isspace]
      omega
    have h45 : c ≠ 45 := by
      rintro rfl
      simp [isdigit] at hc
    have h43 : c ≠ 43 := by
      rintro rfl
      simp [isdigit] at hc
    have hsign : scan_sign (c :: cs) = (false, c :: cs) := by
      unfold scan_sign
      split
      · simp_all
      · simp_all
      · rfl
    have hsp45 : isspace 45 = false := by decide
    constructor
    · simp [strtod, List.dropWhile, hsp, hsign, scan_hex_of_digits _ hd,
        scan_decimal_of_digits _ n hne hscan]
    · simp [strtod, List.dropWhile, hsp45, scan_sign, scan_hex_of_digits _ hd,
        scan_decimal_of_digits _ n hne hscan]

theorem strtod_sprintf_d (n : Int) : strtod (sprintf_d n) = (Dbl.of_int n, []) := by
  have h := strtod_of_digits (render_nat n.natAbs) n.natAbs (render_nat_ne_nil _)
    (render_nat_digits _) (scan_digits_render_nat _)
  unfold sprintf_d Dbl.of_int
  split
  · rw [h.2]
    congr 2
    omega
  · rw [h.1]
    congr 2
    omega

/-! ## Comparison with promotion -/

/-- In standards mode an integer literal and a double-kind literal holding the same
value, converted, compare equal in either order. -/
theorem compare_xquery_integer_double (n : Int) (hlo : INT_MIN ≤ n) (hhi : n ≤ INT_MAX)
    (d : rasqal_literal) (hd : d.type = rasqal_literal_type.DOUBLE)
    (hv : d.value.floating = Dbl.of_int n) (flags : Nat)
    (hx : flags &&& RASQAL_COMPARE_XQUERY ≠ 0) :
    rasqal_literal_compare (rasqal_new_integer_literal rasqal_literal_type.INTEGER n)
        (rasqal_literal_ptr.ptr d) flags = .ok (0, 0) ∧
      rasqal_literal_compare (rasqal_literal_ptr.ptr d)
        (rasqal_new_integer_literal rasqal_literal_type.INTEGER n) flags = .ok (0, 0) := by
  obtain ⟨u, t, s, len, g, dt, f, ⟨i, x, r, w⟩⟩ := d
  simp only [rasqal_literal.type, rasqal_literal.value, rasqal_literal_value.floating] at hd hv
  subst hd hv
  have hz := double_to_int_sub_self (Dbl.of_int n) (Dbl.of_int_finite n hlo hhi)
  constructor
  · simp [rasqal_literal_compare, rasqal_new_integer_literal, compare_classify, lits_get,
      rasqal_literal.type, compare_locals.init, slot_set, compare_target, hx,
      compare_promote, rasqal_literal_as_floating, rasqal_literal.value,
      rasqal_literal_value.integer, rasqal_literal_value.floating, compare_final, slot_get,
      assigned, hz]
  · simp [rasqal_literal_compare, rasqal_new_integer_literal, compare_classify, lits_get,
      rasqal_literal.type, compare_locals.init, slot_set, compare_target, hx,
      compare_promote, rasqal_literal_as_floating, rasqal_literal.value,
      rasqal_literal_value.integer, rasqal_literal_value.floating, compare_final, slot_get,
      assigned, hz]

/-- In legacy mode an integer literal and a string-kind literal whose text is the
decimal rendering of the same integer compare equal in either order. -/
theorem compare_legacy_integer_string (n : Int) (hlo : INT_MIN ≤ n) (hhi : n ≤ INT_MAX)
    (s : rasqal_literal) (hs : s.type = rasqal_literal_type.STRING)
    (ht : s.string = some (sprintf_d n)) :
    rasqal_literal_compare (rasqal_new_integer_literal rasqal_literal_type.INTEGER n)
        (rasqal_literal_ptr.ptr s) 0 = .ok (0, 0) ∧
      rasqal_literal_compare (rasqal_literal_ptr.ptr s)
        (rasqal_new_integer_literal rasqal_literal_type.INTEGER n) 0 = .ok (0, 0) := by
  obtain ⟨u, t, str, len, g, dt, f, ⟨i, x, r, w⟩⟩ := s
  simp only [rasqal_literal.type, rasqal_literal.string] at hs ht
  subst hs ht
  have hz := double_to_int_sub_self (Dbl.of_int n) (Dbl.of_int_finite n hlo hhi)
  have hne := sprintf_d_ne_nil n
  have hfc : fully_consumed (sprintf_d n) [] = true := by
    cases h : sprintf_d n with
    | nil => exact absurd h hne
    | cons c cs => simp [fully_consumed]
  constructor
  · simp [rasqal_literal_compare, rasqal_new_integer_literal, compare_classify, lits_get,
      rasqal_literal.type, compare_locals.init, slot_set, compare_target,
      RASQAL_COMPARE_XQUERY,
      compare_promote, rasqal_literal_as_floating, rasqal_literal.value,
      rasqal_literal_value.integer, rasqal_literal_value.floating, compare_final, slot_get,
      assigned, hz, rasqal_literal.string, strtod_sprintf_d, hfc]
  · simp [rasqal_literal_compare, rasqal_new_integer_literal, compare_classify, lits_get,
      rasqal_literal.type, compare_locals.init, slot_set, compare_target,
      RASQAL_COMPARE_XQUERY,
      compare_promote, rasqal_literal_as_floating, rasqal_literal.value,
      rasqal_literal_value.integer, rasqal_literal_value.floating, compare_final, slot_get,
      assigned, hz, rasqal_literal.string, strtod_sprintf_d, hfc]

theorem double_to_int_fin_sign (num : Int) (m : Nat) (e : Int) (hm : m ≠ 0) :
    double_to_int (Dbl.fin (Int.sign num * (m : Int)) e) = Int.sign num := by
  rcases lt_trichotomy num 0 with h | h | h
  · have hs : Int.sign num = -1 := Int.sign_eq_neg_one_of_neg h
    have : (0 : Int) < m := by omega
    simp [double_to_int, Dbl.is_zero, Dbl.lt_zero, hs]
    omega
  · subst h
    simp [double_to_int, Dbl.is_zero]
  · have hs : Int.sign num = 1 := Int.sign_eq_one_of_pos h
    have : (0 : Int) < m := by omega
    simp [double_to_int, Dbl.is_zero, Dbl.lt_zero, hs]
    omega

theorem double_to_int_round_neg (num : Int) (den : Nat) :
    double_to_int (Dbl.round (-num) den) = - double_to_int (Dbl.round num den) := by
  unfold Dbl.round
  simp only [Int.natAbs_neg]
  by_cases h0 : num.natAbs = 0
  · simp [h0, double_to_int, Dbl.is_zero]
  · have hne : num ≠ 0 := by
      intro h
      apply h0
      simp [h]
    simp only [h0, if_false]
    by_cases h1 : DBL_OVERFLOW * den ≤ num.natAbs
    · simp only [h1, if_true]
      rcases lt_trichotomy num 0 with h | h | h
      · have h' : ¬ (0 < num) := by omega
        simp [double_to_int, Dbl.is_zero, Dbl.lt_zero, h, h']
      · exact absurd h hne
      · have h' : ¬ (num < 0) := by omega
        simp [double_to_int, Dbl.is_zero, Dbl.lt_zero, h, h']
    · simp only [h1, if_false]
      split_ifs
      all_goals
        first
        | rfl
        | (rw [double_to_int_fin_sign _ _ _ (by assumption),
             double_to_int_fin_sign _ _ _ (by assumption)]
           simp [Int.sign_neg])
        | (rw [double_to_int_fin_sign _ _ _ (by norm_num),
             double_to_int_fin_sign _ _ _ (by norm_num)]
           simp [Int.sign_neg])

theorem double_to_int_sub_antisymm (a b : Dbl) (h : Dbl.sub a b ≠ Dbl.nan) :
    double_to_int (Dbl.sub b a) = - double_to_int (Dbl.sub a b) := by
  cases a with
  | nan => simp [Dbl.sub] at h
  | inf x =>
    cases b with
    | nan => simp [Dbl.sub] at h
    | inf y =>
      by_cases hxy : x = y
      · simp [Dbl.sub, hxy] at h
      · have hyx : ¬ y = x := fun e => hxy e.symm
        cases x <;> cases y <;> simp_all [Dbl.sub, double_to_int, Dbl.is_zero, Dbl.lt_zero]
    | fin m e => cases x <;> simp [Dbl.sub, double_to_int, Dbl.is_zero, Dbl.lt_zero]
  | fin m e =>
    cases b with
    | nan => simp [Dbl.sub] at h
    | inf y => cases y <;> simp [Dbl.sub, double_to_int, Dbl.is_zero, Dbl.lt_zero]
    | fin m2 e2 =>
      simp only [Dbl.sub, Dbl.round_scaled]
      rw [min_comm e2 e, ← double_to_int_round_neg]
      congr 2
      ring

theorem wrap32_neg (x : Int) (hlo : INT_MIN < x) (hhi : x ≤ INT_MAX) :
    wrap32 (-x) = - wrap32 x := by
  unfold INT_MIN at hlo
  unfold INT_MAX at hhi
  unfold wrap32
  omega

/-- The closing comparison of the two texts, once both are assigned. -/
theorem compare_strings_eq (c : compare_locals) (x1 x2 : CString) (flags : Nat)
    (hc : c.strings = (some (some x1), some (some x2))) :
    compare_strings c flags
        = .ok ((if flags &&& RASQAL_COMPARE_NOCASE = 0 then strcmp x1 x2
            else rasqal_strcasecmp x1 x2), 0) := by
  by_cases h : flags &&& RASQAL_COMPARE_NOCASE = 0
  · simp [compare_strings, slot_get, assigned, hc, h]
  · simp [compare_strings, slot_get, assigned, hc, h]

theorem compare_strings_swap (c : compare_locals) (x1 x2 : CString) (flags : Nat)
    (hc : c.strings = (some (some x2), some (some x1))) :
    compare_strings c flags
        = .ok (-(if flags &&& RASQAL_COMPARE_NOCASE = 0 then strcmp x1 x2
            else rasqal_strcasecmp x1 x2), 0) := by
  rw [compare_strings_eq c x2 x1 flags hc]
  by_cases h : flags &&& RASQAL_COMPARE_NOCASE = 0
  · simp [h, strcmp_antisymm x1 x2]
  · simp [h, rasqal_strcasecmp_antisymm x1 x2]

theorem language_differs_comm (a b : Option CString) :
    language_differs b a = language_differs a b := by
  cases a with
  | none => cases b <;> rfl
  | some x =>
    cases b with
    | none => rfl
    | some y =>
      simp only [language_differs]
      rw [rasqal_strcasecmp_antisymm x y, Bool.eq_iff_iff]
      simp only [bne_iff_ne, ne_eq, neg_eq_zero]

/-- Two string literals whose language tags do not match compare as 1, with the error
flag unset. -/
theorem compare_string_language_mismatch (a b : rasqal_literal) (flags : Nat)
    (ha : a.type = rasqal_literal_type.STRING) (hb : b.type = rasqal_literal_type.STRING)
    (hl : language_differs a.language b.language = true) :
    rasqal_literal_compare (rasqal_literal_ptr.ptr a) (rasqal_literal_ptr.ptr b) flags
      = .ok (1, 0) := by
  obtain ⟨u1, t, s1, n1, g1, dt1, f1, ⟨i1, d1, r1, v1⟩⟩ := a
  obtain ⟨u2, t2, s2, n2, g2, dt2, f2, ⟨i2, d2, r2, v2⟩⟩ := b
  simp only [rasqal_literal.type, rasqal_literal.language] at ha hb hl
  subst ha hb
  simp [rasqal_literal_compare, compare_classify, lits_get,
    rasqal_literal.type, compare_locals.init, slot_set, compare_target,
    compare_promote, rasqal_literal.string, rasqal_literal.language,
    rasqal_literal.datatype, compare_final, hl]

/-- Same-kind operands: swapping them negates the result of the comparison and
keeps the error flag. -/
theorem compare_same_kind_swap (a b : rasqal_literal) (flags : Nat)
    (hk : a.type = b.type)
    (hv : a.type ≠ rasqal_literal_type.VARIABLE)
    (hu : a.type ≠ rasqal_literal_type.UNKNOWN)
    (huri : a.type = rasqal_literal_type.URI → a.value.uri ≠ none ∧ b.value.uri ≠ none)
    (hstr : a.type ∈ [rasqal_literal_type.STRING, rasqal_literal_type.BLANK,
        rasqal_literal_type.PATTERN, rasqal_literal_type.QNAME, rasqal_literal_type.DECIMAL,
        rasqal_literal_type.DATETIME] → a.string ≠ none ∧ b.string ≠ none)
    (hlang : a.type = rasqal_literal_type.STRING →
      language_differs a.language b.language = false)
    (hint : a.type = rasqal_literal_type.INTEGER ∨ a.type = rasqal_literal_type.BOOLEAN →
      INT_MIN < a.value.integer - b.value.integer ∧
        a.value.integer - b.value.integer ≤ INT_MAX)
    (hdbl : a.type = rasqal_literal_type.DOUBLE ∨ a.type = rasqal_literal_type.FLOAT →
      Dbl.sub a.value.floating b.value.floating ≠ Dbl.nan) :
    ∃ r e, rasqal_literal_compare (rasqal_literal_ptr.ptr a) (rasqal_literal_ptr.ptr b) flags
          = .ok (r, e) ∧
        rasqal_literal_compare (rasqal_literal_ptr.ptr b) (rasqal_literal_ptr.ptr a) flags
          = .ok (-r, e) := by
  obtain ⟨u1, t, s1, n1, g1, dt1, f1, ⟨i1, d1, r1, v1⟩⟩ := a
  obtain ⟨u2, t2, s2, n2, g2, dt2, f2, ⟨i2, d2, r2, v2⟩⟩ := b
  simp only [rasqal_literal.type, rasqal_literal.value, rasqal_literal.string,
    rasqal_literal.language, rasqal_literal_value.uri, rasqal_literal_value.integer,
    rasqal_literal_value.floating] at hk hv hu huri hstr hlang hint hdbl
  subst hk
  cases t
  case UNKNOWN => exact absurd rfl hu
  case VARIABLE => exact absurd rfl hv
  case URI =>
    obtain ⟨h1, h2⟩ := huri rfl
    obtain ⟨x1, rfl⟩ := Option.ne_none_iff_exists'.mp h1
    obtain ⟨x2, rfl⟩ := Option.ne_none_iff_exists'.mp h2
    refine ⟨strcmp (raptor_uri_as_string x1) (raptor_uri_as_string x2), 0, ?_, ?_⟩
    · simp [rasqal_literal_compare, compare_classify, lits_get,
        rasqal_literal.type, compare_locals.init, slot_set, compare_target,
        compare_promote, rasqal_literal.value, rasqal_literal_value.uri, compare_final]
    · simp [rasqal_literal_compare, compare_classify, lits_get,
        rasqal_literal.type, compare_locals.init, slot_set, compare_target,
        compare_promote, rasqal_literal.value, rasqal_literal_value.uri, compare_final]
      exact strcmp_antisymm _ _
  case INTEGER =>
    obtain ⟨h1, h2⟩ := hint (Or.inl rfl)
    refine ⟨wrap32 (i1 - i2), 0, ?_, ?_⟩
    · simp [rasqal_literal_compare, compare_classify, lits_get,
        rasqal_literal.type, compare_locals.init, slot_set, compare_target,
        compare_promote, rasqal_literal.value, rasqal_literal_value.integer, compare_final,
        slot_get, assigned]
    · simp [rasqal_literal_compare, compare_classify, lits_get,
        rasqal_literal.type, compare_locals.init, slot_set, compare_target,
        compare_promote, rasqal_literal.value, rasqal_literal_value.integer, compare_final,
        slot_get, assigned]
      rw [← wrap32_neg _ h1 h2]
      congr 1
      ring
  case BOOLEAN =>
    obtain ⟨h1, h2⟩ := hint (Or.inr rfl)
    refine ⟨wrap32 (i1 - i2), 0, ?_, ?_⟩
    · simp [rasqal_literal_compare, compare_classify, lits_get,
        rasqal_literal.type, compare_locals.init, slot_set, compare_target,
        compare_promote, rasqal_literal.value, rasqal_literal_value.integer, compare_final,
        slot_get, assigned]
    · simp [rasqal_literal_compare, compare_classify, lits_get,
        rasqal_literal.type, compare_locals.init, slot_set, compare_target,
        compare_promote, rasqal_literal.value, rasqal_literal_value.integer, compare_final,
        slot_get, assigned]
      rw [← wrap32_neg _ h1 h2]
      congr 1
      ring
  case DOUBLE =>
    have h := hdbl (Or.inl rfl)
    refine ⟨double_to_int (Dbl.sub d1 d2), 0, ?_, ?_⟩
    · simp [rasqal_literal_compare, compare_classify, lits_get,
        rasqal_literal.type, compare_locals.init, slot_set, compare_target,
        compare_promote, rasqal_literal.value, rasqal_literal_value.floating, compare_final,
        slot_get, assigned]
    · simp [rasqal_literal_compare, compare_classify, lits_get,
        rasqal_literal.type, compare_locals.init, slot_set, compare_target,
        compare_promote, rasqal_literal.value, rasqal_literal_value.floating, compare_final,
        slot_get, assigned]
      exact double_to_int_sub_antisymm d1 d2 h
  case FLOAT =>
    have h := hdbl (Or.inr rfl)
    refine ⟨double_to_int (Dbl.sub d1 d2), 0, ?_, ?_⟩
    · simp [rasqal_literal_compare, compare_classify, lits_get,
        rasqal_literal.type, compare_locals.init, slot_set, compare_target,
        compare_promote, rasqal_literal.value, rasqal_literal_value.floating, compare_final,
        slot_get, assigned]
    · simp [rasqal_literal_compare, compare_classify, lits_get,
        rasqal_literal.type, compare_locals.init, slot_set, compare_target,
        compare_promote, rasqal_literal.value, rasqal_literal_value.floating, compare_final,
        slot_get, assigned]
      exact double_to_int_sub_antisymm d1 d2 h
  case STRING =>
    obtain ⟨h1, h2⟩ := hstr (by simp)
    obtain ⟨x1, rfl⟩ := Option.ne_none_iff_exists'.mp h1
    obtain ⟨x2, rfl⟩ := Option.ne_none_iff_exists'.mp h2
    have hlang2 := hlang rfl
    clear hlang hstr hint hdbl huri
    have hl : language_differs g1 g2 = false ∧ language_differs g2 g1 = false :=
      ⟨hlang2, by rw [language_differs_comm]; exact hlang2⟩
    rcases dt1 with _ | a1 <;> rcases dt2 with _ | a2
    · refine ⟨(if flags &&& RASQAL_COMPARE_NOCASE = 0 then strcmp x1 x2
        else rasqal_strcasecmp x1 x2), 0, ?_, ?_⟩
      · simp [rasqal_literal_compare, compare_classify, lits_get,
          rasqal_literal.type, compare_locals.init, slot_set, compare_target,
          compare_promote, rasqal_literal.string, rasqal_literal.language,
          rasqal_literal.datatype, compare_final, hl.1]
        exact compare_strings_eq _ x1 x2 flags (by rfl)
      · simp [rasqal_literal_compare, compare_classify, lits_get,
          rasqal_literal.type, compare_locals.init, slot_set, compare_target,
          compare_promote, rasqal_literal.string, rasqal_literal.language,
          rasqal_literal.datatype, compare_final, hl.2]
        exact compare_strings_swap _ x1 x2 flags (by rfl)
    · refine ⟨0, 1, ?_, ?_⟩
      · simp [rasqal_literal_compare, compare_classify, lits_get,
          rasqal_literal.type, compare_locals.init, slot_set, compare_target,
          compare_promote, rasqal_literal.string, rasqal_literal.language,
          rasqal_literal.datatype, compare_final, hl.1]
      · simp [rasqal_literal_compare, compare_classify, lits_get,
          rasqal_literal.type, compare_locals.init, slot_set, compare_target,
          compare_promote, rasqal_literal.string, rasqal_literal.language,
          rasqal_literal.datatype, compare_final, hl.2]
    · refine ⟨0, 1, ?_, ?_⟩
      · simp [rasqal_literal_compare, compare_classify, lits_get,
          rasqal_literal.type, compare_locals.init, slot_set, compare_target,
          compare_promote, rasqal_literal.string, rasqal_literal.language,
          rasqal_literal.datatype, compare_final, hl.1]
      · simp [rasqal_literal_compare, compare_classify, lits_get,
          rasqal_literal.type, compare_locals.init, slot_set, compare_target,
          compare_promote, rasqal_literal.string, rasqal_literal.language,
          rasqal_literal.datatype, compare_final, hl.2]
    · by_cases hdt : strcmp (raptor_uri_as_string a1) (raptor_uri_as_string a2) = 0
      · have hdt2 : strcmp (raptor_uri_as_string a2) (raptor_uri_as_string a1) = 0 := by
          rw [strcmp_antisymm, hdt]
          rfl
        refine ⟨(if flags &&& RASQAL_COMPARE_NOCASE = 0 then strcmp x1 x2
        else rasqal_strcasecmp x1 x2), 0, ?_, ?_⟩
        · simp [rasqal_literal_compare, compare_classify, lits_get,
            rasqal_literal.type, compare_locals.init, slot_set, compare_target,
            compare_promote, rasqal_literal.string, rasqal_literal.language,
            rasqal_literal.datatype, compare_final, hl.1, hdt]
          exact compare_strings_eq _ x1 x2 flags (by rfl)
        · simp [rasqal_literal_compare, compare_classify, lits_get,
            rasqal_literal.type, compare_locals.init, slot_set, compare_target,
            compare_promote, rasqal_literal.string, rasqal_literal.language,
            rasqal_literal.datatype, compare_final, hl.2, hdt2]
          exact compare_strings_swap _ x1 x2 flags (by rfl)
      · have hdt2 : ¬ strcmp (raptor_uri_as_string a2) (raptor_uri_as_string a1) = 0 := by
          rw [strcmp_antisymm]
          omega
        refine ⟨strcmp (raptor_uri_as_string a1) (raptor_uri_as_string a2), 0, ?_, ?_⟩
        · simp [rasqal_literal_compare, compare_classify, lits_get,
            rasqal_literal.type, compare_locals.init, slot_set, compare_target,
            compare_promote, rasqal_literal.string, rasqal_literal.language,
            rasqal_literal.datatype, compare_final, hl.1, hdt]
        · simp [rasqal_literal_compare, compare_classify, lits_get,
            rasqal_literal.type, compare_locals.init, slot_set, compare_target,
            compare_promote, rasqal_literal.string, rasqal_literal.language,
            rasqal_literal.datatype, compare_final, hl.2, hdt2]
          exact strcmp_antisymm _ _
  all_goals
    obtain ⟨h1, h2⟩ := hstr (by simp)
    obtain ⟨x1, rfl⟩ := Option.ne_none_iff_exists'.mp h1
    obtain ⟨x2, rfl⟩ := Option.ne_none_iff_exists'.mp h2
    refine ⟨(if flags &&& RASQAL_COMPARE_NOCASE = 0 then strcmp x1 x2
        else rasqal_strcasecmp x1 x2), 0, ?_, ?_⟩
    · simp [rasqal_literal_compare, compare_classify, lits_get,
        rasqal_literal.type, compare_locals.init, slot_set, compare_target,
        compare_promote, rasqal_literal.string, compare_final]
      exact compare_strings_eq _ x1 x2 flags (by rfl)
    · simp [rasqal_literal_compare, compare_classify, lits_get,
        rasqal_literal.type, compare_locals.init, slot_set, compare_target,
        compare_promote, rasqal_literal.string, compare_final]
      exact compare_strings_swap _ x1 x2 flags (by rfl)

/-! ## The claims on comparison and construction -/

/-- Claim C1 (as amended): let `a` and `b` be bound, non-variable literals of the same
kind, with their lexical texts (URIs for the kind uri) present, such that for
integers and booleans the difference of the values is an `int` other than `INT_MIN`
and for doubles and floats the difference of the values is not NaN; let `flags` be
any flags value.  If the kind is not string, or the language tags of the two
strings are both absent or equal ignoring case, then
`rasqal_literal_compare(b, a)` leaves the same error flag as
`rasqal_literal_compare(a, b)` and returns the opposite sign: one is negative iff
the other is positive and one is zero iff the other is.  If the operands are strings
whose language tags do not match, the comparison returns 1 with the error flag unset
in both orders. -/
theorem rasqal_literal_compare_antisymmetric (a b : rasqal_literal) (flags : Nat)
    (hk : a.type = b.type)
    (hv : a.type ≠ rasqal_literal_type.VARIABLE)
    (hu : a.type ≠ rasqal_literal_type.UNKNOWN)
    (huri : a.type = rasqal_literal_type.URI → a.value.uri ≠ none ∧ b.value.uri ≠ none)
    (hstr : a.type ∈ [rasqal_literal_type.STRING, rasqal_literal_type.BLANK,
        rasqal_literal_type.PATTERN, rasqal_literal_type.QNAME, rasqal_literal_type.DECIMAL,
        rasqal_literal_type.DATETIME] → a.string ≠ none ∧ b.string ≠ none)
    (hint : a.type = rasqal_literal_type.INTEGER ∨ a.type = rasqal_literal_type.BOOLEAN →
      INT_MIN < a.value.integer - b.value.integer ∧
        a.value.integer - b.value.integer ≤ INT_MAX)
    (hdbl : a.type = rasqal_literal_type.DOUBLE ∨ a.type = rasqal_literal_type.FLOAT →
      Dbl.sub a.value.floating b.value.floating ≠ Dbl.nan) :
    ((a.type = rasqal_literal_type.STRING →
        language_differs a.language b.language = false) →
      ∃ r1 r2 e,
        rasqal_literal_compare (rasqal_literal_ptr.ptr a) (rasqal_literal_ptr.ptr b) flags
            = .ok (r1, e) ∧
          rasqal_literal_compare (rasqal_literal_ptr.ptr b) (rasqal_literal_ptr.ptr a) flags
            = .ok (r2, e) ∧
          (r1 < 0 ↔ 0 < r2) ∧ (r1 = 0 ↔ r2 = 0) ∧ (0 < r1 ↔ r2 < 0)) ∧
    (a.type = rasqal_literal_type.STRING →
      language_differs a.language b.language = true →
        rasqal_literal_compare (rasqal_literal_ptr.ptr a) (rasqal_literal_ptr.ptr b) flags
            = .ok (1, 0) ∧
          rasqal_literal_compare (rasqal_literal_ptr.ptr b) (rasqal_literal_ptr.ptr a) flags
            = .ok (1, 0)) := by
  constructor
  · intro hlang
    obtain ⟨r, e, h1, h2⟩ :=
      compare_same_kind_swap a b flags hk hv hu huri hstr hlang hint hdbl
    exact ⟨r, -r, e, h1, h2, by omega, by omega, by omega⟩
  · intro hs hl
    exact ⟨compare_string_language_mismatch a b flags hs (hk ▸ hs) hl,
      compare_string_language_mismatch b a flags (hk ▸ hs) hs
        (by rw [language_differs_comm]; exact hl)⟩

/-- Claim C1 (witness): the plain strings "a" and "b" in legacy mode, and the strings
"x"@en and "x"@fr. -/
theorem rasqal_literal_compare_antisymmetric_witness :
    (∃ r1 r2 e,
      rasqal_literal_compare
          (rasqal_literal_ptr.ptr (rasqal_literal.mk 1 rasqal_literal_type.STRING
            (some (cstr "a")) 1 none none none rasqal_literal_value.zero))
          (rasqal_literal_ptr.ptr (rasqal_literal.mk 1 rasqal_literal_type.STRING
            (some (cstr "b")) 1 none none none rasqal_literal_value.zero)) 0
          = .ok (r1, e) ∧
        rasqal_literal_compare
          (rasqal_literal_ptr.ptr (rasqal_literal.mk 1 rasqal_literal_type.STRING
            (some (cstr "b")) 1 none none none rasqal_literal_value.zero))
          (rasqal_literal_ptr.ptr (rasqal_literal.mk 1 rasqal_literal_type.STRING
            (some (cstr "a")) 1 none none none rasqal_literal_value.zero)) 0
          = .ok (r2, e) ∧
        (r1 < 0 ↔ 0 < r2) ∧ (r1 = 0 ↔ r2 = 0) ∧ (0 < r1 ↔ r2 < 0)) ∧
    (rasqal_literal_compare
        (rasqal_literal_ptr.ptr (rasqal_literal.mk 1 rasqal_literal_type.STRING
          (some (cstr "x")) 1 (some (cstr "en")) none none rasqal_literal_value.zero))
        (rasqal_literal_ptr.ptr (rasqal_literal.mk 1 rasqal_literal_type.STRING
          (some (cstr "x")) 1 (some (cstr "fr")) none none rasqal_literal_value.zero)) 0
        = .ok (1, 0) ∧
      rasqal_literal_compare
        (rasqal_literal_ptr.ptr (rasqal_literal.mk 1 rasqal_literal_type.STRING
          (some (cstr "x")) 1 (some (cstr "fr")) none none rasqal_literal_value.zero))
        (rasqal_literal_ptr.ptr (rasqal_literal.mk 1 rasqal_literal_type.STRING
          (some (cstr "x")) 1 (some (cstr "en")) none none rasqal_literal_value.zero)) 0
        = .ok (1, 0)) :=
  ⟨(rasqal_literal_compare_antisymmetric
      (rasqal_literal.mk 1 rasqal_literal_type.STRING
        (some (cstr "a")) 1 none none none rasqal_literal_value.zero)
      (rasqal_literal.mk 1 rasqal_literal_type.STRING
        (some (cstr "b")) 1 none none none rasqal_literal_value.zero)
      0 rfl (by decide) (by decide)
      (fun h => absurd h (by decide)) (fun _ => ⟨by decide, by decide⟩)
      (fun h => absurd h (by decide)) (fun h => absurd h (by decide))).1 (fun _ => rfl),
    (rasqal_literal_compare_antisymmetric
      (rasqal_literal.mk 1 rasqal_literal_type.STRING
        (some (cstr "x")) 1 (some (cstr "en")) none none rasqal_literal_value.zero)
      (rasqal_literal.mk 1 rasqal_literal_type.STRING
        (some (cstr "x")) 1 (some (cstr "fr")) none none rasqal_literal_value.zero)
      0 rfl (by decide) (by decide)
      (fun h => absurd h (by decide)) (fun _ => ⟨by decide, by decide⟩)
      (fun h => absurd h (by decide)) (fun h => absurd h (by decide))).2 rfl (by decide)⟩

/-- Claim C1 (counterexample): the strings "x"@en and "x"@fr compare as 1 in both
orders; the integers -2147483648 and 0 compare as -2147483648 in both orders; the
double NaN and the double 1 compare as 1 in both orders. -/
theorem rasqal_literal_compare_antisymmetric_counterexample :
    (rasqal_literal_compare
        (rasqal_literal_ptr.ptr (rasqal_literal.mk 1 rasqal_literal_type.STRING
          (some (cstr "x")) 1 (some (cstr "en")) none none rasqal_literal_value.zero))
        (rasqal_literal_ptr.ptr (rasqal_literal.mk 1 rasqal_literal_type.STRING
          (some (cstr "x")) 1 (some (cstr "fr")) none none rasqal_literal_value.zero)) 0
        = .ok (1, 0) ∧
      rasqal_literal_compare
        (rasqal_literal_ptr.ptr (rasqal_literal.mk 1 rasqal_literal_type.STRING
          (some (cstr "x")) 1 (some (cstr "fr")) none none rasqal_literal_value.zero))
        (rasqal_literal_ptr.ptr (rasqal_literal.mk 1 rasqal_literal_type.STRING
          (some (cstr "x")) 1 (some (cstr "en")) none none rasqal_literal_value.zero)) 0
        = .ok (1, 0)) ∧
    (rasqal_literal_compare
        (rasqal_new_integer_literal rasqal_literal_type.INTEGER (-2147483648))
        (rasqal_new_integer_literal rasqal_literal_type.INTEGER 0) 0
        = .ok (-2147483648, 0) ∧
      rasqal_literal_compare
        (rasqal_new_integer_literal rasqal_literal_type.INTEGER 0)
        (rasqal_new_integer_literal rasqal_literal_type.INTEGER (-2147483648)) 0
        = .ok (-2147483648, 0)) ∧
    (rasqal_literal_compare
        (rasqal_new_double_literal (fun _ => cstr "nan") Dbl.nan)
        (rasqal_new_double_literal (fun _ => cstr "1") (Dbl.of_int 1)) 0
        = .ok (1, 0) ∧
      rasqal_literal_compare
        (rasqal_new_double_literal (fun _ => cstr "1") (Dbl.of_int 1))
        (rasqal_new_double_literal (fun _ => cstr "nan") Dbl.nan) 0
        = .ok (1, 0)) := by
  decide

/-- Claim C3: for every 32-bit signed integer `n`, `rasqal_new_string_literal` called with the
text that `rasqal_new_integer_literal` renders for `n` and the xsd:integer datatype
returns a literal of kind integer whose native value is `n` (the very literal
`rasqal_new_integer_literal` builds), and `rasqal_literal_as_integer` on it returns
`n` with the error flag unset. -/
theorem rasqal_new_string_literal_integer_round_trip (n : Int) (hlo : INT_MIN ≤ n)
    (hhi : n ≤ INT_MAX) (fuel : Nat) :
    ∃ l, rasqal_new_string_literal fuel (sprintf_d n) none (some rasqal_xsd_integer_uri) none
          = .ok (rasqal_literal_ptr.ptr l) ∧
      rasqal_literal_ptr.ptr l = rasqal_new_integer_literal rasqal_literal_type.INTEGER n ∧
      l.string = some (sprintf_d n) ∧
      l.type = rasqal_literal_type.INTEGER ∧
      l.value.integer = n ∧
      rasqal_literal_as_integer (rasqal_literal_ptr.ptr l) 0 = .ok (n, 0) := by
  refine ⟨rasqal_literal.mk 1 rasqal_literal_type.INTEGER (some (sprintf_d n))
    (sprintf_d n).length none (some rasqal_xsd_integer_uri) none
    (rasqal_literal_value.mk n (Dbl.fin 0 0) none rasqal_variable_ptr.null), ?_, rfl, rfl, rfl,
    rfl, ?_⟩
  · unfold rasqal_new_string_literal
    simp only
    rw [string_to_native_integer fuel 1 rasqal_literal_type.STRING (sprintf_d n) _ _ _ _ none ()
      (check_integer_format_sprintf_d n hlo hhi 0)]
    simp [atoi_sprintf_d n hlo hhi, rasqal_literal_value.zero, rasqal_literal_value.floating,
      rasqal_literal_value.uri, rasqal_literal_value.var]
  · unfold rasqal_literal_as_integer
    rfl

/-- Claim C3 (witness): the integer 42, whose text is "42". -/
theorem rasqal_new_string_literal_integer_round_trip_witness :
    ∃ l, rasqal_new_string_literal 0 (sprintf_d 42) none (some rasqal_xsd_integer_uri) none
          = .ok (rasqal_literal_ptr.ptr l) ∧
      rasqal_literal_ptr.ptr l = rasqal_new_integer_literal rasqal_literal_type.INTEGER 42 ∧
      l.string = some (sprintf_d 42) ∧
      l.type = rasqal_literal_type.INTEGER ∧
      l.value.integer = 42 ∧
      rasqal_literal_as_integer (rasqal_literal_ptr.ptr l) 0 = .ok (42, 0) :=
  rasqal_new_string_literal_integer_round_trip 42 (by decide) (by decide) 0

/-- Claim C5 (witness): the text "abc" typed xsd:integer, with a handler that appends
the message to a list of messages, and with no handler. -/
theorem rasqal_literal_string_to_native_reports_witness :
    rasqal_literal_string_to_native 0
        (rasqal_literal.mk 1 rasqal_literal_type.STRING (some (cstr "abc")) 3 none
          (some rasqal_xsd_integer_uri) none rasqal_literal_value.zero)
        (some (fun (log : List CString) (m : CString) => log ++ [m])) [] =
        .ok (1, rasqal_literal.mk 1 rasqal_literal_type.STRING (some (cstr "abc")) 3 none
            (some rasqal_xsd_integer_uri) none rasqal_literal_value.zero,
          [] ++ [cstr "Illegal type " ++ cstr "integer" ++ cstr " string " ++ [39] ++
            cstr "abc" ++ [39]]) ∧
      rasqal_literal_string_to_native 0
        (rasqal_literal.mk 1 rasqal_literal_type.STRING (some (cstr "abc")) 3 none
          (some rasqal_xsd_integer_uri) none rasqal_literal_value.zero)
        (none : Option (List CString → CString → List CString)) [] =
        .ok (1, rasqal_literal.mk 1 rasqal_literal_type.STRING (some (cstr "abc")) 3 none
            (some rasqal_xsd_integer_uri) none rasqal_literal_value.zero, []) :=
  rasqal_literal_string_to_native_reports
    ⟨rasqal_literal_type.INTEGER, cstr "integer", some rasqal_xsd_integer_uri,
      fun _ s f => .ok (rasqal_literal_check_integer_format s f)⟩
    (List.Mem.tail _ (List.Mem.head _)) 0 _ (cstr "abc") (by rfl) (by rfl) (by decide) _ []

/-- Claim C5 (counterexample): `rasqal_new_string_literal` fails on the text "abc" typed
xsd:integer, and the promotion it runs, which gets no handler, leaves the list of
reported messages empty. -/
theorem rasqal_new_string_literal_reports_nothing_counterexample :
    rasqal_new_string_literal 0 (cstr "abc") none (some rasqal_xsd_integer_uri) none =
        .ok rasqal_literal_ptr.null ∧
      rasqal_literal_string_to_native 0
        (rasqal_literal.mk 1 rasqal_literal_type.STRING (some (cstr "abc")) 3 none
          (some rasqal_xsd_integer_uri) none rasqal_literal_value.zero)
        (none : Option (List CString → CString → List CString)) [] =
        .ok (1, rasqal_literal.mk 1 rasqal_literal_type.STRING (some (cstr "abc")) 3 none
            (some rasqal_xsd_integer_uri) none rasqal_literal_value.zero, []) := by
  decide

/-- Claim C6: for every 32-bit signed integer `n`, in standards mode (any flags value with
the RASQAL_COMPARE_XQUERY bit) `rasqal_literal_compare` on the integer literal `n`
and the double literal of value `n` returns 0 with the error flag unset, in either
operand order. -/
theorem rasqal_literal_compare_xquery_integer_double (n : Int) (hlo : INT_MIN ≤ n)
    (hhi : n ≤ INT_MAX) (sprintf_1g : Dbl → CString) (flags : Nat)
    (hx : flags &&& RASQAL_COMPARE_XQUERY ≠ 0) :
    rasqal_literal_compare (rasqal_new_integer_literal rasqal_literal_type.INTEGER n)
        (rasqal_new_double_literal sprintf_1g (Dbl.of_int n)) flags = .ok (0, 0) ∧
      rasqal_literal_compare (rasqal_new_double_literal sprintf_1g (Dbl.of_int n))
        (rasqal_new_integer_literal rasqal_literal_type.INTEGER n) flags = .ok (0, 0) :=
  compare_xquery_integer_double n hlo hhi _ (by rfl) (by rfl) flags hx

/-- Claim C6 (witness): the integer 1 and the double 1.0, flags RASQAL_COMPARE_XQUERY. -/
theorem rasqal_literal_compare_xquery_integer_double_witness :
    rasqal_literal_compare (rasqal_new_integer_literal rasqal_literal_type.INTEGER 1)
        (rasqal_new_double_literal (fun _ => cstr "1") (Dbl.of_int 1)) 2 = .ok (0, 0) ∧
      rasqal_literal_compare (rasqal_new_double_literal (fun _ => cstr "1") (Dbl.of_int 1))
        (rasqal_new_integer_literal rasqal_literal_type.INTEGER 1) 2 = .ok (0, 0) :=
  rasqal_literal_compare_xquery_integer_double 1 (by decide) (by decide) _ 2 (by decide)

/-- Claim C7: for every 32-bit signed integer `n`, in legacy mode (flags 0)
`rasqal_literal_compare` on the integer literal `n` and the untyped string literal
whose text is the base-10 rendering of `n` returns 0 with the error flag unset, in
either operand order. -/
theorem rasqal_literal_compare_legacy_integer_string (n : Int) (hlo : INT_MIN ≤ n)
    (hhi : n ≤ INT_MAX) (fuel : Nat) :
    ∃ s, rasqal_new_string_literal fuel (sprintf_d n) none none none = .ok s ∧
      rasqal_literal_compare (rasqal_new_integer_literal rasqal_literal_type.INTEGER n) s 0
        = .ok (0, 0) ∧
      rasqal_literal_compare s (rasqal_new_integer_literal rasqal_literal_type.INTEGER n) 0
        = .ok (0, 0) :=
  ⟨_, rfl, compare_legacy_integer_string n hlo hhi _ (by rfl) (by rfl)⟩

/-- Claim C7 (witness): the integer 1 and the string "1". -/
theorem rasqal_literal_compare_legacy_integer_string_witness :
    ∃ s, rasqal_new_string_literal 0 (sprintf_d 1) none none none = .ok s ∧
      rasqal_literal_compare (rasqal_new_integer_literal rasqal_literal_type.INTEGER 1) s 0
        = .ok (0, 0) ∧
      rasqal_literal_compare s (rasqal_new_integer_literal rasqal_literal_type.INTEGER 1) 0
        = .ok (0, 0) :=
  rasqal_literal_compare_legacy_integer_string 1 (by decide) (by decide) 0

/-- Claim C8: `rasqal_literal_equals` never promotes.  For two present literals whose kinds
differ it returns 0, unless the first is a string and the second a boolean; in
particular, for every 32-bit signed integer `n`, the integer literal `n` and the
double literal of value `n` are not equal in either order, although
`rasqal_literal_compare` in standards mode returns 0 for them. -/
theorem rasqal_literal_equals_never_promotes (l1 l2 : rasqal_literal)
    (h : l1.type ≠ l2.type)
    (hc : ¬ (l2.type = rasqal_literal_type.BOOLEAN ∧ l1.type = rasqal_literal_type.STRING)) :
    rasqal_literal_equals (rasqal_literal_ptr.ptr l1) (rasqal_literal_ptr.ptr l2) = .ok 0 ∧
    ∀ (n : Int) (sprintf_1g : Dbl → CString), INT_MIN ≤ n → n ≤ INT_MAX →
      rasqal_literal_equals (rasqal_new_integer_literal rasqal_literal_type.INTEGER n)
          (rasqal_new_double_literal sprintf_1g (Dbl.of_int n)) = .ok 0 ∧
        rasqal_literal_equals (rasqal_new_double_literal sprintf_1g (Dbl.of_int n))
          (rasqal_new_integer_literal rasqal_literal_type.INTEGER n) = .ok 0 ∧
        rasqal_literal_compare (rasqal_new_integer_literal rasqal_literal_type.INTEGER n)
          (rasqal_new_double_literal sprintf_1g (Dbl.of_int n)) RASQAL_COMPARE_XQUERY
          = .ok (0, 0) := by
  refine ⟨equals_kinds_differ l1 l2 h hc, fun n fmt hlo hhi => ⟨?_, ?_, ?_⟩⟩
  · exact equals_kinds_differ _ _ (by simp [rasqal_literal.type])
      (by simp [rasqal_literal.type])
  · exact equals_kinds_differ _ _ (by simp [rasqal_literal.type])
      (by simp [rasqal_literal.type])
  · exact (compare_xquery_integer_double n hlo hhi _ (by rfl) (by rfl) RASQAL_COMPARE_XQUERY
      (by decide)).1

/-- Claim C8 (witness): the integer literal 1 and the double literal 1.0. -/
theorem rasqal_literal_equals_never_promotes_witness :
    rasqal_literal_equals (rasqal_new_integer_literal rasqal_literal_type.INTEGER 1)
        (rasqal_new_double_literal (fun _ => cstr "1") (Dbl.of_int 1)) = .ok 0 ∧
      rasqal_literal_compare (rasqal_new_integer_literal rasqal_literal_type.INTEGER 1)
        (rasqal_new_double_literal (fun _ => cstr "1") (Dbl.of_int 1)) RASQAL_COMPARE_XQUERY
        = .ok (0, 0) :=
  ⟨(rasqal_literal_equals_never_promotes
      (rasqal_literal.mk 1 rasqal_literal_type.INTEGER (some (sprintf_d 1)) 1 none
        (some rasqal_xsd_integer_uri) none
        (rasqal_literal_value.mk 1 (Dbl.fin 0 0) none rasqal_variable_ptr.null))
      (rasqal_literal.mk 1 rasqal_literal_type.DOUBLE (some (cstr "1")) 1 none
        (some rasqal_xsd_double_uri) none
        (rasqal_literal_value.mk 0 (Dbl.of_int 1) none rasqal_variable_ptr.null))
      (by decide) (by decide)).1,
    ((rasqal_literal_equals_never_promotes
      (rasqal_literal.mk 1 rasqal_literal_type.INTEGER (some (sprintf_d 1)) 1 none
        (some rasqal_xsd_integer_uri) none
        (rasqal_literal_value.mk 1 (Dbl.fin 0 0) none rasqal_variable_ptr.null))
      (rasqal_literal.mk 1 rasqal_literal_type.DOUBLE (some (cstr "1")) 1 none
        (some rasqal_xsd_double_uri) none
        (rasqal_literal_value.mk 0 (Dbl.of_int 1) none rasqal_variable_ptr.null))
      (by decide) (by decide)).2 1 (fun _ => cstr "1") (by decide) (by decide)).2.2⟩

/-! ## Effective boolean value -/

/-- The effective boolean value of a present, non-variable literal. -/
theorem ebv_of_non_variable (l : rasqal_literal) (hv : l.type ≠ rasqal_literal_type.VARIABLE) :
    rasqal_literal_ebv (rasqal_literal_ptr.ptr l) =
      .ok (if (l.type = rasqal_literal_type.BOOLEAN ∧ l.value.integer = 0) ∨
              (l.type = rasqal_literal_type.STRING ∧ l.datatype = none ∧ l.string_len = 0) ∨
              (l.type = rasqal_literal_type.INTEGER ∧ l.value.integer = 0) ∨
              ((l.type = rasqal_literal_type.DOUBLE ∨ l.type = rasqal_literal_type.FLOAT) ∧
                (l.value.floating.is_zero = true ∨ l.value.floating.isnan = true))
           then 0 else 1) := by
  obtain ⟨u, t, s, n, g, dt, f, ⟨i, d, r, w⟩⟩ := l
  simp only [rasqal_literal.type] at hv
  cases t
  case VARIABLE => exact absurd rfl hv
  case DOUBLE =>
    by_cases hz : d.is_zero = true <;> by_cases hn : d.isnan = true <;>
      simp [rasqal_literal_ebv, rasqal_literal_as_variable, rasqal_literal.type,
        rasqal_literal.value, rasqal_literal_value.floating, hz, hn]
  case FLOAT =>
    by_cases hz : d.is_zero = true <;> by_cases hn : d.isnan = true <;>
      simp [rasqal_literal_ebv, rasqal_literal_as_variable, rasqal_literal.type,
        rasqal_literal.value, rasqal_literal_value.floating, hz, hn]
  case STRING =>
    by_cases h1 : dt = none <;> by_cases h2 : n = 0 <;>
      simp [rasqal_literal_ebv, rasqal_literal_as_variable, rasqal_literal.type,
        rasqal_literal.datatype, rasqal_literal.string_len, h1, h2]
  case INTEGER =>
    by_cases h1 : i = 0 <;>
      simp [rasqal_literal_ebv, rasqal_literal_as_variable, rasqal_literal.type,
        rasqal_literal.value, rasqal_literal_value.integer, h1]
  case BOOLEAN =>
    by_cases h1 : i = 0 <;>
      simp [rasqal_literal_ebv, rasqal_literal_as_variable, rasqal_literal.type,
        rasqal_literal.value, rasqal_literal_value.integer, h1]
  all_goals
    simp [rasqal_literal_ebv, rasqal_literal_as_variable, rasqal_literal.type]

/-- Claim C11 (the code at the failing input): the string literal with empty text typed
xsd:string, as `rasqal_new_string_literal` builds it, has effective boolean value 1
(true), while `rasqal_literal_as_boolean` gives 0 (false) for it without error.  In
general, for a present non-variable literal `rasqal_literal_ebv` is false exactly for
a boolean with zero value, a string with no datatype and zero length, an integer,
double or float with zero value, and a double or float that is NaN; an empty string
typed xsd:string is not among them. -/
theorem rasqal_literal_ebv_empty_xsd_string :
    rasqal_new_string_literal 0 [] none (some rasqal_xsd_string_uri) none =
        .ok (rasqal_literal_ptr.ptr (rasqal_literal.mk 1 rasqal_literal_type.STRING (some []) 0
          none (some rasqal_xsd_string_uri) none rasqal_literal_value.zero)) ∧
      rasqal_literal_ebv
        (rasqal_literal_ptr.ptr (rasqal_literal.mk 1 rasqal_literal_type.STRING (some []) 0
          none (some rasqal_xsd_string_uri) none rasqal_literal_value.zero)) = .ok 1 ∧
      rasqal_literal_as_boolean
        (rasqal_literal_ptr.ptr (rasqal_literal.mk 1 rasqal_literal_type.STRING (some []) 0
          none (some rasqal_xsd_string_uri) none rasqal_literal_value.zero)) 0 = .ok (0, 0) ∧
      ∀ l : rasqal_literal, l.type ≠ rasqal_literal_type.VARIABLE →
        (rasqal_literal_ebv (rasqal_literal_ptr.ptr l) = .ok 0 ∨
          rasqal_literal_ebv (rasqal_literal_ptr.ptr l) = .ok 1) ∧
        (rasqal_literal_ebv (rasqal_literal_ptr.ptr l) = .ok 0 ↔
          (l.type = rasqal_literal_type.BOOLEAN ∧ l.value.integer = 0) ∨
          (l.type = rasqal_literal_type.STRING ∧ l.datatype = none ∧ l.string_len = 0) ∨
          (l.type = rasqal_literal_type.INTEGER ∧ l.value.integer = 0) ∨
          ((l.type = rasqal_literal_type.DOUBLE ∨ l.type = rasqal_literal_type.FLOAT) ∧
            (l.value.floating.is_zero = true ∨ l.value.floating.isnan = true))) := by
  refine ⟨by decide, by decide, by decide, fun l hv => ?_⟩
  rw [ebv_of_non_variable l hv]
  split_ifs with h
  · exact ⟨Or.inl rfl, fun _ => h, fun _ => rfl⟩
  · refine ⟨Or.inr rfl, fun h1 => ?_, fun h1 => absurd h1 h⟩
    simp at h1

/-- Claim C12: on the untyped string literal that `rasqal_new_string_literal` builds for a
text (with any language tag) `rasqal_literal_ebv` is true iff the text is non-empty,
so "" gives false and "0" gives true; on the integer literal `n` it is true iff `n`
is not 0; on the boolean literal of value `v` it is true iff `v` is not 0. -/
theorem rasqal_literal_ebv_string_integer_boolean (fuel : Nat) (text : CString)
    (language : Option CString) (n v : Int) :
    (∃ s, rasqal_new_string_literal fuel text language none none = .ok s ∧
        rasqal_literal_ebv s = .ok (if text = [] then 0 else 1)) ∧
      rasqal_literal_ebv (rasqal_new_integer_literal rasqal_literal_type.INTEGER n)
        = .ok (if n = 0 then 0 else 1) ∧
      rasqal_literal_ebv (rasqal_new_boolean_literal v) = .ok (if v = 0 then 0 else 1) ∧
      rasqal_literal_ebv (rasqal_literal_ptr.ptr (rasqal_literal.mk 1
        rasqal_literal_type.STRING (some (cstr "")) 0 none none none
        rasqal_literal_value.zero)) = .ok 0 ∧
      rasqal_literal_ebv (rasqal_literal_ptr.ptr (rasqal_literal.mk 1
        rasqal_literal_type.STRING (some (cstr "0")) 1 none none none
        rasqal_literal_value.zero)) = .ok 1 := by
  refine ⟨⟨_, rfl, ?_⟩, ?_, ?_, by decide, by decide⟩
  · rw [ebv_of_non_variable _ (by simp [rasqal_literal.type])]
    simp [rasqal_literal.type, rasqal_literal.datatype, rasqal_literal.string_len]
  · unfold rasqal_new_integer_literal
    rw [ebv_of_non_variable _ (by simp [rasqal_literal.type])]
    simp [rasqal_literal.type, rasqal_literal.value, rasqal_literal_value.integer]
  · unfold rasqal_new_boolean_literal
    rw [ebv_of_non_variable _ (by simp [rasqal_literal.type])]
    simp [rasqal_literal.type, rasqal_literal.value, rasqal_literal_value.integer]

/-! ## Cast -/

theorem raptor_uri_equals_iff (a b : raptor_uri) : raptor_uri_equals a b = true ↔ a = b := by
  cases a
  cases b
  simp [raptor_uri_equals]

/-- A cast to the literal's own datatype reads the text through the local `string`,
which that branch leaves NULL. -/
theorem cast_same_datatype (fuel : Nat) (l : rasqal_literal) (d : raptor_uri) (flags error : Int)
    (hv : l.type ≠ rasqal_literal_type.VARIABLE) (hd : l.datatype = some d) :
    rasqal_literal_cast fuel (rasqal_literal_ptr.ptr l) d flags error
      = .error Fault.null_deref := by
  have he : raptor_uri_equals d d = true := (raptor_uri_equals_iff d d).mpr rfl
  simp [rasqal_literal_cast, hv, hd, he, cast_build]

/-- Claim C13 (the code at the failing input): for every non-variable literal that carries
a datatype `d`, `rasqal_literal_cast` to `d` takes the branch "cast to same type is
always allowed", which leaves the local `string` NULL, and then calls `strlen` on
it: a NULL dereference, whatever the error flag on entry.  So it is for the integer
literal 42 cast to xsd:integer. -/
theorem rasqal_literal_cast_identity_null_deref :
    (∀ (fuel : Nat) (l : rasqal_literal) (d : raptor_uri) (flags error : Int),
        l.type ≠ rasqal_literal_type.VARIABLE → l.datatype = some d →
        rasqal_literal_cast fuel (rasqal_literal_ptr.ptr l) d flags error
          = .error Fault.null_deref) ∧
      rasqal_literal_cast 0 (rasqal_new_integer_literal rasqal_literal_type.INTEGER 42)
        rasqal_xsd_integer_uri 0 0 = .error Fault.null_deref :=
  ⟨cast_same_datatype, by decide⟩

/-- Claim C14: for every literal of kind boolean, integer, double, float or decimal whose
own datatype is not xsd:dateTime, `rasqal_literal_cast` to xsd:dateTime returns no
literal and leaves the error flag set. -/
theorem rasqal_literal_cast_numeric_to_dateTime (fuel : Nat) (l : rasqal_literal)
    (flags error : Int)
    (hk : l.type ∈ [rasqal_literal_type.BOOLEAN, rasqal_literal_type.INTEGER,
      rasqal_literal_type.DOUBLE, rasqal_literal_type.FLOAT, rasqal_literal_type.DECIMAL])
    (hd : l.datatype ≠ some rasqal_xsd_datetime_uri) :
    rasqal_literal_cast fuel (rasqal_literal_ptr.ptr l) rasqal_xsd_datetime_uri flags error
      = .ok (rasqal_literal_ptr.null, 1) := by
  obtain ⟨u, t, s, n, g, dt, f, v⟩ := l
  simp only [rasqal_literal.type, rasqal_literal.datatype] at hk hd
  have he : raptor_uri_equals rasqal_xsd_datetime_uri rasqal_xsd_datetime_uri = true := by
    decide
  simp only [List.mem_cons, List.mem_singleton, List.not_mem_nil, or_false] at hk
  cases dt with
  | none =>
    rcases hk with rfl | rfl | rfl | rfl | rfl <;>
      simp [rasqal_literal_cast, rasqal_literal.type, rasqal_literal.datatype, cast_check, he]
  | some x =>
    have hx : raptor_uri_equals x rasqal_xsd_datetime_uri = false := by
      rw [← Bool.not_eq_true, raptor_uri_equals_iff]
      intro e
      exact hd (by rw [e])
    rcases hk with rfl | rfl | rfl | rfl | rfl <;>
      simp [rasqal_literal_cast, rasqal_literal.type, rasqal_literal.datatype, cast_check,
        he, hx]

/-- Claim C14 (witness): the integer literal 42 and the double literal 1.0. -/
theorem rasqal_literal_cast_numeric_to_dateTime_witness :
    rasqal_literal_cast 0
        (rasqal_literal_ptr.ptr (rasqal_literal.mk 1 rasqal_literal_type.INTEGER
          (some (cstr "42")) 2 none (some rasqal_xsd_integer_uri) none
          (rasqal_literal_value.mk 42 (Dbl.fin 0 0) none rasqal_variable_ptr.null)))
        rasqal_xsd_datetime_uri 0 0 = .ok (rasqal_literal_ptr.null, 1) ∧
      rasqal_literal_cast 0
        (rasqal_literal_ptr.ptr (rasqal_literal.mk 1 rasqal_literal_type.DOUBLE
          (some (cstr "1")) 1 none (some rasqal_xsd_double_uri) none
          (rasqal_literal_value.mk 0 (Dbl.of_int 1) none rasqal_variable_ptr.null)))
        rasqal_xsd_datetime_uri 0 0 = .ok (rasqal_literal_ptr.null, 1) :=
  ⟨rasqal_literal_cast_numeric_to_dateTime 0 _ 0 0 (by decide) (by decide),
    rasqal_literal_cast_numeric_to_dateTime 0 _ 0 0 (by decide) (by decide)⟩

/-- Claim C16: for every URI literal with URI `u` (a literal of kind uri, which carries no
datatype) and every target datatype `t`, with the error flag clear on entry,
`rasqal_literal_cast` succeeds iff `t` is xsd:string: then it returns the string-kind
literal whose text is the string form of `u` and whose datatype is xsd:string, with
the error flag unset; otherwise it returns no literal and sets the error flag. -/
theorem rasqal_literal_cast_uri (fuel : Nat) (l : rasqal_literal) (u t : raptor_uri)
    (flags : Int) (hk : l.type = rasqal_literal_type.URI) (hd : l.datatype = none)
    (hu : l.value.uri = some u) :
    rasqal_literal_cast fuel (rasqal_literal_ptr.ptr l) t flags 0 =
      if t = rasqal_xsd_string_uri then
        .ok (rasqal_literal_ptr.ptr (rasqal_literal.mk 1 rasqal_literal_type.STRING
          (some (raptor_uri_as_string u)) (raptor_uri_as_string u).length none
          (some rasqal_xsd_string_uri) none rasqal_literal_value.zero), 0)
      else .ok (rasqal_literal_ptr.null, 1) := by
  obtain ⟨c, k, s, n, g, dt, f, ⟨i, d, r, w⟩⟩ := l
  simp only [rasqal_literal.type, rasqal_literal.datatype, rasqal_literal.value,
    rasqal_literal_value.uri] at hk hd hu
  subst hk hd hu
  by_cases ht : t = rasqal_xsd_string_uri
  · subst ht
    have he : raptor_uri_equals rasqal_xsd_string_uri rasqal_xsd_string_uri = true := by
      decide
    have hlook : xsd_lookup sparql_xsd_datatypes_table 0 rasqal_xsd_string_uri = .ok none :=
      rfl
    simp [rasqal_literal_cast, rasqal_literal.type, rasqal_literal.datatype, cast_check, he,
      rasqal_literal.value, rasqal_literal_value.uri, cast_build, rasqal_new_string_literal,
      rasqal_literal_string_to_native, raptor_uri_copy, hlook]
  · have he : raptor_uri_equals t rasqal_xsd_string_uri = false := by
      rw [← Bool.not_eq_true, raptor_uri_equals_iff]
      exact ht
    simp [rasqal_literal_cast, rasqal_literal.type, rasqal_literal.datatype, cast_check, he, ht]

/-- Claim C16 (witness): the URI literal http://example.org/a cast to xsd:string and to
xsd:integer. -/
theorem rasqal_literal_cast_uri_witness :
    rasqal_literal_cast 0 (rasqal_new_uri_literal (some ⟨cstr "http://example.org/a"⟩))
        rasqal_xsd_string_uri 0 0 =
      (if rasqal_xsd_string_uri = rasqal_xsd_string_uri then
        .ok (rasqal_literal_ptr.ptr (rasqal_literal.mk 1 rasqal_literal_type.STRING
          (some (raptor_uri_as_string ⟨cstr "http://example.org/a"⟩))
          (raptor_uri_as_string ⟨cstr "http://example.org/a"⟩).length none
          (some rasqal_xsd_string_uri) none rasqal_literal_value.zero), 0)
      else .ok (rasqal_literal_ptr.null, 1)) ∧
    rasqal_literal_cast 0 (rasqal_new_uri_literal (some ⟨cstr "http://example.org/a"⟩))
        rasqal_xsd_integer_uri 0 0 =
      (if rasqal_xsd_integer_uri = rasqal_xsd_string_uri then
        .ok (rasqal_literal_ptr.ptr (rasqal_literal.mk 1 rasqal_literal_type.STRING
          (some (raptor_uri_as_string ⟨cstr "http://example.org/a"⟩))
          (raptor_uri_as_string ⟨cstr "http://example.org/a"⟩).length none
          (some rasqal_xsd_string_uri) none rasqal_literal_value.zero), 0)
      else .ok (rasqal_literal_ptr.null, 1)) :=
  ⟨rasqal_literal_cast_uri 0
      (rasqal_literal.mk 1 rasqal_literal_type.URI none 0 none none none
        (rasqal_literal_value.mk 0 (Dbl.fin 0 0) (some ⟨cstr "http://example.org/a"⟩)
          rasqal_variable_ptr.null))
      ⟨cstr "http://example.org/a"⟩ rasqal_xsd_string_uri 0 rfl rfl rfl,
    rasqal_literal_cast_uri 0
      (rasqal_literal.mk 1 rasqal_literal_type.URI none 0 none none none
        (rasqal_literal_value.mk 0 (Dbl.fin 0 0) (some ⟨cstr "http://example.org/a"⟩)
          rasqal_variable_ptr.null))
      ⟨cstr "http://example.org/a"⟩ rasqal_xsd_integer_uri 0 rfl rfl rfl⟩

/-- The cast of a string literal without datatype is the construction of a string
literal from its text and the target datatype. -/
theorem cast_untyped_string_eq (fuel : Nat) (s : rasqal_literal) (text : CString)
    (t : raptor_uri) (flags : Int) (hk : s.type = rasqal_literal_type.STRING)
    (hd : s.datatype = none) (hs : s.string = some text) :
    rasqal_literal_cast fuel (rasqal_literal_ptr.ptr s) t flags 0 =
      match rasqal_new_string_literal fuel text none (some t) none with
      | .error f => .error f
      | .ok rasqal_literal_ptr.null => .ok (rasqal_literal_ptr.null, 1)
      | .ok result => .ok (result, 0) := by
  obtain ⟨c, k, str, n, g, dt, f, v⟩ := s
  simp only [rasqal_literal.type, rasqal_literal.datatype, rasqal_literal.string] at hk hd hs
  subst hk hd hs
  have h : rasqal_literal_cast fuel (rasqal_literal_ptr.ptr
      (rasqal_literal.mk c rasqal_literal_type.STRING (some text) n g none f v)) t flags 0 =
      cast_build fuel (some text) t 0 := by
    simp [rasqal_literal_cast, rasqal_literal.type, rasqal_literal.datatype, cast_check,
      rasqal_literal.string]
  rw [h]
  simp only [cast_build, raptor_uri_copy]

theorem new_string_literal_integer_eq (fuel : Nat) (n : Int) (hlo : INT_MIN ≤ n)
    (hhi : n ≤ INT_MAX) :
    rasqal_new_string_literal fuel (sprintf_d n) none (some rasqal_xsd_integer_uri) none =
      .ok (rasqal_new_integer_literal rasqal_literal_type.INTEGER n) := by
  unfold rasqal_new_string_literal
  simp only
  rw [string_to_native_integer fuel 1 rasqal_literal_type.STRING (sprintf_d n) _ _ _ _ none ()
    (check_integer_format_sprintf_d n hlo hhi 0)]
  simp [atoi_sprintf_d n hlo hhi, rasqal_literal_value.zero, rasqal_literal_value.floating,
    rasqal_literal_value.uri, rasqal_literal_value.var, rasqal_new_integer_literal,
    raptor_uri_copy]

theorem new_string_literal_dateTime_eq (fuel : Nat) (text : CString)
    (hok : rasqal_literal_check_dateTime_format text 0 = 1) :
    rasqal_new_string_literal fuel text none (some rasqal_xsd_datetime_uri) none =
      .ok (rasqal_literal_ptr.ptr (rasqal_literal.mk 1 rasqal_literal_type.DATETIME
        (some text) text.length none (some rasqal_xsd_datetime_uri) none
        rasqal_literal_value.zero)) := by
  have hlook : xsd_lookup sparql_xsd_datatypes_table 0 rasqal_xsd_datetime_uri =
      .ok (some (5, ⟨rasqal_literal_type.DATETIME, cstr "dateTime",
        some rasqal_xsd_datetime_uri,
        fun _ s f => .ok (rasqal_literal_check_dateTime_format s f)⟩)) := rfl
  simp [rasqal_new_string_literal, rasqal_literal_string_to_native, rasqal_literal.datatype,
    rasqal_literal.string, hlook, hok, rasqal_literal.set_language, rasqal_literal.set_type]

theorem new_string_literal_rejected (e : xsd_datatype) (he : e ∈ sparql_xsd_datatypes_table)
    (fuel : Nat) (s : CString) (hrej : e.check fuel s 0 = .ok 0) :
    rasqal_new_string_literal fuel s none e.uri none = .ok rasqal_literal_ptr.null := by
  unfold rasqal_new_string_literal
  simp only
  rw [string_to_native_rejected e he fuel
    (rasqal_literal.mk 1 rasqal_literal_type.STRING (some s) s.length
      (if (e.uri.isSome && (none : Option CString).isSome) = true then none else none) e.uri
      none rasqal_literal_value.zero) s rfl rfl hrej]
  simp [rasqal_free_literal, rasqal_literal.usage, rasqal_literal.type,
    rasqal_literal.set_usage, wrap32]

/-- Claim C17: for every string literal `s` without datatype, with text `text`, and every
target datatype `t`, with the error flag clear on entry, `rasqal_literal_cast(s, t)`
returns exactly what `rasqal_new_string_literal` returns for a copy of the text, no
language and datatype `t`, setting the error flag exactly when that is no literal.
So the text of a 32-bit integer `n` cast to xsd:integer gives the integer literal
`n`; a text the dateTime validator accepts cast to xsd:dateTime gives a date-time
literal; and a text that the validator of a registry entry rejects, cast to that
entry's datatype, gives no literal with the error flag set. -/
theorem rasqal_literal_cast_untyped_string (fuel : Nat) (s : rasqal_literal) (text : CString)
    (flags : Int) (hk : s.type = rasqal_literal_type.STRING) (hd : s.datatype = none)
    (hs : s.string = some text) :
    (∀ t : raptor_uri,
      rasqal_literal_cast fuel (rasqal_literal_ptr.ptr s) t flags 0 =
        match rasqal_new_string_literal fuel text none (some t) none with
        | .error f => .error f
        | .ok rasqal_literal_ptr.null => .ok (rasqal_literal_ptr.null, 1)
        | .ok result => .ok (result, 0)) ∧
    (∀ n : Int, INT_MIN ≤ n → n ≤ INT_MAX → text = sprintf_d n →
      rasqal_literal_cast fuel (rasqal_literal_ptr.ptr s) rasqal_xsd_integer_uri flags 0 =
        .ok (rasqal_new_integer_literal rasqal_literal_type.INTEGER n, 0)) ∧
    (rasqal_literal_check_dateTime_format text 0 = 1 →
      rasqal_literal_cast fuel (rasqal_literal_ptr.ptr s) rasqal_xsd_datetime_uri flags 0 =
        .ok (rasqal_literal_ptr.ptr (rasqal_literal.mk 1 rasqal_literal_type.DATETIME
          (some text) text.length none (some rasqal_xsd_datetime_uri) none
          rasqal_literal_value.zero), 0)) ∧
    (∀ e ∈ sparql_xsd_datatypes_table, e.check fuel text 0 = .ok 0 →
      ∃ t, e.uri = some t ∧
        rasqal_literal_cast fuel (rasqal_literal_ptr.ptr s) t flags 0 =
          .ok (rasqal_literal_ptr.null, 1)) := by
  refine ⟨fun t => cast_untyped_string_eq fuel s text t flags hk hd hs, ?_, ?_, ?_⟩
  · intro n hlo hhi ht
    rw [cast_untyped_string_eq fuel s text _ flags hk hd hs, ht,
      new_string_literal_integer_eq fuel n hlo hhi]
    rfl
  · intro hok
    rw [cast_untyped_string_eq fuel s text _ flags hk hd hs,
      new_string_literal_dateTime_eq fuel text hok]
  · intro e he hrej
    obtain ⟨i, u, hu, _, _⟩ := xsd_lookup_mem e he
    refine ⟨u, hu, ?_⟩
    have h := new_string_literal_rejected e he fuel text hrej
    rw [hu] at h
    rw [cast_untyped_string_eq fuel s text _ flags hk hd hs, h]

/-- Claim C17 (witness): the plain strings "42" cast to xsd:integer and
"2020-01-01T00:00:00" cast to xsd:dateTime. -/
theorem rasqal_literal_cast_untyped_string_witness :
    rasqal_literal_cast 0
        (rasqal_literal_ptr.ptr (rasqal_literal.mk 1 rasqal_literal_type.STRING
          (some (cstr "42")) 2 none none none rasqal_literal_value.zero))
        rasqal_xsd_integer_uri 0 0 =
      .ok (rasqal_new_integer_literal rasqal_literal_type.INTEGER 42, 0) ∧
    rasqal_literal_cast 0
        (rasqal_literal_ptr.ptr (rasqal_literal.mk 1 rasqal_literal_type.STRING
          (some (cstr "2020-01-01T00:00:00")) 19 none none none rasqal_literal_value.zero))
        rasqal_xsd_datetime_uri 0 0 =
      .ok (rasqal_literal_ptr.ptr (rasqal_literal.mk 1 rasqal_literal_type.DATETIME
        (some (cstr "2020-01-01T00:00:00")) (cstr "2020-01-01T00:00:00").length none
        (some rasqal_xsd_datetime_uri) none rasqal_literal_value.zero), 0) :=
  ⟨(rasqal_literal_cast_untyped_string 0
      (rasqal_literal.mk 1 rasqal_literal_type.STRING
        (some (cstr "42")) 2 none none none rasqal_literal_value.zero)
      (cstr "42") 0 rfl rfl rfl).2.1 42 (by decide) (by decide) (by decide),
    (rasqal_literal_cast_untyped_string 0
      (rasqal_literal.mk 1 rasqal_literal_type.STRING
        (some (cstr "2020-01-01T00:00:00")) 19 none none none rasqal_literal_value.zero)
      (cstr "2020-01-01T00:00:00") 0 rfl rfl rfl).2.2.1 (by decide)⟩

/-! ## Unbound variables and coercion through variables -/

/-- Claim C18 (the code at the failing input): `rasqal_literal_compare` on two variable
literals that are both unbound returns 0 with the error flag set, for every flags
value: when the first variable turns out unbound, the test `if(lits[1-i])` looks at
the second operand before it is dereferenced, which is the non-NULL variable
literal. -/
theorem rasqal_literal_compare_both_unbound (name1 name2 : CString) (flags : Nat) :
    rasqal_literal_compare
        (rasqal_new_variable_literal
          (rasqal_variable_ptr.ptr (rasqal_variable.mk name1 rasqal_literal_ptr.null)))
        (rasqal_new_variable_literal
          (rasqal_variable_ptr.ptr (rasqal_variable.mk name2 rasqal_literal_ptr.null)))
        flags = .ok (0, 1) := by
  rfl

/-- Through a bound variable `rasqal_literal_as_floating` gives what
`rasqal_literal_as_integer` gives for the binding, converted to double. -/
theorem as_floating_variable (name : CString) (b : rasqal_literal_ptr) (error : Int) :
    rasqal_literal_as_floating
        (rasqal_new_variable_literal (rasqal_variable_ptr.ptr (rasqal_variable.mk name b)))
        error =
      match rasqal_literal_as_integer b error with
      | .error f => .error f
      | .ok (i, error) => .ok (Dbl.of_int i, error) := by
  rfl

/-- Claim C19 (the code at the failing input): `rasqal_literal_as_floating` on a variable
literal returns `rasqal_literal_as_integer` of the binding converted to double.  For
a variable bound to the decimal literal "1.5" it returns 0 with the error flag set,
while on the decimal literal itself it returns 1.5 without error; for a variable
bound to the double literal 1.5 it returns 1 without error, while on the double
literal itself it returns 1.5. -/
theorem rasqal_literal_as_floating_variable_as_integer :
    (∀ (name : CString) (b : rasqal_literal_ptr) (error : Int),
      rasqal_literal_as_floating
          (rasqal_new_variable_literal (rasqal_variable_ptr.ptr (rasqal_variable.mk name b)))
          error =
        match rasqal_literal_as_integer b error with
        | .error f => .error f
        | .ok (i, error) => .ok (Dbl.of_int i, error)) ∧
    rasqal_literal_as_floating
        (rasqal_new_variable_literal (rasqal_variable_ptr.ptr
          (rasqal_variable.mk (cstr "x") (rasqal_new_decimal_literal (cstr "1.5"))))) 0
      = .ok (Dbl.fin 0 0, 1) ∧
    rasqal_literal_as_floating (rasqal_new_decimal_literal (cstr "1.5")) 0
      = .ok (Dbl.fin 6755399441055744 (-52), 0) ∧
    rasqal_literal_as_floating
        (rasqal_new_variable_literal (rasqal_variable_ptr.ptr
          (rasqal_variable.mk (cstr "x")
            (rasqal_new_double_literal (fun _ => cstr "1.5")
              (Dbl.fin 6755399441055744 (-52)))))) 0
      = .ok (Dbl.fin 4503599627370496 (-52), 0) ∧
    rasqal_literal_as_floating
        (rasqal_new_double_literal (fun _ => cstr "1.5") (Dbl.fin 6755399441055744 (-52))) 0
      = .ok (Dbl.fin 6755399441055744 (-52), 0) :=
  ⟨as_floating_variable, by decide, by decide, by decide, by decide⟩

/-! ## The date-time validator -/

theorem isdigit_ne (c : Nat) (h : isdigit c = true) : c ≠ 0 ∧ c ≠ 45 ∧ c ≠ 46 ∧ c ≠ 90 := by
  simp [isdigit] at h
  omega

/-- The statements of the validator that follow the fields, on the pointer `p` left
after the first digit of the seconds. -/
theorem check_dateTime_format_eq (s : CString) (flags : Int) :
    rasqal_literal_check_dateTime_format s flags =
      match dateTime_fields.foldl (fun p step => p.bind step) (some s) with
      | none => 0
      | some p =>
        if peek (if isdigit (peek p) then p.tail else p) == 0 then 1
        else
          if peek (if peek (if isdigit (peek p) then p.tail else p) == 46 then
              (if isdigit (peek p) then p.tail else p).tail.dropWhile isdigit
            else (if isdigit (peek p) then p.tail else p)) == 90 then
            (if peek (if peek (if isdigit (peek p) then p.tail else p) == 46 then
                (if isdigit (peek p) then p.tail else p).tail.dropWhile isdigit
              else (if isdigit (peek p) then p.tail else p)).tail == 0 then 1 else 0)
          else 1 := by
  rfl

/-- On a text that starts with the fixed-width part, the field statements of the
validator leave the pointer on the second digit of the seconds. -/
theorem dateTime_fields_of_core (p rest : CString) (h : dateTime_form_core p = some rest) :
    ∃ s2, isdigit s2 = true ∧
      dateTime_fields.foldl (fun p step => p.bind step) (some p) = some (s2 :: rest) ∧
      dateTime_fields.foldl (fun p step => p.bind step) (some (45 :: p)) = some (s2 :: rest) ∧
      ∃ pre, p = pre ++ s2 :: rest := by
  unfold dateTime_form_core at h
  split at h
  · rename_i y1 y2 y3 y4 c1 m1 m2 c2 d1 d2 c3 h1 h2 c4 n1 n2 c5 s1 s2 r
    simp only [Bool.and_eq_true, beq_iff_eq, Option.ite_none_right_eq_some,
      Option.some.injEq] at h
    obtain ⟨⟨⟨⟨⟨⟨⟨⟨⟨⟨⟨⟨⟨⟨⟨⟨⟨⟨⟨hy1, hy2⟩, hy3⟩, hy4⟩, rfl⟩, hm1⟩, hm2⟩, rfl⟩, hd1⟩, hd2⟩, rfl⟩,
      hh1⟩, hh2⟩, rfl⟩, hn1⟩, hn2⟩, rfl⟩, hs1⟩, hs2⟩, rfl⟩ := h
    refine ⟨s2, hs2, ?_, ?_,
      ⟨[y1, y2, y3, y4, 45, m1, m2, 45, d1, d2, 84, h1, h2, 58, n1, n2, 58, s1], rfl⟩⟩
    · have := isdigit_ne y1 hy1
      have := isdigit_ne y2 hy2
      have := isdigit_ne y3 hy3
      have := isdigit_ne y4 hy4
      have := isdigit_ne m1 hm1
      have := isdigit_ne m2 hm2
      have := isdigit_ne d1 hd1
      have := isdigit_ne d2 hd2
      have := isdigit_ne h1 hh1
      have := isdigit_ne h2 hh2
      have := isdigit_ne n1 hn1
      have := isdigit_ne n2 hn2
      have := isdigit_ne s1 hs1
      have := isdigit_ne s2 hs2
      simp [dateTime_fields, dateTime_sign, dateTime_digit, dateTime_char, ADVANCE_OR_DIE,
        peek, *]
    · have := isdigit_ne y1 hy1
      have := isdigit_ne y2 hy2
      have := isdigit_ne y3 hy3
      have := isdigit_ne y4 hy4
      have := isdigit_ne m1 hm1
      have := isdigit_ne m2 hm2
      have := isdigit_ne d1 hd1
      have := isdigit_ne d2 hd2
      have := isdigit_ne h1 hh1
      have := isdigit_ne h2 hh2
      have := isdigit_ne n1 hn1
      have := isdigit_ne n2 hn2
      have := isdigit_ne s1 hs1
      have := isdigit_ne s2 hs2
      simp [dateTime_fields, dateTime_sign, dateTime_digit, dateTime_char, ADVANCE_OR_DIE,
        peek, *]
  · exact absurd h (by simp)

/-- The statements of the validator after the seconds, against the form of what
follows the seconds: the text is rejected exactly when, after an optional fraction,
a `Z` is followed by something. -/
theorem dateTime_tail_accepts (rest : CString) (h0 : 0 ∉ rest) :
    ((if peek rest == 0 then (1 : Int)
      else
        if peek (if peek rest == 46 then rest.tail.dropWhile isdigit else rest) == 90 then
          (if peek (if peek rest == 46 then rest.tail.dropWhile isdigit else rest).tail == 0
            then 1 else 0)
        else 1) = 0 ↔ ∃ c cs, dateTime_form_after_fraction rest = 90 :: c :: cs) ∧
    ((if peek rest == 0 then (1 : Int)
      else
        if peek (if peek rest == 46 then rest.tail.dropWhile isdigit else rest) == 90 then
          (if peek (if peek rest == 46 then rest.tail.dropWhile isdigit else rest).tail == 0
            then 1 else 0)
        else 1) = 1 ↔ ¬ ∃ c cs, dateTime_form_after_fraction rest = 90 :: c :: cs) := by
  have key : ∀ q : CString, 0 ∉ q →
      ((if peek q == 90 then (if peek q.tail == 0 then (1 : Int) else 0) else 1) = 0 ↔
        ∃ c cs, q = 90 :: c :: cs) ∧
      ((if peek q == 90 then (if peek q.tail == 0 then (1 : Int) else 0) else 1) = 1 ↔
        ¬ ∃ c cs, q = 90 :: c :: cs) := by
    intro q hq
    rcases q with _ | ⟨x, _ | ⟨c, cs⟩⟩
    · simp [peek]
    · by_cases hx : x = 90 <;> simp [peek, hx]
    · have hc : c ≠ 0 := by
        rintro rfl
        exact hq (by simp)
      by_cases hx : x = 90 <;> simp [peek, hx, hc]
  rcases rest with _ | ⟨c, r⟩
  · simp [peek, dateTime_form_after_fraction]
  · have hc : c ≠ 0 := by
      rintro rfl
      exact h0 (by simp)
    have hr : 0 ∉ r := fun h => h0 (List.mem_cons_of_mem _ h)
    by_cases h46 : c = 46
    · subst h46
      have hq : 0 ∉ r.dropWhile isdigit := fun h => hr ((List.dropWhile_suffix _).subset h)
      have := key _ hq
      simpa [peek, dateTime_form_after_fraction] using this
    · have haf : dateTime_form_after_fraction (c :: r) = c :: r := by
        unfold dateTime_form_after_fraction
        split
        · simp_all
        · rfl
      have := key (c :: r) h0
      rw [haf]
      simpa [peek, hc, h46] using this

/-- A text either starts with `-`, which the unsigned text leaves out, or is its
own unsigned text. -/
theorem dateTime_form_unsigned_cases (s : CString) :
    s = 45 :: dateTime_form_unsigned s ∨ dateTime_form_unsigned s = s := by
  unfold dateTime_form_unsigned
  split
  · exact Or.inl rfl
  · exact Or.inr rfl

/-- Claim C20 (as amended): on a text without a NUL byte that starts with the
fixed-width part (after an optional leading `-`: four digits, `-`, two digits, `-`,
two digits, `T`, two digits, `:`, two digits, `:`, two digits),
`rasqal_literal_check_dateTime_format` returns 0 or 1; it rejects the text exactly
when what follows, after an optional `.` with its digits, is a `Z` followed by
something more; so every text of the form the specification words is accepted, and
so is "9999-99-99T99:99:99Z". -/
theorem rasqal_literal_check_dateTime_format_core (s rest : CString) (flags : Int)
    (h0 : 0 ∉ s) (hcore : dateTime_form_core (dateTime_form_unsigned s) = some rest) :
    (rasqal_literal_check_dateTime_format s flags = 0 ↔
      ∃ c cs, dateTime_form_after_fraction rest = 90 :: c :: cs) ∧
    (rasqal_literal_check_dateTime_format s flags = 1 ↔
      ¬ ∃ c cs, dateTime_form_after_fraction rest = 90 :: c :: cs) ∧
    (dateTime_form s = true → rasqal_literal_check_dateTime_format s flags = 1) ∧
    rasqal_literal_check_dateTime_format (cstr "9999-99-99T99:99:99Z") flags = 1 := by
  have hfold : ∃ s2, isdigit s2 = true ∧
      dateTime_fields.foldl (fun p step => p.bind step) (some s) = some (s2 :: rest) ∧
      0 ∉ rest := by
    obtain ⟨s2, hs2, h1, h2, pre, hp⟩ := dateTime_fields_of_core _ rest hcore
    have hsub : ∀ x ∈ rest, x ∈ dateTime_form_unsigned s := by
      intro x hx
      rw [hp]
      simp [hx]
    rcases dateTime_form_unsigned_cases s with hs | hs
    · refine ⟨s2, hs2, ?_, fun h => h0 ?_⟩
      · rw [hs]
        exact h2
      · rw [hs]
        exact List.mem_cons_of_mem _ (hsub 0 h)
    · refine ⟨s2, hs2, ?_, fun h => h0 ?_⟩
      · rw [← hs]
        exact h1
      · rw [← hs]
        exact hsub 0 h
  obtain ⟨s2, hs2, hf, hrest⟩ := hfold
  have htail := dateTime_tail_accepts rest hrest
  have heq : rasqal_literal_check_dateTime_format s flags =
      (if peek rest == 0 then (1 : Int)
        else
          if peek (if peek rest == 46 then rest.tail.dropWhile isdigit else rest) == 90 then
            (if peek (if peek rest == 46 then rest.tail.dropWhile isdigit else rest).tail == 0
              then 1 else 0)
          else 1) := by
    rw [check_dateTime_format_eq, hf]
    simp [peek, hs2]
  have h1 : dateTime_form s = true → rasqal_literal_check_dateTime_format s flags = 1 := by
    intro hform
    rw [heq]
    refine htail.2.2 ?_
    rintro ⟨c, cs, hc⟩
    unfold dateTime_form at hform
    rw [hcore] at hform
    simp [hc] at hform
  refine ⟨?_, ?_, h1, ?_⟩
  · rw [heq]
    exact htail.1
  · rw [heq]
    exact htail.2
  · rw [check_dateTime_format_eq]
    decide

/-- Claim C20 (witness): the amended statement at "9999-99-99T99:99:99Z", which has
no NUL byte and starts with the fixed-width part, followed by "Z". -/
theorem rasqal_literal_check_dateTime_format_core_witness :
    (0 ∉ cstr "9999-99-99T99:99:99Z" ∧
      dateTime_form_core (dateTime_form_unsigned (cstr "9999-99-99T99:99:99Z")) =
        some (cstr "Z")) ∧
    ((rasqal_literal_check_dateTime_format (cstr "9999-99-99T99:99:99Z") 0 = 0 ↔
      ∃ c cs, dateTime_form_after_fraction (cstr "Z") = 90 :: c :: cs) ∧
    (rasqal_literal_check_dateTime_format (cstr "9999-99-99T99:99:99Z") 0 = 1 ↔
      ¬ ∃ c cs, dateTime_form_after_fraction (cstr "Z") = 90 :: c :: cs) ∧
    (dateTime_form (cstr "9999-99-99T99:99:99Z") = true →
      rasqal_literal_check_dateTime_format (cstr "9999-99-99T99:99:99Z") 0 = 1) ∧
    rasqal_literal_check_dateTime_format (cstr "9999-99-99T99:99:99Z") 0 = 1) :=
  ⟨⟨by decide, by decide⟩,
    rasqal_literal_check_dateTime_format_core (cstr "9999-99-99T99:99:99Z") (cstr "Z") 0
      (by decide) (by decide)⟩

/-- Claim C20 (counterexample): "2020-01-01T00:00:00+01:00" is accepted although a
time-zone offset follows the seconds, which is not of the form the claim words; and
"2020-01-01T00:00:00Zx" of the same shape is rejected. -/
theorem rasqal_literal_check_dateTime_format_accepts_offset :
    rasqal_literal_check_dateTime_format (cstr "2020-01-01T00:00:00+01:00") 0 = 1 ∧
    dateTime_form (cstr "2020-01-01T00:00:00+01:00") = false ∧
    rasqal_literal_check_dateTime_format (cstr "2020-01-01T00:00:00Zx") 0 = 0 := by
  decide

/-! ## Typed strings of the boolean and float datatypes -/

/-- The promotion of a string literal typed xsd:boolean. -/
theorem string_to_native_boolean {σ : Type} (fuel : Nat) (u : Int) (t : rasqal_literal_type)
    (s : CString) (n : Nat) (g f : Option CString) (v : rasqal_literal_value)
    (handler : Option (σ → CString → σ)) (data : σ) :
    rasqal_literal_string_to_native fuel
        (rasqal_literal.mk u t (some s) n g (some rasqal_xsd_boolean_uri) f v) handler data =
      if s = cstr "true" ∨ s = cstr "TRUE" ∨ s = cstr "1" then
        .ok (0, rasqal_literal.mk u rasqal_literal_type.BOOLEAN (some (cstr "true")) 4 none
          (some rasqal_xsd_boolean_uri) f
          (rasqal_literal_value.mk 1 v.floating v.uri v.var), data)
      else if s = cstr "false" ∨ s = cstr "FALSE" ∨ s = cstr "0" then
        .ok (0, rasqal_literal.mk u rasqal_literal_type.BOOLEAN (some (cstr "false")) 5 none
          (some rasqal_xsd_boolean_uri) f
          (rasqal_literal_value.mk 0 v.floating v.uri v.var), data)
      else
        .ok (1, rasqal_literal.mk u t (some s) n g (some rasqal_xsd_boolean_uri) f v,
          match handler with
          | some h => h data (illegal_type_message (cstr "boolean") s)
          | none => data) := by
  obtain ⟨i, d, r, w⟩ := v
  by_cases h1 : s = cstr "true" ∨ s = cstr "TRUE" ∨ s = cstr "1"
  · rcases h1 with rfl | rfl | rfl <;> rfl
  by_cases h2 : s = cstr "false" ∨ s = cstr "FALSE" ∨ s = cstr "0"
  · rcases h2 with rfl | rfl | rfl <;> rfl
  have hlook : xsd_lookup sparql_xsd_datatypes_table 0 rasqal_xsd_boolean_uri =
      .ok (some (0, ⟨rasqal_literal_type.BOOLEAN, cstr "boolean", some rasqal_xsd_boolean_uri,
        fun _ s f => .ok (rasqal_literal_check_boolean_format s f)⟩)) := rfl
  have h1' : ¬ (((((s = cstr "true" ∨ s = cstr "TRUE") ∨ s = cstr "1") ∨
      s = cstr "false") ∨ s = cstr "FALSE") ∨ s = cstr "0") := by tauto
  unfold rasqal_literal_string_to_native
  simp only [rasqal_literal.datatype, rasqal_literal.string, hlook,
    rasqal_literal_check_boolean_format, beq_iff_eq, Bool.or_eq_true, strcmp_eq_zero_iff,
    h1, h2, h1', if_false, if_true]
  cases handler <;> simp

/-- Claim C21: constructing a typed string with the xsd:boolean datatype succeeds exactly
for the six texts "true", "TRUE", "1", "false", "FALSE", "0": for the first three
`rasqal_new_string_literal` returns the boolean literal with value 1, lexical text
"true" and length 4, for the last three the boolean literal with value 0, lexical
text "false" and length 5, and for every other text it returns no literal. -/
theorem rasqal_new_string_literal_boolean (fuel : Nat) (text : CString)
    (language datatype_qname : Option CString) :
    rasqal_new_string_literal fuel text language (some rasqal_xsd_boolean_uri)
        datatype_qname =
      if text = cstr "true" ∨ text = cstr "TRUE" ∨ text = cstr "1" then
        .ok (rasqal_literal_ptr.ptr
          (rasqal_literal.mk 1 rasqal_literal_type.BOOLEAN (some (cstr "true")) 4 none
            (some rasqal_xsd_boolean_uri) datatype_qname
            (rasqal_literal_value.mk 1 (Dbl.fin 0 0) none rasqal_variable_ptr.null)))
      else if text = cstr "false" ∨ text = cstr "FALSE" ∨ text = cstr "0" then
        .ok (rasqal_literal_ptr.ptr
          (rasqal_literal.mk 1 rasqal_literal_type.BOOLEAN (some (cstr "false")) 5 none
            (some rasqal_xsd_boolean_uri) datatype_qname
            (rasqal_literal_value.mk 0 (Dbl.fin 0 0) none rasqal_variable_ptr.null)))
      else .ok rasqal_literal_ptr.null := by
  unfold rasqal_new_string_literal
  simp only [string_to_native_boolean]
  split_ifs <;>
    simp [rasqal_literal_value.zero, rasqal_literal_value.floating, rasqal_literal_value.uri,
      rasqal_literal_value.var, rasqal_free_literal, rasqal_literal.usage,
      rasqal_literal.type, rasqal_literal.set_usage, wrap32]

/-- The float validator gives no answer, whatever the bound on the depth of its
recursion. -/
theorem check_float_format_out_of_fuel (fuel : Nat) (string : CString) (flags : Int) :
    rasqal_literal_check_float_format fuel string flags = .error Fault.out_of_fuel := by
  induction fuel with
  | zero => rfl
  | succ n ih => simpa [rasqal_literal_check_float_format] using ih

/-- Claim C22 (the code at the failing input): `rasqal_literal_check_float_format` calls
itself on the same arguments and does nothing else, so it gives no answer for any
text, whatever the depth allowed to the recursion; and `rasqal_new_string_literal`
with the xsd:float datatype, which runs that validator, returns nothing for any
text, "1.5" among them. -/
theorem rasqal_literal_check_float_format_diverges :
    (∀ (fuel : Nat) (string : CString) (flags : Int),
      rasqal_literal_check_float_format fuel string flags = .error Fault.out_of_fuel) ∧
    (∀ (fuel : Nat) (text : CString) (language datatype_qname : Option CString),
      rasqal_new_string_literal fuel text language (some rasqal_xsd_float_uri)
        datatype_qname = .error Fault.out_of_fuel) ∧
    (∀ fuel : Nat,
      rasqal_new_string_literal fuel (cstr "1.5") none (some rasqal_xsd_float_uri) none =
        .error Fault.out_of_fuel) := by
  have hlook : xsd_lookup sparql_xsd_datatypes_table 0 rasqal_xsd_float_uri =
      .ok (some (3, ⟨rasqal_literal_type.FLOAT, cstr "float", some rasqal_xsd_float_uri,
        rasqal_literal_check_float_format⟩)) := rfl
  have h : ∀ (fuel : Nat) (text : CString) (language datatype_qname : Option CString),
      rasqal_new_string_literal fuel text language (some rasqal_xsd_float_uri)
        datatype_qname = .error Fault.out_of_fuel := by
    intro fuel text language datatype_qname
    simp [rasqal_new_string_literal, rasqal_literal_string_to_native, rasqal_literal.datatype,
      rasqal_literal.string, hlook, check_float_format_out_of_fuel]
  exact ⟨check_float_format_out_of_fuel, h, fun fuel => h fuel _ _ _⟩

/-! ## Language and datatype of string literals -/

/-- The promotion leaves the datatype of the literal as it is, and never sets a
language tag. -/
theorem string_to_native_language_datatype {σ : Type} (fuel : Nat) (l l' : rasqal_literal)
    (handler : Option (σ → CString → σ)) (data data' : σ) (rc : Int)
    (h : rasqal_literal_string_to_native fuel l handler data = .ok (rc, l', data')) :
    l'.datatype = l.datatype ∧ (l.language = none → l'.language = none) := by
  obtain ⟨u, t, s, n, g, dt, f, ⟨i, d, r, w⟩⟩ := l
  unfold rasqal_literal_string_to_native at h
  simp only [rasqal_literal.datatype, rasqal_literal.string] at h
  repeat' split at h
  all_goals cases h
  all_goals
    simp [rasqal_literal.datatype, rasqal_literal.language, rasqal_literal.set_language,
      rasqal_literal.set_type, rasqal_literal.set_integer, rasqal_literal.set_floating,
      rasqal_literal.set_string, rasqal_literal.set_string_len]

/-- Claim C23: every literal that `rasqal_new_string_literal` returns has at most one of
language and datatype set, and when both a language and a datatype are supplied the
literal returned keeps the datatype and has no language; and a string literal with
at most one of the two set still has at most one of them set after
`rasqal_literal_expand_qname` has returned 0 for it, with no language at all when
it carried a datatype qname to expand. -/
theorem rasqal_string_literal_language_datatype_exclusive {σ : Type}
    (fuel : Nat) (string : CString) (language : Option CString)
    (datatype : Option raptor_uri) (datatype_qname : Option CString) (l : rasqal_literal)
    (fuel2 : Nat) (raptor_qname_string_to_uri : Option CString → Nat → σ → Option raptor_uri × σ)
    (rasqal_query_simple_error : σ → CString → σ) (rq rq' : σ) (l0 l1 : rasqal_literal)
    (hnew : rasqal_new_string_literal fuel string language datatype datatype_qname =
      .ok (rasqal_literal_ptr.ptr l))
    (hkind : l0.type = rasqal_literal_type.STRING)
    (hinv : l0.language = none ∨ l0.datatype = none)
    (hexp : rasqal_literal_expand_qname fuel2 raptor_qname_string_to_uri
      rasqal_query_simple_error rq l0 = .ok (0, rasqal_literal_ptr.ptr l1, rq')) :
    (l.language = none ∨ l.datatype = none) ∧
    (language ≠ none → datatype ≠ none → l.datatype = datatype ∧ l.language = none) ∧
    (l1.language = none ∨ l1.datatype = none) ∧
    (l0.flags ≠ none → l1.language = none ∧ l1.datatype ≠ none) := by
  have hl : l.datatype = datatype ∧ (datatype ≠ none → l.language = none) := by
    unfold rasqal_new_string_literal at hnew
    simp only at hnew
    generalize hr : rasqal_literal_string_to_native fuel _ _ _ = r at hnew
    rcases r with f | ⟨rc, l', d'⟩
    · cases hnew
    · simp only at hnew
      split at hnew
      · split at hnew <;> cases hnew
      · cases hnew
        have := string_to_native_language_datatype _ _ _ _ _ _ _ hr
        simp only [rasqal_literal.datatype, rasqal_literal.language] at this
        refine ⟨this.1, fun hd => this.2 ?_⟩
        cases datatype
        · exact absurd rfl hd
        · cases language <;> rfl
  have hl1 : (l1.language = none ∨ l1.datatype = none) ∧
      (l0.flags ≠ none → l1.language = none ∧ l1.datatype ≠ none) := by
    obtain ⟨u, t, s, n, g, dt, f, v⟩ := l0
    simp only [rasqal_literal.type] at hkind
    subst hkind
    simp only [rasqal_literal.language, rasqal_literal.datatype] at hinv
    unfold rasqal_literal_expand_qname at hexp
    simp only [rasqal_literal.type, reduceCtorEq, if_false, if_true,
      rasqal_literal.flags] at hexp
    cases f with
    | none =>
      simp only [Except.ok.injEq, Prod.mk.injEq, rasqal_literal_ptr.ptr.injEq, true_and] at hexp
      obtain ⟨rfl, _⟩ := hexp
      simpa [rasqal_literal.language, rasqal_literal.datatype, rasqal_literal.flags] using hinv
    | some flags =>
      simp only at hexp
      generalize raptor_qname_string_to_uri (some flags) flags.length rq = q at hexp
      obtain ⟨uri, rq1⟩ := q
      cases uri with
      | none => simp at hexp
      | some uri =>
        simp only at hexp
        generalize hr : rasqal_literal_string_to_native fuel2 _ _ _ = r at hexp
        rcases r with e | ⟨rc, l', d'⟩
        · cases hexp
        · simp only at hexp
          split at hexp
          · split at hexp
            · cases hexp
            · simp at hexp
          · simp only [Except.ok.injEq, Prod.mk.injEq, rasqal_literal_ptr.ptr.injEq,
              true_and] at hexp
            obtain ⟨rfl, _⟩ := hexp
            have := string_to_native_language_datatype _ _ _ _ _ _ _ hr
            have hlang : l'.language = none := by
              apply this.2
              cases g <;> simp [rasqal_literal.set_datatype, rasqal_literal.set_flags,
                rasqal_literal.set_language, rasqal_literal.language]
            have hdt : l'.datatype = some uri := by
              rw [this.1]
              cases g <;> simp [rasqal_literal.set_datatype, rasqal_literal.set_flags,
                rasqal_literal.set_language, rasqal_literal.language, rasqal_literal.datatype]
            exact ⟨Or.inl hlang, fun _ => ⟨hlang, by rw [hdt]; simp⟩⟩
  refine ⟨?_, ?_, hl1.1, hl1.2⟩
  · cases hd : datatype with
    | none => exact Or.inr (by rw [hl.1, hd])
    | some d => exact Or.inl (hl.2 (by rw [hd]; simp))
  · intro _ hd
    exact ⟨hl.1, hl.2 hd⟩

/-- Claim C23 (witness): the text "42" with the language "en" and the datatype
xsd:integer given to the constructor, and the string literal "42" with the language
"en" and the datatype qname "xsd:integer", which a resolver that knows that name
expands. -/
theorem rasqal_string_literal_language_datatype_exclusive_witness :
    (rasqal_new_string_literal 0 (cstr "42") (some (cstr "en")) (some rasqal_xsd_integer_uri)
        none =
      .ok (rasqal_literal_ptr.ptr
        (rasqal_literal.mk 1 rasqal_literal_type.INTEGER (some (cstr "42")) 2 none
          (some rasqal_xsd_integer_uri) none
          (rasqal_literal_value.mk 42 (Dbl.fin 0 0) none rasqal_variable_ptr.null))) ∧
     rasqal_literal_expand_qname 0
        (fun name _ (rq : Unit) =>
          (if name = some (cstr "xsd:integer") then some rasqal_xsd_integer_uri else none, rq))
        (fun rq _ => rq) ()
        (rasqal_literal.mk 1 rasqal_literal_type.STRING (some (cstr "42")) 2
          (some (cstr "en")) none (some (cstr "xsd:integer")) rasqal_literal_value.zero) =
      .ok (0, rasqal_literal_ptr.ptr
        (rasqal_literal.mk 1 rasqal_literal_type.INTEGER (some (cstr "42")) 2 none
          (some rasqal_xsd_integer_uri) none
          (rasqal_literal_value.mk 42 (Dbl.fin 0 0) none rasqal_variable_ptr.null)), ())) ∧
    (((rasqal_literal.mk 1 rasqal_literal_type.INTEGER (some (cstr "42")) 2 none
          (some rasqal_xsd_integer_uri) none
          (rasqal_literal_value.mk 42 (Dbl.fin 0 0) none rasqal_variable_ptr.null)).language
        = none ∨
      (rasqal_literal.mk 1 rasqal_literal_type.INTEGER (some (cstr "42")) 2 none
          (some rasqal_xsd_integer_uri) none
          (rasqal_literal_value.mk 42 (Dbl.fin 0 0) none rasqal_variable_ptr.null)).datatype
        = none) ∧
     (some (cstr "en") ≠ none → some rasqal_xsd_integer_uri ≠ none →
      (rasqal_literal.mk 1 rasqal_literal_type.INTEGER (some (cstr "42")) 2 none
          (some rasqal_xsd_integer_uri) none
          (rasqal_literal_value.mk 42 (Dbl.fin 0 0) none rasqal_variable_ptr.null)).datatype
        = some rasqal_xsd_integer_uri ∧
      (rasqal_literal.mk 1 rasqal_literal_type.INTEGER (some (cstr "42")) 2 none
          (some rasqal_xsd_integer_uri) none
          (rasqal_literal_value.mk 42 (Dbl.fin 0 0) none rasqal_variable_ptr.null)).language
        = none) ∧
     ((rasqal_literal.mk 1 rasqal_literal_type.INTEGER (some (cstr "42")) 2 none
          (some rasqal_xsd_integer_uri) none
          (rasqal_literal_value.mk 42 (Dbl.fin 0 0) none rasqal_variable_ptr.null)).language
        = none ∨
      (rasqal_literal.mk 1 rasqal_literal_type.INTEGER (some (cstr "42")) 2 none
          (some rasqal_xsd_integer_uri) none
          (rasqal_literal_value.mk 42 (Dbl.fin 0 0) none rasqal_variable_ptr.null)).datatype
        = none) ∧
     ((rasqal_literal.mk 1 rasqal_literal_type.STRING (some (cstr "42")) 2
          (some (cstr "en")) none (some (cstr "xsd:integer")) rasqal_literal_value.zero).flags
        ≠ none →
      (rasqal_literal.mk 1 rasqal_literal_type.INTEGER (some (cstr "42")) 2 none
          (some rasqal_xsd_integer_uri) none
          (rasqal_literal_value.mk 42 (Dbl.fin 0 0) none rasqal_variable_ptr.null)).language
        = none ∧
      (rasqal_literal.mk 1 rasqal_literal_type.INTEGER (some (cstr "42")) 2 none
          (some rasqal_xsd_integer_uri) none
          (rasqal_literal_value.mk 42 (Dbl.fin 0 0) none rasqal_variable_ptr.null)).datatype
        ≠ none)) :=
  ⟨⟨by decide, by decide⟩,
    rasqal_string_literal_language_datatype_exclusive 0 (cstr "42") (some (cstr "en"))
      (some rasqal_xsd_integer_uri) none _ 0
      (fun name _ (rq : Unit) =>
        (if name = some (cstr "xsd:integer") then some rasqal_xsd_integer_uri else none, rq))
      (fun rq _ => rq) () ()
      (rasqal_literal.mk 1 rasqal_literal_type.STRING (some (cstr "42")) 2
        (some (cstr "en")) none (some (cstr "xsd:integer")) rasqal_literal_value.zero)
      _ (by decide) (by decide) (by decide) (by decide)⟩

/-! ## Kind and datatype of constructed literals -/

/-- An entry that the registry loop finds is in the registry and its datatype equals
the one looked for. -/
theorem xsd_lookup_found (table : List xsd_datatype) (i j : Nat) (d : raptor_uri)
    (e : xsd_datatype) (h : xsd_lookup table i d = .ok (some (j, e))) :
    e ∈ table ∧ e.uri = some d := by
  induction table generalizing i with
  | nil => simp [xsd_lookup] at h
  | cons x rest ih =>
    unfold xsd_lookup at h
    cases hu : x.uri with
    | none => simp [hu] at h
    | some u =>
      simp only [hu] at h
      by_cases heq : raptor_uri_equals d u = true
      · simp only [heq, if_true, Except.ok.injEq, Option.some.injEq, Prod.mk.injEq] at h
        obtain ⟨-, rfl⟩ := h
        have hd : d = u := (raptor_uri_equals_iff d u).mp heq
        exact ⟨by simp, by rw [hu, hd]⟩
      · simp only [heq] at h
        obtain ⟨hm, hu2⟩ := ih (i + 1) h
        exact ⟨List.mem_cons_of_mem _ hm, hu2⟩

/-- The promotion gives kind date-time only to a literal whose datatype is
xsd:dateTime: a literal that enters with another kind and leaves with kind
date-time carries that datatype. -/
theorem string_to_native_dateTime_datatype {σ : Type} (fuel : Nat) (l r : rasqal_literal)
    (handler : Option (σ → CString → σ)) (data out : σ) (rc : Int)
    (h : rasqal_literal_string_to_native fuel l handler data = .ok (rc, r, out))
    (hl : l.type ≠ rasqal_literal_type.DATETIME)
    (hr : r.type = rasqal_literal_type.DATETIME) :
    r.datatype = some rasqal_xsd_datetime_uri := by
  obtain ⟨u, t, s, n, g, dt, f, ⟨i, d, y, w⟩⟩ := l
  simp only [rasqal_literal.type] at hl
  unfold rasqal_literal_string_to_native at h
  simp only [rasqal_literal.datatype, rasqal_literal.string] at h
  cases dt with
  | none =>
    simp only [Except.ok.injEq, Prod.mk.injEq] at h
    obtain ⟨-, rfl, -⟩ := h
    exact absurd hr hl
  | some dv =>
    simp only [] at h
    cases hlook : xsd_lookup sparql_xsd_datatypes_table 0 dv with
    | error x => simp [hlook] at h
    | ok found =>
      cases found with
      | none =>
        simp only [hlook, Except.ok.injEq, Prod.mk.injEq] at h
        obtain ⟨-, rfl, -⟩ := h
        exact absurd hr hl
      | some p =>
        obtain ⟨j, e⟩ := p
        obtain ⟨hm, hu⟩ := xsd_lookup_found _ _ _ _ _ hlook
        have hdt : r.datatype = some dv := by
          have := (string_to_native_language_datatype fuel
            (rasqal_literal.mk u t s n g (some dv) f ⟨i, d, y, w⟩) r handler data out rc
            (by unfold rasqal_literal_string_to_native
                simp only [rasqal_literal.datatype, rasqal_literal.string]
                exact h)).1
          simpa [rasqal_literal.datatype] using this
        have hty : r.type = t ∨ r.type = e.type := by
          simp only [hlook] at h
          repeat' split at h
          all_goals cases h
          all_goals
            simp [rasqal_literal.type, rasqal_literal.set_language, rasqal_literal.set_type,
              rasqal_literal.set_integer, rasqal_literal.set_floating,
              rasqal_literal.set_string, rasqal_literal.set_string_len]
        rcases hty with hty | hty
        · rw [hty] at hr
          exact absurd hr hl
        · rw [hty] at hr
          rw [sparql_xsd_datatypes_table_eq] at hm
          simp only [List.mem_cons, List.mem_singleton, List.not_mem_nil, or_false] at hm
          rcases hm with rfl | rfl | rfl | rfl | rfl | rfl
          all_goals first
            | (exact absurd hr (by decide))
            | (rw [hdt]
               simp only [Option.some.injEq] at hu
               rw [← hu])

/-- The constructors that can give a literal of kind date-time never give it the
datatype xsd:string: `rasqal_new_string_literal` gives that kind only together with
the datatype xsd:dateTime, `rasqal_new_integer_literal` always sets the datatype
xsd:integer, and `rasqal_new_simple_literal` sets no datatype. -/
theorem constructed_dateTime_datatype :
    (∀ (fuel : Nat) (string : CString) (language : Option CString)
        (datatype : Option raptor_uri) (datatype_qname : Option CString) (l : rasqal_literal),
      rasqal_new_string_literal fuel string language datatype datatype_qname =
          .ok (rasqal_literal_ptr.ptr l) →
        l.type = rasqal_literal_type.DATETIME →
        l.datatype = some rasqal_xsd_datetime_uri) ∧
    (∀ (type : rasqal_literal_type) (integer : Int) (l : rasqal_literal),
      rasqal_new_integer_literal type integer = rasqal_literal_ptr.ptr l →
        l.datatype = some rasqal_xsd_integer_uri) ∧
    (∀ (type : rasqal_literal_type) (string : CString) (l : rasqal_literal),
      rasqal_new_simple_literal type string = rasqal_literal_ptr.ptr l →
        l.datatype = none) := by
  refine ⟨?_, ?_, ?_⟩
  · intro fuel string language datatype qname l h hk
    unfold rasqal_new_string_literal at h
    simp only [] at h
    cases hn : rasqal_literal_string_to_native fuel
        (rasqal_literal.mk 1 rasqal_literal_type.STRING (some string) string.length
          (if (datatype.isSome && language.isSome) = true then none else language) datatype
          qname rasqal_literal_value.zero)
        (none : Option (Unit → CString → Unit)) () with
    | error f =>
      rw [hn] at h
      cases h
    | ok p =>
      obtain ⟨rc, r, out⟩ := p
      rw [hn] at h
      dsimp only at h
      by_cases hrc : rc ≠ 0
      · rw [if_pos hrc] at h
        cases hf : rasqal_free_literal r with
        | error f =>
          rw [hf] at h
          cases h
        | ok x =>
          rw [hf] at h
          cases h
      · rw [if_neg hrc] at h
        simp only [Except.ok.injEq, rasqal_literal_ptr.ptr.injEq] at h
        subst h
        exact string_to_native_dateTime_datatype fuel _ _ _ _ _ _ hn
          (by simp [rasqal_literal.type]) hk
  · intro type integer l h
    simp only [rasqal_new_integer_literal, rasqal_literal_ptr.ptr.injEq] at h
    subst h
    rfl
  · intro type string l h
    simp only [rasqal_new_simple_literal, rasqal_literal_ptr.ptr.injEq] at h
    subst h
    rfl

/-! ## Reference counting -/

/-- The free that does not take the count to zero only decrements it. -/
theorem free_literal_shared (l : rasqal_literal) (h : wrap32 (l.usage - 1) ≠ 0) :
    rasqal_free_literal l =
      .ok (rasqal_literal_ptr.ptr (l.set_usage (wrap32 (l.usage - 1))), []) := by
  obtain ⟨u, t, s, n, g, dt, f, v⟩ := l
  simp only [rasqal_literal.usage] at h
  simp [rasqal_free_literal, rasqal_literal.usage, rasqal_literal.set_usage, h]

/-- A free of a literal whose kind is not UNKNOWN returns. -/
theorem free_literal_returns (l : rasqal_literal) (hk : l.type ≠ rasqal_literal_type.UNKNOWN) :
    ∃ p released, rasqal_free_literal l = .ok (p, released) := by
  by_cases h : wrap32 (l.usage - 1) ≠ 0
  · exact ⟨_, _, free_literal_shared l h⟩
  · obtain ⟨u, t, s, n, g, dt, f, v⟩ := l
    simp only [rasqal_literal.usage, ne_eq, not_not] at h
    simp only [rasqal_literal.type] at hk
    cases t <;>
      first
      | exact absurd rfl hk
      | simp [rasqal_free_literal, rasqal_literal.usage, rasqal_literal.set_usage,
          rasqal_literal.type, h]

/-- A free of a formula whose value, if any, is not of kind UNKNOWN returns, and
releases the formula struct. -/
theorem free_formula_returns (f : rasqal_formula)
    (hv : ∀ v, f.value = rasqal_literal_ptr.ptr v → v.type ≠ rasqal_literal_type.UNKNOWN) :
    ∃ released, rasqal_free_formula f = .ok released ∧ heap_release.formula ∈ released := by
  obtain ⟨t, v⟩ := f
  cases v with
  | null => exact ⟨_, rfl, by simp⟩
  | ptr v =>
    obtain ⟨p, r, h⟩ := free_literal_returns v (hv v rfl)
    clear hv
    cases t with
    | none =>
      exact ⟨r ++ [heap_release.formula], by simp [rasqal_free_formula, h], by simp⟩
    | some t =>
      exact ⟨[heap_release.sequence t] ++ r ++ [heap_release.formula],
        by simp [rasqal_free_formula, h], by simp⟩

/-- Claim C25: `rasqal_formula_join` with an absent operand is the identity: with the
first operand absent it returns the second as it is, with the second absent it
returns the first as it is, with both absent it returns NULL; in each case nothing
is released. -/
theorem rasqal_formula_join_absent (grow : Bool) (f : rasqal_formula) :
    rasqal_formula_join grow none (some f) = .ok (some f, []) ∧
    rasqal_formula_join grow (some f) none = .ok (some f, []) ∧
    rasqal_formula_join grow none none = .ok (none, []) :=
  ⟨rfl, rfl, rfl⟩

/-- Claim C26: for two present formulas `f1` and `f2`, the join of the sequences
succeeding (and the value of `f2`, if any, not being of kind UNKNOWN, on which its
release aborts), `rasqal_formula_join` returns the first formula with the triples
of `f1` followed by the triples of `f2`, an absent sequence counting as empty (the
result has no sequence exactly when neither has one), and with the value of `f1`;
the second formula is released and its value is not carried over. -/
theorem rasqal_formula_join_present (f1 f2 : rasqal_formula)
    (hv : ∀ v, f2.value = rasqal_literal_ptr.ptr v → v.type ≠ rasqal_literal_type.UNKNOWN) :
    ∃ r released, rasqal_formula_join true (some f1) (some f2) = .ok (some r, released) ∧
      r.triples.getD [] = f1.triples.getD [] ++ f2.triples.getD [] ∧
      (r.triples = none ↔ f1.triples = none ∧ f2.triples = none) ∧
      r.value = f1.value ∧ heap_release.formula ∈ released := by
  obtain ⟨t1, v1⟩ := f1
  obtain ⟨t2, v2⟩ := f2
  simp only at hv
  cases t1 with
  | none =>
    cases t2 with
    | none =>
      obtain ⟨rel, h, hm⟩ := free_formula_returns ⟨none, v2⟩ hv
      exact ⟨⟨none, v1⟩, rel, by simp [rasqal_formula_join, formula_join_triples, h],
        by simp, by simp, rfl, hm⟩
    | some s2 =>
      obtain ⟨rel, h, hm⟩ := free_formula_returns ⟨none, v2⟩ hv
      exact ⟨⟨some s2, v1⟩, rel, by simp [rasqal_formula_join, formula_join_triples, h],
        by simp, by simp, rfl, hm⟩
  | some s1 =>
    cases t2 with
    | none =>
      obtain ⟨rel, h, hm⟩ := free_formula_returns ⟨none, v2⟩ hv
      exact ⟨⟨some s1, v1⟩, rel, by simp [rasqal_formula_join, formula_join_triples, h],
        by simp, by simp, rfl, hm⟩
    | some s2 =>
      obtain ⟨rel, h, hm⟩ := free_formula_returns ⟨some [], v2⟩ hv
      exact ⟨⟨some (s1 ++ s2), v1⟩, rel,
        by simp [rasqal_formula_join, formula_join_triples, raptor_sequence_join, h],
        by simp, by simp, rfl, hm⟩

/-- Claim C26 (witness): a formula with the triples 1, 2 and the value 7 joined with a
formula with the triple 3 and the value 8. -/
theorem rasqal_formula_join_present_witness :
    (∀ v, (rasqal_formula.mk (some [⟨3⟩])
        (rasqal_new_integer_literal rasqal_literal_type.INTEGER 8)).value =
      rasqal_literal_ptr.ptr v → v.type ≠ rasqal_literal_type.UNKNOWN) ∧
    ∃ r released,
      rasqal_formula_join true
          (some (rasqal_formula.mk (some [⟨1⟩, ⟨2⟩])
            (rasqal_new_integer_literal rasqal_literal_type.INTEGER 7)))
          (some (rasqal_formula.mk (some [⟨3⟩])
            (rasqal_new_integer_literal rasqal_literal_type.INTEGER 8))) =
        .ok (some r, released) ∧
      r.triples.getD [] = [⟨1⟩, ⟨2⟩] ++ [⟨3⟩] ∧
      (r.triples = none ↔ (some [(⟨1⟩ : rasqal_triple), ⟨2⟩] = none ∧
        some [(⟨3⟩ : rasqal_triple)] = none)) ∧
      r.value = rasqal_new_integer_literal rasqal_literal_type.INTEGER 7 ∧
      heap_release.formula ∈ released :=
  ⟨by
      intro v h
      cases h
      decide,
    rasqal_formula_join_present
      (rasqal_formula.mk (some [⟨1⟩, ⟨2⟩])
        (rasqal_new_integer_literal rasqal_literal_type.INTEGER 7))
      (rasqal_formula.mk (some [⟨3⟩])
        (rasqal_new_integer_literal rasqal_literal_type.INTEGER 8))
      (by
        intro v h
        cases h
        decide)⟩

/-! ## Algebra node constructors -/

/-- Claim C27: allocation succeeding, `rasqal_new_2op_algebra_node` returns a node iff the
query and `node1` are present and either the operator is ToList or `node2` is
present, and the node returned has that operator, `node1`, `node2`, the query and no
expression; `rasqal_new_leftjoin_algebra_node` returns a node iff the query,
`node1`, `node2` and the expression are all present, and the node returned is a
LeftJoin node with them.  So the Join of a Filter node and a BGP node over a query
is built, and a Join without second node is not. -/
theorem rasqal_new_2op_algebra_node_present_iff (query : Option rasqal_query)
    (op : rasqal_algebra_node_operator) (node1 node2 : rasqal_algebra_node_ptr)
    (expr : Option rasqal_expression) :
    (rasqal_new_2op_algebra_node query op node1 node2 ≠ rasqal_algebra_node_ptr.null ↔
      query ≠ none ∧ node1 ≠ rasqal_algebra_node_ptr.null ∧
        (op = rasqal_algebra_node_operator.TOLIST ∨ node2 ≠ rasqal_algebra_node_ptr.null)) ∧
    (∀ n, rasqal_new_2op_algebra_node query op node1 node2 = rasqal_algebra_node_ptr.ptr n →
      n.op = op ∧ n.node1 = node1 ∧ n.node2 = node2 ∧ n.expr = none ∧ n.query = query ∧
        n.triples = none) ∧
    (rasqal_new_leftjoin_algebra_node query node1 node2 expr ≠ rasqal_algebra_node_ptr.null ↔
      query ≠ none ∧ node1 ≠ rasqal_algebra_node_ptr.null ∧
        node2 ≠ rasqal_algebra_node_ptr.null ∧ expr ≠ none) ∧
    (∀ n, rasqal_new_leftjoin_algebra_node query node1 node2 expr =
        rasqal_algebra_node_ptr.ptr n →
      n.op = rasqal_algebra_node_operator.LEFTJOIN ∧ n.node1 = node1 ∧ n.node2 = node2 ∧
        n.expr = expr ∧ n.query = query) ∧
    rasqal_new_2op_algebra_node (some ⟨some [⟨0⟩], none⟩) rasqal_algebra_node_operator.JOIN
        (rasqal_new_expr_algebra_node (some ⟨some [⟨0⟩], none⟩)
          rasqal_algebra_node_operator.FILTER (some ⟨1⟩))
        (rasqal_new_triples_algebra_node (some ⟨some [⟨0⟩], none⟩) (some [⟨0⟩]) 0 0) =
      rasqal_algebra_node_ptr.ptr
        (rasqal_algebra_node.mk (some ⟨some [⟨0⟩], none⟩) rasqal_algebra_node_operator.JOIN
          none 0 0
          (rasqal_algebra_node_ptr.ptr
            (rasqal_algebra_node.mk (some ⟨some [⟨0⟩], none⟩)
              rasqal_algebra_node_operator.FILTER none 0 0 rasqal_algebra_node_ptr.null
              rasqal_algebra_node_ptr.null (some ⟨1⟩) 0 0))
          (rasqal_algebra_node_ptr.ptr
            (rasqal_algebra_node.mk (some ⟨some [⟨0⟩], none⟩)
              rasqal_algebra_node_operator.BGP (some [⟨0⟩]) 0 0 rasqal_algebra_node_ptr.null
              rasqal_algebra_node_ptr.null none 0 0))
          none 0 0) ∧
    rasqal_new_2op_algebra_node (some ⟨some [⟨0⟩], none⟩) rasqal_algebra_node_operator.JOIN
        (rasqal_new_empty_algebra_node (some ⟨some [⟨0⟩], none⟩))
        rasqal_algebra_node_ptr.null = rasqal_algebra_node_ptr.null := by
  refine ⟨?_, ?_, ?_, ?_, by decide, by decide⟩
  · cases query <;> cases node1 <;> cases node2 <;>
      by_cases hop : op = rasqal_algebra_node_operator.TOLIST <;>
      simp [rasqal_new_2op_algebra_node, rasqal_new_algebra_node, hop]
  · intro n h
    cases query <;> cases node1 <;> cases node2 <;>
      by_cases hop : op = rasqal_algebra_node_operator.TOLIST <;>
      simp [rasqal_new_2op_algebra_node, rasqal_new_algebra_node, hop,
        rasqal_algebra_node.set_node1, rasqal_algebra_node.set_node2] at h <;>
      subst h <;>
      simp [rasqal_algebra_node.op, rasqal_algebra_node.node1, rasqal_algebra_node.node2,
        rasqal_algebra_node.expr, rasqal_algebra_node.query, rasqal_algebra_node.triples, hop]
  · cases query <;> cases node1 <;> cases node2 <;> cases expr <;>
      simp [rasqal_new_leftjoin_algebra_node, rasqal_new_algebra_node]
  · intro n h
    cases query <;> cases node1 <;> cases node2 <;> cases expr <;>
      simp [rasqal_new_leftjoin_algebra_node, rasqal_new_algebra_node,
        rasqal_algebra_node.set_node1, rasqal_algebra_node.set_node2,
        rasqal_algebra_node.set_expr] at h
    subst h
    simp [rasqal_algebra_node.op, rasqal_algebra_node.node1, rasqal_algebra_node.node2,
      rasqal_algebra_node.expr, rasqal_algebra_node.query]

/-! ## The translator on Union patterns -/

/-- A Basic pattern over a present query translates to its BGP node. -/
theorem translate_basic (query : rasqal_query) (p : rasqal_graph_pattern)
    (hp : p.op = rasqal_graph_pattern_operator.BASIC) :
    rasqal_algebra_graph_pattern_to_algebra (some query) p =
      .ok (if query.triples = none then
          rasqal_algebra_node_ptr.ptr
            (rasqal_algebra_node.mk (some query) rasqal_algebra_node_operator.BGP none (-1) (-1)
              rasqal_algebra_node_ptr.null rasqal_algebra_node_ptr.null none 0 0)
        else rasqal_algebra_node_ptr.ptr (spec_bgp_node query p)) := by
  obtain ⟨o, g, s, e⟩ := p
  simp only [rasqal_graph_pattern.op] at hp
  subst hp
  obtain ⟨t, r⟩ := query
  cases t <;>
    simp [rasqal_algebra_graph_pattern_to_algebra, rasqal_query_get_triple_sequence,
      rasqal_new_triples_algebra_node, rasqal_new_algebra_node, spec_bgp_node,
      rasqal_algebra_node.set_triples, rasqal_algebra_node.set_start_column,
      rasqal_algebra_node.set_end_column, rasqal_graph_pattern.start_column,
      rasqal_graph_pattern.end_column]

/-- The Union node that `rasqal_new_2op_algebra_node` builds over two present
trees. -/
theorem new_2op_union (query : rasqal_query) (a b : rasqal_algebra_node) :
    rasqal_new_2op_algebra_node (some query) rasqal_algebra_node_operator.UNION
        (rasqal_algebra_node_ptr.ptr a) (rasqal_algebra_node_ptr.ptr b) =
      rasqal_algebra_node_ptr.ptr (spec_union_node query a b) := by
  simp [rasqal_new_2op_algebra_node, rasqal_new_algebra_node, spec_union_node,
    rasqal_algebra_node.set_node1, rasqal_algebra_node.set_node2]

/-- The loop of the Union case over Basic patterns, from a tree already built. -/
theorem union_loop_basic (query : rasqal_query) (ts : raptor_sequence)
    (hq : query.triples = some ts) (ps : List rasqal_graph_pattern)
    (hps : ∀ p ∈ ps, p.op = rasqal_graph_pattern_operator.BASIC) (tree : rasqal_algebra_node) :
    graph_pattern_union_loop (some query) (rasqal_graph_pattern_seq.of_list ps)
        (rasqal_algebra_node_ptr.ptr tree) =
      .ok (rasqal_algebra_node_ptr.ptr
        (ps.foldl (fun tree p => spec_union_node query tree (spec_bgp_node query p)) tree)) := by
  induction ps generalizing tree with
  | nil => simp [rasqal_graph_pattern_seq.of_list, graph_pattern_union_loop]
  | cons p ps ih =>
    have hp := hps p (List.mem_cons_self _ _)
    have ht := translate_basic query p hp
    rw [hq] at ht
    simp only [reduceCtorEq, if_false] at ht
    simp only [rasqal_graph_pattern_seq.of_list, graph_pattern_union_loop, ht, new_2op_union,
      List.foldl_cons]
    exact ih (fun q hq => hps q (List.mem_cons_of_mem _ hq)) _

/-- Claim C28: for a Union graph pattern whose sub-patterns `p1, ps` are all Basic
patterns, over a query with a triple sequence, the translator returns the
left-nested tree `Union(...Union(Union(BGP p1, BGP p2), BGP p3)..., BGP pn)`, just
`BGP p1` when there is one sub-pattern, where each `BGP pi` references the triple
sequence of the query with the start and end column of `pi`; so the BGP nodes met
in pre-order are those of `p1, ps`, in that order. -/
theorem rasqal_algebra_graph_pattern_to_algebra_union_of_basic (query : rasqal_query)
    (ts : raptor_sequence) (p1 : rasqal_graph_pattern) (ps : List rasqal_graph_pattern)
    (start_column end_column : Int) (hq : query.triples = some ts)
    (hp1 : p1.op = rasqal_graph_pattern_operator.BASIC)
    (hps : ∀ p ∈ ps, p.op = rasqal_graph_pattern_operator.BASIC) :
    rasqal_algebra_graph_pattern_to_algebra (some query)
        (rasqal_graph_pattern.mk rasqal_graph_pattern_operator.UNION
          (rasqal_graph_pattern_seq.of_list (p1 :: ps)) start_column end_column) =
      .ok (rasqal_algebra_node_ptr.ptr (spec_union_fold query p1 ps)) ∧
    (spec_union_fold query p1 ps).preorder.filter
        (fun n => n.op = rasqal_algebra_node_operator.BGP) =
      (p1 :: ps).map (fun p =>
        rasqal_algebra_node.mk (some query) rasqal_algebra_node_operator.BGP (some ts)
          p.start_column p.end_column rasqal_algebra_node_ptr.null
          rasqal_algebra_node_ptr.null none 0 0) := by
  constructor
  · have ht := translate_basic query p1 hp1
    rw [hq] at ht
    simp only [reduceCtorEq, if_false] at ht
    simp only [rasqal_algebra_graph_pattern_to_algebra, rasqal_graph_pattern_seq.of_list,
      graph_pattern_union_loop, ht]
    exact union_loop_basic query ts hq ps hps _
  · have hb : ∀ p, spec_bgp_node query p =
        rasqal_algebra_node.mk (some query) rasqal_algebra_node_operator.BGP (some ts)
          p.start_column p.end_column rasqal_algebra_node_ptr.null
          rasqal_algebra_node_ptr.null none 0 0 := by
      intro p
      simp [spec_bgp_node, hq]
    have key : ∀ (ps : List rasqal_graph_pattern) (tree : rasqal_algebra_node),
        (ps.foldl (fun tree p => spec_union_node query tree (spec_bgp_node query p))
            tree).preorder.filter (fun n => n.op = rasqal_algebra_node_operator.BGP) =
          tree.preorder.filter (fun n => n.op = rasqal_algebra_node_operator.BGP) ++
            ps.map (fun p => spec_bgp_node query p) := by
      intro ps
      induction ps with
      | nil => intro tree; simp
      | cons p ps ih =>
        intro tree
        rw [List.foldl_cons, ih]
        simp [spec_union_node, rasqal_algebra_node.preorder, rasqal_algebra_node.op, hb, hq]
    unfold spec_union_fold
    rw [key]
    simp [hb, hq, rasqal_algebra_node.preorder, rasqal_algebra_node.op]

/-- Claim C28 (witness): a Union over two Basic patterns of one triple each, the columns
0 and 1 of a query with two triples: the tree is `Union(BGP 0..0, BGP 1..1)`. -/
theorem rasqal_algebra_graph_pattern_to_algebra_union_of_basic_witness :
    ((rasqal_query.mk (some [⟨10⟩, ⟨11⟩]) none).triples = some [⟨10⟩, ⟨11⟩] ∧
      (rasqal_graph_pattern.mk rasqal_graph_pattern_operator.BASIC
        rasqal_graph_pattern_seq.nil 0 0).op = rasqal_graph_pattern_operator.BASIC ∧
      ∀ p ∈ [rasqal_graph_pattern.mk rasqal_graph_pattern_operator.BASIC
          rasqal_graph_pattern_seq.nil 1 1],
        p.op = rasqal_graph_pattern_operator.BASIC) ∧
    rasqal_algebra_graph_pattern_to_algebra (some ⟨some [⟨10⟩, ⟨11⟩], none⟩)
        (rasqal_graph_pattern.mk rasqal_graph_pattern_operator.UNION
          (rasqal_graph_pattern_seq.of_list
            [rasqal_graph_pattern.mk rasqal_graph_pattern_operator.BASIC
              rasqal_graph_pattern_seq.nil 0 0,
             rasqal_graph_pattern.mk rasqal_graph_pattern_operator.BASIC
              rasqal_graph_pattern_seq.nil 1 1]) 0 1) =
      .ok (rasqal_algebra_node_ptr.ptr
        (rasqal_algebra_node.mk (some ⟨some [⟨10⟩, ⟨11⟩], none⟩)
          rasqal_algebra_node_operator.UNION none 0 0
          (rasqal_algebra_node_ptr.ptr
            (rasqal_algebra_node.mk (some ⟨some [⟨10⟩, ⟨11⟩], none⟩)
              rasqal_algebra_node_operator.BGP (some [⟨10⟩, ⟨11⟩]) 0 0
              rasqal_algebra_node_ptr.null rasqal_algebra_node_ptr.null none 0 0))
          (rasqal_algebra_node_ptr.ptr
            (rasqal_algebra_node.mk (some ⟨some [⟨10⟩, ⟨11⟩], none⟩)
              rasqal_algebra_node_operator.BGP (some [⟨10⟩, ⟨11⟩]) 1 1
              rasqal_algebra_node_ptr.null rasqal_algebra_node_ptr.null none 0 0))
          none 0 0)) :=
  ⟨⟨rfl, rfl, by decide⟩,
    (rasqal_algebra_graph_pattern_to_algebra_union_of_basic ⟨some [⟨10⟩, ⟨11⟩], none⟩
      [⟨10⟩, ⟨11⟩]
      (rasqal_graph_pattern.mk rasqal_graph_pattern_operator.BASIC
        rasqal_graph_pattern_seq.nil 0 0)
      [rasqal_graph_pattern.mk rasqal_graph_pattern_operator.BASIC
        rasqal_graph_pattern_seq.nil 1 1]
      0 1 rfl rfl (by decide)).1⟩

/-! ## Visiting a tree -/

/-- The walk over two lists one after the other stops in the first when the user
function returns non-zero there, and goes on with the second otherwise. -/
theorem spec_visit_walk_append {σ : Type} (query : Option rasqal_query)
    (fn : Option rasqal_query → rasqal_algebra_node → σ → Int × σ)
    (a b : List rasqal_algebra_node) (s : σ) :
    spec_visit_walk query fn (a ++ b) s =
      if (spec_visit_walk query fn a s).1 ≠ 0 then spec_visit_walk query fn a s
      else spec_visit_walk query fn b (spec_visit_walk query fn a s).2 := by
  induction a generalizing s with
  | nil => simp [spec_visit_walk]
  | cons n rest ih =>
    simp only [List.cons_append, spec_visit_walk]
    by_cases h : (fn query n s).1 ≠ 0
    · simp [h]
    · simp only [h, if_false]
      exact ih _

/-- The body of `rasqal_algebra_node_visit` on a node. -/
theorem visit_mk {σ : Type} (query : Option rasqal_query)
    (fn : Option rasqal_query → rasqal_algebra_node → σ → Int × σ) (q : Option rasqal_query)
    (o : rasqal_algebra_node_operator) (t : Option raptor_sequence) (st e : Int)
    (node1 node2 : rasqal_algebra_node_ptr) (x : Option rasqal_expression) (s0 len : Int)
    (s : σ) :
    rasqal_algebra_node_visit query (rasqal_algebra_node.mk q o t st e node1 node2 x s0 len)
        fn s =
      match fn query (rasqal_algebra_node.mk q o t st e node1 node2 x s0 len) s with
      | (result, user_data) =>
        if result ≠ 0 then (result, user_data)
        else
          match (match node1 with
            | rasqal_algebra_node_ptr.null => ((0 : Int), user_data)
            | rasqal_algebra_node_ptr.ptr n1 =>
              rasqal_algebra_node_visit query n1 fn user_data) with
          | (result, user_data) =>
            if result ≠ 0 then (result, user_data)
            else
              match (match node2 with
                | rasqal_algebra_node_ptr.null => ((0 : Int), user_data)
                | rasqal_algebra_node_ptr.ptr n2 =>
                  rasqal_algebra_node_visit query n2 fn user_data) with
              | (result, user_data) =>
                if result ≠ 0 then (result, user_data) else (0, user_data) := by
  cases node1 <;> cases node2 <;> rfl

/-- The pre-order list of a node. -/
theorem preorder_mk (q : Option rasqal_query)
    (o : rasqal_algebra_node_operator) (t : Option raptor_sequence) (st e : Int)
    (node1 node2 : rasqal_algebra_node_ptr) (x : Option rasqal_expression) (s0 len : Int) :
    (rasqal_algebra_node.mk q o t st e node1 node2 x s0 len).preorder =
      rasqal_algebra_node.mk q o t st e node1 node2 x s0 len ::
        ((match node1 with
          | rasqal_algebra_node_ptr.null => []
          | rasqal_algebra_node_ptr.ptr n1 => rasqal_algebra_node.preorder n1) ++
         (match node2 with
          | rasqal_algebra_node_ptr.null => []
          | rasqal_algebra_node_ptr.ptr n2 => rasqal_algebra_node.preorder n2)) := by
  cases node1 <;> cases node2 <;> rfl

/-- The pre-order list of a node starts with the node. -/
theorem preorder_head (node : rasqal_algebra_node) : ∃ rest, node.preorder = node :: rest := by
  obtain ⟨q, o, t, st, e, node1, node2, x, s0, len⟩ := node
  exact ⟨_, preorder_mk q o t st e node1 node2 x s0 len⟩

/-- The visit of a tree is the walk over its nodes in pre-order. -/
theorem visit_eq_walk {σ : Type} (query : Option rasqal_query)
    (fn : Option rasqal_query → rasqal_algebra_node → σ → Int × σ) :
    ∀ (node : rasqal_algebra_node) (s : σ),
      rasqal_algebra_node_visit query node fn s =
        spec_visit_walk query fn node.preorder s
  | rasqal_algebra_node.mk q o t st e rasqal_algebra_node_ptr.null
      rasqal_algebra_node_ptr.null x s0 len, s => by
    rw [visit_mk, preorder_mk]
    simp only [List.append_nil, spec_visit_walk]
    generalize fn query _ s = r
    obtain ⟨r1, s1⟩ := r
    by_cases h : r1 ≠ 0 <;> simp [h]
  | rasqal_algebra_node.mk q o t st e (rasqal_algebra_node_ptr.ptr n1)
      rasqal_algebra_node_ptr.null x s0 len, s => by
    rw [visit_mk, preorder_mk]
    simp only [List.append_nil, spec_visit_walk, visit_eq_walk query fn n1]
    generalize fn query _ s = r
    obtain ⟨r1, s1⟩ := r
    by_cases h : r1 ≠ 0
    · simp [h]
    · simp only [h, if_false]
      generalize spec_visit_walk query fn n1.preorder s1 = r'
      obtain ⟨r2, s2⟩ := r'
      by_cases h2 : r2 ≠ 0 <;> simp_all
  | rasqal_algebra_node.mk q o t st e rasqal_algebra_node_ptr.null
      (rasqal_algebra_node_ptr.ptr n2) x s0 len, s => by
    rw [visit_mk, preorder_mk]
    simp only [List.nil_append, spec_visit_walk, visit_eq_walk query fn n2]
    generalize fn query _ s = r
    obtain ⟨r1, s1⟩ := r
    by_cases h : r1 ≠ 0
    · simp [h]
    · simp only [h, if_false]
      generalize spec_visit_walk query fn n2.preorder s1 = r'
      obtain ⟨r2, s2⟩ := r'
      by_cases h2 : r2 ≠ 0 <;> simp_all
  | rasqal_algebra_node.mk q o t st e (rasqal_algebra_node_ptr.ptr n1)
      (rasqal_algebra_node_ptr.ptr n2) x s0 len, s => by
    rw [visit_mk, preorder_mk]
    simp only [spec_visit_walk, spec_visit_walk_append, visit_eq_walk query fn n1,
      visit_eq_walk query fn n2]
    generalize fn query _ s = r
    obtain ⟨r1, s1⟩ := r
    by_cases h : r1 ≠ 0
    · simp [h]
    · simp only [h, if_false]
      generalize spec_visit_walk query fn n1.preorder s1 = r'
      obtain ⟨r2, s2⟩ := r'
      by_cases h2 : r2 ≠ 0
      · simp [h2]
      · simp only [h2, if_false]
        generalize spec_visit_walk query fn n2.preorder s2 = w
        obtain ⟨r3, s3⟩ := w
        by_cases h3 : r3 ≠ 0 <;> simp_all

/-- The walk with a recording function that returns 0 on every node of the list
calls it on all of them and gives 0. -/
theorem walk_recording_all_zero (query : Option rasqal_query) (f : rasqal_algebra_node → Int)
    (l calls : List rasqal_algebra_node) (h : ∀ n ∈ l, f n = 0) :
    spec_visit_walk query (spec_recording_fn f) l calls = (0, calls ++ l) := by
  induction l generalizing calls with
  | nil => simp [spec_visit_walk]
  | cons n rest ih =>
    have hn : f n = 0 := h n (List.mem_cons_self _ _)
    simp only [spec_visit_walk, spec_recording_fn, hn, ne_eq, not_true_eq_false, if_false]
    rw [ih _ (fun m hm => h m (List.mem_cons_of_mem _ hm))]
    simp

/-- The walk with a recording function stops at the first node of the list on which it
returns non-zero: it gives that value, and the calls are the nodes up to that one. -/
theorem walk_recording_first_nonzero (query : Option rasqal_query)
    (f : rasqal_algebra_node → Int) (pre : List rasqal_algebra_node)
    (n : rasqal_algebra_node) (post calls : List rasqal_algebra_node)
    (hpre : ∀ m ∈ pre, f m = 0) (hn : f n ≠ 0) :
    spec_visit_walk query (spec_recording_fn f) (pre ++ n :: post) calls =
      (f n, calls ++ pre ++ [n]) := by
  induction pre generalizing calls with
  | nil => simp [spec_visit_walk, spec_recording_fn, hn]
  | cons m rest ih =>
    have hm : f m = 0 := hpre m (List.mem_cons_self _ _)
    have hrest := ih (calls ++ [m]) (fun k hk => hpre k (List.mem_cons_of_mem _ hk))
    rw [List.cons_append, spec_visit_walk]
    simp only [spec_recording_fn, hm, ne_eq, not_true_eq_false, if_false]
    simpa [spec_recording_fn] using hrest

/-- The walk with a recording function gives 0 exactly when the function returns 0
on every node of the list. -/
theorem walk_recording_zero_iff (query : Option rasqal_query) (f : rasqal_algebra_node → Int)
    (l calls : List rasqal_algebra_node) :
    (spec_visit_walk query (spec_recording_fn f) l calls).1 = 0 ↔ ∀ n ∈ l, f n = 0 := by
  induction l generalizing calls with
  | nil => simp [spec_visit_walk]
  | cons n rest ih =>
    by_cases hn : f n = 0
    · simp only [spec_visit_walk, spec_recording_fn, hn, ne_eq, not_true_eq_false, if_false,
        List.mem_cons, forall_eq_or_imp, true_and]
      exact ih _
    · simp [spec_visit_walk, spec_recording_fn, hn]

/-- Claim C29: `rasqal_algebra_node_visit` is the walk over the nodes of the tree in
pre-order (the node, then the subtree of `node1`, then the subtree of `node2`) that
calls the user function on each node until it returns non-zero.  With a function
that records its calls: the visit returns 0 iff the function returns 0 on every
node, and then it has been called on all the nodes in pre-order; otherwise the
visit returns the value on the first node in pre-order where the function returns
non-zero, and the calls are the nodes up to that one and no node after it.  So on
`Join(Filter(BGP), BGP)` with a function that returns 5 on the Filter node, the
visit returns 5 after the calls on the Join and the Filter node only. -/
theorem rasqal_algebra_node_visit_preorder {σ : Type} (query : Option rasqal_query)
    (node : rasqal_algebra_node)
    (fn : Option rasqal_query → rasqal_algebra_node → σ → Int × σ) (s : σ)
    (f : rasqal_algebra_node → Int) :
    rasqal_algebra_node_visit query node fn s = spec_visit_walk query fn node.preorder s ∧
    ((rasqal_algebra_node_visit query node (spec_recording_fn f) []).1 = 0 ↔
      ∀ n ∈ node.preorder, f n = 0) ∧
    ((∀ n ∈ node.preorder, f n = 0) →
      rasqal_algebra_node_visit query node (spec_recording_fn f) [] = (0, node.preorder)) ∧
    (∀ pre n post, node.preorder = pre ++ n :: post → (∀ m ∈ pre, f m = 0) → f n ≠ 0 →
      rasqal_algebra_node_visit query node (spec_recording_fn f) [] = (f n, pre ++ [n])) ∧
    rasqal_algebra_node_visit none
        (rasqal_algebra_node.mk none rasqal_algebra_node_operator.JOIN none 0 0
          (rasqal_algebra_node_ptr.ptr
            (rasqal_algebra_node.mk none rasqal_algebra_node_operator.FILTER none 0 0
              (rasqal_algebra_node_ptr.ptr
                (rasqal_algebra_node.mk none rasqal_algebra_node_operator.BGP none (-1) (-1)
                  rasqal_algebra_node_ptr.null rasqal_algebra_node_ptr.null none 0 0))
              rasqal_algebra_node_ptr.null (some ⟨1⟩) 0 0))
          (rasqal_algebra_node_ptr.ptr
            (rasqal_algebra_node.mk none rasqal_algebra_node_operator.BGP none (-1) (-1)
              rasqal_algebra_node_ptr.null rasqal_algebra_node_ptr.null none 0 0))
          none 0 0)
        (spec_recording_fn
          (fun n => if n.op = rasqal_algebra_node_operator.FILTER then 5 else 0)) [] =
      (5,
        [rasqal_algebra_node.mk none rasqal_algebra_node_operator.JOIN none 0 0
          (rasqal_algebra_node_ptr.ptr
            (rasqal_algebra_node.mk none rasqal_algebra_node_operator.FILTER none 0 0
              (rasqal_algebra_node_ptr.ptr
                (rasqal_algebra_node.mk none rasqal_algebra_node_operator.BGP none (-1) (-1)
                  rasqal_algebra_node_ptr.null rasqal_algebra_node_ptr.null none 0 0))
              rasqal_algebra_node_ptr.null (some ⟨1⟩) 0 0))
          (rasqal_algebra_node_ptr.ptr
            (rasqal_algebra_node.mk none rasqal_algebra_node_operator.BGP none (-1) (-1)
              rasqal_algebra_node_ptr.null rasqal_algebra_node_ptr.null none 0 0))
          none 0 0,
         rasqal_algebra_node.mk none rasqal_algebra_node_operator.FILTER none 0 0
          (rasqal_algebra_node_ptr.ptr
            (rasqal_algebra_node.mk none rasqal_algebra_node_operator.BGP none (-1) (-1)
              rasqal_algebra_node_ptr.null rasqal_algebra_node_ptr.null none 0 0))
          rasqal_algebra_node_ptr.null (some ⟨1⟩) 0 0]) := by
  refine ⟨visit_eq_walk query fn node s, ?_, ?_, ?_, by decide⟩
  · rw [visit_eq_walk]
    exact walk_recording_zero_iff query f _ _
  · intro h
    rw [visit_eq_walk, walk_recording_all_zero query f _ _ h]
    simp
  · intro pre n post hl hpre hn
    rw [visit_eq_walk, hl, walk_recording_first_nonzero query f pre n post _ hpre hn]
    simp

/-- Claim C30 (the code at the failing input): against its documentation,
`rasqal_algebra_node_visit` goes on when the user function returns 0 and is
truncated when it returns non-zero, and it returns 0 exactly when the function has
been called on every node.  With a function that records its calls: when it returns
0 on every node the visit returns 0 after calling it on all the nodes, in pre-order;
when it returns non-zero on the root the visit returns that value after that single
call.  So on `Join(BGP, BGP)` a function that always returns 0 is called on the
three nodes and the visit returns 0, and a function that always returns 1 is called
on the Join node only and the visit returns 1. -/
theorem rasqal_algebra_node_visit_zero_not_truncated :
    (∀ (query : Option rasqal_query) (node : rasqal_algebra_node)
        (f : rasqal_algebra_node → Int),
      (∀ n ∈ node.preorder, f n = 0) →
        rasqal_algebra_node_visit query node (spec_recording_fn f) [] = (0, node.preorder)) ∧
    (∀ (query : Option rasqal_query) (node : rasqal_algebra_node)
        (f : rasqal_algebra_node → Int),
      f node ≠ 0 →
        rasqal_algebra_node_visit query node (spec_recording_fn f) [] = (f node, [node])) ∧
    (∀ (query : Option rasqal_query) (node : rasqal_algebra_node)
        (f : rasqal_algebra_node → Int),
      (rasqal_algebra_node_visit query node (spec_recording_fn f) []).1 = 0 ↔
        (rasqal_algebra_node_visit query node (spec_recording_fn f) []).2 = node.preorder ∧
          ∀ n ∈ node.preorder, f n = 0) ∧
    rasqal_algebra_node_visit none
        (rasqal_algebra_node.mk none rasqal_algebra_node_operator.JOIN none 0 0
          (rasqal_algebra_node_ptr.ptr
            (rasqal_algebra_node.mk none rasqal_algebra_node_operator.BGP none 0 0
              rasqal_algebra_node_ptr.null rasqal_algebra_node_ptr.null none 0 0))
          (rasqal_algebra_node_ptr.ptr
            (rasqal_algebra_node.mk none rasqal_algebra_node_operator.BGP none 1 1
              rasqal_algebra_node_ptr.null rasqal_algebra_node_ptr.null none 0 0))
          none 0 0)
        (spec_recording_fn (fun _ => 0)) [] =
      (0,
        [rasqal_algebra_node.mk none rasqal_algebra_node_operator.JOIN none 0 0
          (rasqal_algebra_node_ptr.ptr
            (rasqal_algebra_node.mk none rasqal_algebra_node_operator.BGP none 0 0
              rasqal_algebra_node_ptr.null rasqal_algebra_node_ptr.null none 0 0))
          (rasqal_algebra_node_ptr.ptr
            (rasqal_algebra_node.mk none rasqal_algebra_node_operator.BGP none 1 1
              rasqal_algebra_node_ptr.null rasqal_algebra_node_ptr.null none 0 0))
          none 0 0,
         rasqal_algebra_node.mk none rasqal_algebra_node_operator.BGP none 0 0
          rasqal_algebra_node_ptr.null rasqal_algebra_node_ptr.null none 0 0,
         rasqal_algebra_node.mk none rasqal_algebra_node_operator.BGP none 1 1
          rasqal_algebra_node_ptr.null rasqal_algebra_node_ptr.null none 0 0]) ∧
    rasqal_algebra_node_visit none
        (rasqal_algebra_node.mk none rasqal_algebra_node_operator.JOIN none 0 0
          (rasqal_algebra_node_ptr.ptr
            (rasqal_algebra_node.mk none rasqal_algebra_node_operator.BGP none 0 0
              rasqal_algebra_node_ptr.null rasqal_algebra_node_ptr.null none 0 0))
          (rasqal_algebra_node_ptr.ptr
            (rasqal_algebra_node.mk none rasqal_algebra_node_operator.BGP none 1 1
              rasqal_algebra_node_ptr.null rasqal_algebra_node_ptr.null none 0 0))
          none 0 0)
        (spec_recording_fn (fun _ => 1)) [] =
      (1,
        [rasqal_algebra_node.mk none rasqal_algebra_node_operator.JOIN none 0 0
          (rasqal_algebra_node_ptr.ptr
            (rasqal_algebra_node.mk none rasqal_algebra_node_operator.BGP none 0 0
              rasqal_algebra_node_ptr.null rasqal_algebra_node_ptr.null none 0 0))
          (rasqal_algebra_node_ptr.ptr
            (rasqal_algebra_node.mk none rasqal_algebra_node_operator.BGP none 1 1
              rasqal_algebra_node_ptr.null rasqal_algebra_node_ptr.null none 0 0))
          none 0 0]) := by
  refine ⟨?_, ?_, ?_, by decide, by decide⟩
  · intro query node f h
    rw [visit_eq_walk, walk_recording_all_zero query f _ _ h]
    simp
  · intro query node f h
    obtain ⟨rest, hrest⟩ := preorder_head node
    rw [visit_eq_walk, hrest]
    simpa using walk_recording_first_nonzero query f [] node rest [] (by simp) h
  · intro query node f
    constructor
    · intro h
      have hz := (walk_recording_zero_iff query f node.preorder []).mp
        (by rw [← visit_eq_walk]; exact h)
      refine ⟨?_, hz⟩
      rw [visit_eq_walk, walk_recording_all_zero query f _ _ hz]
      simp
    · rintro ⟨_, hz⟩
      rw [visit_eq_walk, walk_recording_all_zero query f _ _ hz]

/-! ## Comparison across kinds -/

/-- The comparison with a variable bound to a literal that is not itself a variable
as first operand is the comparison with that literal. -/
theorem compare_variable_first (name : CString) (a : rasqal_literal)
    (l2 : rasqal_literal) (flags : Nat) (ha : a.type ≠ rasqal_literal_type.VARIABLE) :
    rasqal_literal_compare
        (rasqal_new_variable_literal
          (rasqal_variable_ptr.ptr (rasqal_variable.mk name (rasqal_literal_ptr.ptr a))))
        (rasqal_literal_ptr.ptr l2) flags =
      rasqal_literal_compare (rasqal_literal_ptr.ptr a) (rasqal_literal_ptr.ptr l2) flags := by
  obtain ⟨u, t, s, n, g, dt, f, v⟩ := a
  simp only [rasqal_literal.type] at ha
  simp [rasqal_literal_compare, rasqal_new_variable_literal, compare_classify, lits_get,
    rasqal_literal.type, rasqal_literal.get_variable, rasqal_literal.value,
    rasqal_literal_value.var, rasqal_variable.value, ha]

/-- The comparison with a variable bound to a literal that is not itself a variable
as second operand is the comparison with that literal. -/
theorem compare_variable_second (name : CString) (l1 : rasqal_literal)
    (b : rasqal_literal) (flags : Nat) (hb : b.type ≠ rasqal_literal_type.VARIABLE)
    (h1 : l1.type ≠ rasqal_literal_type.VARIABLE) :
    rasqal_literal_compare (rasqal_literal_ptr.ptr l1)
        (rasqal_new_variable_literal
          (rasqal_variable_ptr.ptr (rasqal_variable.mk name (rasqal_literal_ptr.ptr b))))
        flags =
      rasqal_literal_compare (rasqal_literal_ptr.ptr l1) (rasqal_literal_ptr.ptr b) flags := by
  obtain ⟨u, t, s, n, g, dt, f, v⟩ := b
  obtain ⟨u1, t1, s1, n1, g1, dt1, f1, v1⟩ := l1
  simp only [rasqal_literal.type] at hb h1
  cases t1 <;>
    first
    | exact absurd rfl h1
    | simp [rasqal_literal_compare, rasqal_new_variable_literal, compare_classify, lits_get,
        rasqal_literal.type, rasqal_literal.get_variable, rasqal_literal.value,
        rasqal_literal_value.var, rasqal_variable.value, hb]

/-- In standards mode two literals of different kinds that are not both numeric
compare as the difference of the enumeration values of their kinds. -/
theorem compare_xquery_kinds (a b : rasqal_literal) (flags : Nat)
    (hx : flags &&& RASQAL_COMPARE_XQUERY ≠ 0)
    (ha : a.type ∈ spec_kind_order) (hb : b.type ∈ spec_kind_order)
    (hne : a.type ≠ b.type)
    (hnum : ¬ (spec_kind_numeric a.type = true ∧ spec_kind_numeric b.type = true)) :
    rasqal_literal_compare (rasqal_literal_ptr.ptr a) (rasqal_literal_ptr.ptr b) flags =
      .ok (spec_kind_rank a.type - spec_kind_rank b.type, 0) := by
  obtain ⟨u1, t1, s1, n1, g1, dt1, f1, ⟨i1, d1, r1, v1⟩⟩ := a
  obtain ⟨u2, t2, s2, n2, g2, dt2, f2, ⟨i2, d2, r2, v2⟩⟩ := b
  simp only [rasqal_literal.type] at ha hb hne hnum
  cases t1 <;> cases t2 <;>
    first
    | exact absurd rfl hne
    | exact absurd ha (by decide)
    | exact absurd hb (by decide)
    | exact absurd (And.intro rfl rfl) hnum
    | simp [rasqal_literal_compare, compare_classify, lits_get, rasqal_literal.type,
        compare_locals.init, slot_set, compare_target, hx, rasqal_literal_type.to_int,
        spec_kind_rank, spec_kind_order, rasqal_literal.string, rasqal_literal.value,
        rasqal_literal_value.integer, rasqal_literal_value.floating]

/-- Claim C32: in standards mode (any flags value with the RASQAL_COMPARE_XQUERY bit), for
two operands whose kinds are in the rank order blank < uri < string < boolean <
integer < double < float < decimal < datetime < pattern < qname, differ, and are
not both numeric, `rasqal_literal_compare` returns the rank of the first kind minus
the rank of the second with the error flag unset, whatever the other fields of the
operands; and so it does when the operands are reached through bound variables. -/
theorem rasqal_literal_compare_xquery_kind_rank (a b : rasqal_literal) (flags : Nat)
    (name1 name2 : CString)
    (hx : flags &&& RASQAL_COMPARE_XQUERY ≠ 0)
    (ha : a.type ∈ spec_kind_order) (hb : b.type ∈ spec_kind_order)
    (hne : a.type ≠ b.type)
    (hnum : ¬ (spec_kind_numeric a.type = true ∧ spec_kind_numeric b.type = true)) :
    rasqal_literal_compare (rasqal_literal_ptr.ptr a) (rasqal_literal_ptr.ptr b) flags =
      .ok (spec_kind_rank a.type - spec_kind_rank b.type, 0) ∧
    rasqal_literal_compare
        (rasqal_new_variable_literal
          (rasqal_variable_ptr.ptr (rasqal_variable.mk name1 (rasqal_literal_ptr.ptr a))))
        (rasqal_literal_ptr.ptr b) flags =
      .ok (spec_kind_rank a.type - spec_kind_rank b.type, 0) ∧
    rasqal_literal_compare (rasqal_literal_ptr.ptr a)
        (rasqal_new_variable_literal
          (rasqal_variable_ptr.ptr (rasqal_variable.mk name2 (rasqal_literal_ptr.ptr b))))
        flags =
      .ok (spec_kind_rank a.type - spec_kind_rank b.type, 0) ∧
    rasqal_literal_compare
        (rasqal_new_variable_literal
          (rasqal_variable_ptr.ptr (rasqal_variable.mk name1 (rasqal_literal_ptr.ptr a))))
        (rasqal_new_variable_literal
          (rasqal_variable_ptr.ptr (rasqal_variable.mk name2 (rasqal_literal_ptr.ptr b))))
        flags =
      .ok (spec_kind_rank a.type - spec_kind_rank b.type, 0) := by
  have hva : a.type ≠ rasqal_literal_type.VARIABLE := by
    intro h
    rw [h] at ha
    exact absurd ha (by decide)
  have hvb : b.type ≠ rasqal_literal_type.VARIABLE := by
    intro h
    rw [h] at hb
    exact absurd hb (by decide)
  have h := compare_xquery_kinds a b flags hx ha hb hne hnum
  have hv : (rasqal_literal.mk 1 rasqal_literal_type.VARIABLE none 0 none none none
      (rasqal_literal_value.mk 0 (Dbl.fin 0 0) none
        (rasqal_variable_ptr.ptr (rasqal_variable.mk name2 (rasqal_literal_ptr.ptr b))))).type
      = rasqal_literal_type.VARIABLE := rfl
  refine ⟨h, ?_, ?_, ?_⟩
  · rw [compare_variable_first name1 a b flags hva, h]
  · rw [compare_variable_second name2 a b flags hvb hva, h]
  · unfold rasqal_new_variable_literal
    have := compare_variable_first name1 a
      (rasqal_literal.mk 1 rasqal_literal_type.VARIABLE none 0 none none none
        (rasqal_literal_value.mk 0 (Dbl.fin 0 0) none
          (rasqal_variable_ptr.ptr (rasqal_variable.mk name2 (rasqal_literal_ptr.ptr b)))))
      flags hva
    unfold rasqal_new_variable_literal at this
    rw [this]
    have h2 := compare_variable_second name2 a b flags hvb hva
    unfold rasqal_new_variable_literal at h2
    rw [h2, h]

/-- Claim C32 (witness): a string literal against an integer literal, ranks 2 and 4, and
the other way round. -/
theorem rasqal_literal_compare_xquery_kind_rank_witness :
    (RASQAL_COMPARE_XQUERY &&& RASQAL_COMPARE_XQUERY ≠ 0 ∧
      rasqal_literal_type.STRING ∈ spec_kind_order ∧
      rasqal_literal_type.INTEGER ∈ spec_kind_order ∧
      rasqal_literal_type.STRING ≠ rasqal_literal_type.INTEGER ∧
      ¬ (spec_kind_numeric rasqal_literal_type.STRING = true ∧
        spec_kind_numeric rasqal_literal_type.INTEGER = true)) ∧
    rasqal_literal_compare
        (rasqal_literal_ptr.ptr (rasqal_literal.mk 1 rasqal_literal_type.STRING
          (some (cstr "7")) 1 none none none rasqal_literal_value.zero))
        (rasqal_new_integer_literal rasqal_literal_type.INTEGER 7)
        RASQAL_COMPARE_XQUERY = .ok (-2, 0) ∧
    rasqal_literal_compare
        (rasqal_new_integer_literal rasqal_literal_type.INTEGER 7)
        (rasqal_literal_ptr.ptr (rasqal_literal.mk 1 rasqal_literal_type.STRING
          (some (cstr "7")) 1 none none none rasqal_literal_value.zero))
        RASQAL_COMPARE_XQUERY = .ok (2, 0) :=
  ⟨by decide,
    (rasqal_literal_compare_xquery_kind_rank
      (rasqal_literal.mk 1 rasqal_literal_type.STRING (some (cstr "7")) 1 none none none
        rasqal_literal_value.zero)
      (rasqal_literal.mk 1 rasqal_literal_type.INTEGER (some (sprintf_d 7))
        (sprintf_d 7).length none (some (raptor_uri_copy rasqal_xsd_integer_uri)) none
        (rasqal_literal_value.mk 7 (Dbl.fin 0 0) none rasqal_variable_ptr.null))
      RASQAL_COMPARE_XQUERY [] [] (by decide) (by decide) (by decide) (by decide)
      (by decide)).1,
    by decide⟩

/-! ## Failed promotion -/

/-- Claim C39: in legacy mode (flags 0), `rasqal_literal_compare` on a boolean literal
that carries a datatype and no language, as `rasqal_new_boolean_literal` and the
promotion of a typed string build it, and a string literal without datatype and
without language returns 0 with the error flag set, in either order and whatever
the text of the string: so for the boolean true against the plain string "true". -/
theorem rasqal_literal_compare_boolean_plain_string (b s : rasqal_literal) (d : raptor_uri)
    (value : Int)
    (hb : b.type = rasqal_literal_type.BOOLEAN) (hbd : b.datatype = some d)
    (hbl : b.language = none)
    (hs : s.type = rasqal_literal_type.STRING) (hsd : s.datatype = none)
    (hsl : s.language = none) :
    rasqal_literal_compare (rasqal_literal_ptr.ptr b) (rasqal_literal_ptr.ptr s) 0 =
      .ok (0, 1) ∧
    rasqal_literal_compare (rasqal_literal_ptr.ptr s) (rasqal_literal_ptr.ptr b) 0 =
      .ok (0, 1) ∧
    rasqal_literal_compare (rasqal_new_boolean_literal value) (rasqal_literal_ptr.ptr s) 0 =
      .ok (0, 1) ∧
    rasqal_literal_compare (rasqal_literal_ptr.ptr s) (rasqal_new_boolean_literal value) 0 =
      .ok (0, 1) := by
  have key : ∀ b : rasqal_literal, b.type = rasqal_literal_type.BOOLEAN →
      (∃ d, b.datatype = some d) → b.language = none →
      rasqal_literal_compare (rasqal_literal_ptr.ptr b) (rasqal_literal_ptr.ptr s) 0 =
        .ok (0, 1) ∧
      rasqal_literal_compare (rasqal_literal_ptr.ptr s) (rasqal_literal_ptr.ptr b) 0 =
        .ok (0, 1) := by
    intro b hb hbd hbl
    obtain ⟨d, hbd⟩ := hbd
    obtain ⟨u1, t1, s1, n1, g1, dt1, f1, ⟨i1, d1, r1, v1⟩⟩ := b
    obtain ⟨u2, t2, s2, n2, g2, dt2, f2, ⟨i2, d2, r2, v2⟩⟩ := s
    simp only [rasqal_literal.type, rasqal_literal.datatype, rasqal_literal.language]
      at hb hbd hbl hs hsd hsl
    subst hb hbd hbl hs hsd hsl
    constructor
    · simp [rasqal_literal_compare, compare_classify, lits_get,
        rasqal_literal.type, compare_locals.init, slot_set, compare_target,
        RASQAL_COMPARE_XQUERY, compare_promote, rasqal_literal_as_string,
        rasqal_literal_as_string_flags,
        rasqal_literal.value, rasqal_literal_value.integer, rasqal_literal.string,
        compare_final, rasqal_literal.language, rasqal_literal.datatype, language_differs]
    · simp [rasqal_literal_compare, compare_classify, lits_get,
        rasqal_literal.type, compare_locals.init, slot_set, compare_target,
        RASQAL_COMPARE_XQUERY, compare_promote, rasqal_literal_as_string,
        rasqal_literal_as_string_flags,
        rasqal_literal.value, rasqal_literal_value.integer, rasqal_literal.string,
        compare_final, rasqal_literal.language, rasqal_literal.datatype, language_differs]
  have h1 := key b hb ⟨d, hbd⟩ hbl
  have h2 := key _ (by simp [rasqal_literal.type] : (rasqal_literal.mk 1
      rasqal_literal_type.BOOLEAN
      (some (if value ≠ 0 then RASQAL_XSD_BOOLEAN_TRUE else RASQAL_XSD_BOOLEAN_FALSE))
      (if value ≠ 0 then 4 else 5) none
      (some (raptor_uri_copy rasqal_xsd_boolean_uri)) none
      (rasqal_literal_value.mk value (Dbl.fin 0 0) none rasqal_variable_ptr.null)).type =
        rasqal_literal_type.BOOLEAN) ⟨_, rfl⟩ rfl
  exact ⟨h1.1, h1.2, h2.1, h2.2⟩

/-- Claim C39 (witness): the boolean that the promotion of "TRUE" typed xsd:boolean
builds, against the plain string "true". -/
theorem rasqal_literal_compare_boolean_plain_string_witness :
    (rasqal_new_string_literal 0 (cstr "TRUE") none (some rasqal_xsd_boolean_uri) none =
        .ok (rasqal_literal_ptr.ptr
          (rasqal_literal.mk 1 rasqal_literal_type.BOOLEAN (some (cstr "true")) 4 none
            (some rasqal_xsd_boolean_uri) none
            (rasqal_literal_value.mk 1 (Dbl.fin 0 0) none rasqal_variable_ptr.null))) ∧
      rasqal_new_string_literal 0 (cstr "true") none none none =
        .ok (rasqal_literal_ptr.ptr
          (rasqal_literal.mk 1 rasqal_literal_type.STRING (some (cstr "true")) 4 none none
            none rasqal_literal_value.zero))) ∧
    rasqal_literal_compare
        (rasqal_literal_ptr.ptr
          (rasqal_literal.mk 1 rasqal_literal_type.BOOLEAN (some (cstr "true")) 4 none
            (some rasqal_xsd_boolean_uri) none
            (rasqal_literal_value.mk 1 (Dbl.fin 0 0) none rasqal_variable_ptr.null)))
        (rasqal_literal_ptr.ptr
          (rasqal_literal.mk 1 rasqal_literal_type.STRING (some (cstr "true")) 4 none none
            none rasqal_literal_value.zero)) 0 = .ok (0, 1) ∧
    rasqal_literal_compare
        (rasqal_literal_ptr.ptr
          (rasqal_literal.mk 1 rasqal_literal_type.STRING (some (cstr "true")) 4 none none
            none rasqal_literal_value.zero))
        (rasqal_literal_ptr.ptr
          (rasqal_literal.mk 1 rasqal_literal_type.BOOLEAN (some (cstr "true")) 4 none
            (some rasqal_xsd_boolean_uri) none
            (rasqal_literal_value.mk 1 (Dbl.fin 0 0) none rasqal_variable_ptr.null))) 0 =
      .ok (0, 1) :=
  ⟨⟨by decide, by decide⟩,
    (rasqal_literal_compare_boolean_plain_string
      (rasqal_literal.mk 1 rasqal_literal_type.BOOLEAN (some (cstr "true")) 4 none
        (some rasqal_xsd_boolean_uri) none
        (rasqal_literal_value.mk 1 (Dbl.fin 0 0) none rasqal_variable_ptr.null))
      (rasqal_literal.mk 1 rasqal_literal_type.STRING (some (cstr "true")) 4 none none
        none rasqal_literal_value.zero)
      rasqal_xsd_boolean_uri 1 rfl rfl rfl rfl rfl rfl).1,
    (rasqal_literal_compare_boolean_plain_string
      (rasqal_literal.mk 1 rasqal_literal_type.BOOLEAN (some (cstr "true")) 4 none
        (some rasqal_xsd_boolean_uri) none
        (rasqal_literal_value.mk 1 (Dbl.fin 0 0) none rasqal_variable_ptr.null))
      (rasqal_literal.mk 1 rasqal_literal_type.STRING (some (cstr "true")) 4 none none
        none rasqal_literal_value.zero)
      rasqal_xsd_boolean_uri 1 rfl rfl rfl rfl rfl rfl).2.1⟩

/-! ## Target kind and operand slots -/

/-- In standards mode the target kind for two numeric operands of different kinds is
double when one of them is a double or a float, and integer otherwise. -/
theorem compare_target_numeric (a b : rasqal_literal) (flags : Nat)
    (hx : flags &&& RASQAL_COMPARE_XQUERY ≠ 0)
    (ha : spec_kind_numeric a.type = true) (hb : spec_kind_numeric b.type = true)
    (hne : a.type ≠ b.type) :
    ∃ c0 c1,
      compare_classify 0 (a, b) compare_locals.init = .ok (CFlow.next ((a, b), c0)) ∧
      compare_classify 1 (a, b) c0 = .ok (CFlow.next ((a, b), c1)) ∧
      compare_target (a, b) c1 flags =
        CFlow.next
          (if a.type = rasqal_literal_type.DOUBLE ∨ a.type = rasqal_literal_type.FLOAT ∨
              b.type = rasqal_literal_type.DOUBLE ∨ b.type = rasqal_literal_type.FLOAT
            then rasqal_literal_type.DOUBLE else rasqal_literal_type.INTEGER) := by
  obtain ⟨u1, t1, s1, n1, g1, dt1, f1, ⟨i1, d1, r1, v1⟩⟩ := a
  obtain ⟨u2, t2, s2, n2, g2, dt2, f2, ⟨i2, d2, r2, v2⟩⟩ := b
  simp only [rasqal_literal.type] at ha hb hne ⊢
  cases t1 <;> cases t2 <;>
    first
    | exact absurd rfl hne
    | exact absurd ha (by decide)
    | exact absurd hb (by decide)
    | exact ⟨_, _, rfl, rfl, by
        simp [compare_target, rasqal_literal.type, hx, slot_set, compare_locals.init]⟩

/-- In standards mode an integer literal and a decimal literal compare as 1 with the
error flag unset, in either order: the target kind is integer and a decimal is not
turned into an integer. -/
theorem compare_xquery_integer_decimal (a b : rasqal_literal) (flags : Nat)
    (hx : flags &&& RASQAL_COMPARE_XQUERY ≠ 0)
    (ha : a.type = rasqal_literal_type.INTEGER) (hb : b.type = rasqal_literal_type.DECIMAL) :
    rasqal_literal_compare (rasqal_literal_ptr.ptr a) (rasqal_literal_ptr.ptr b) flags =
      .ok (1, 0) ∧
    rasqal_literal_compare (rasqal_literal_ptr.ptr b) (rasqal_literal_ptr.ptr a) flags =
      .ok (1, 0) := by
  obtain ⟨u1, t1, s1, n1, g1, dt1, f1, ⟨i1, d1, r1, v1⟩⟩ := a
  obtain ⟨u2, t2, s2, n2, g2, dt2, f2, ⟨i2, d2, r2, v2⟩⟩ := b
  simp only [rasqal_literal.type] at ha hb
  subst ha hb
  constructor
  · simp [rasqal_literal_compare, compare_classify, lits_get, rasqal_literal.type,
      compare_locals.init, slot_set, compare_target, hx, compare_promote,
      rasqal_literal_as_integer, rasqal_literal.value, rasqal_literal_value.integer,
      rasqal_literal.string]
  · simp [rasqal_literal_compare, compare_classify, lits_get, rasqal_literal.type,
      compare_locals.init, slot_set, compare_target, hx, compare_promote,
      rasqal_literal_as_integer, rasqal_literal.value, rasqal_literal_value.integer,
      rasqal_literal.string]

/-- Claim C33 (as amended): in standards mode (any flags value with the
RASQAL_COMPARE_XQUERY bit) the target kind for two numeric operands of different
kinds is double when one of them is a double or a float, and integer otherwise.
For every 32-bit signed integer `n`: the integer literal `n` and the decimal
literal whose text is the base-10 rendering of `n` compare as 1 with the error
flag unset, in either order; that decimal literal and a double-kind literal of
value `n` are both promoted to double and compare as 0 with the error flag unset,
in either order. -/
theorem rasqal_literal_compare_xquery_numeric (n : Int) (flags : Nat) (a b d : rasqal_literal)
    (hlo : INT_MIN ≤ n) (hhi : n ≤ INT_MAX)
    (hx : flags &&& RASQAL_COMPARE_XQUERY ≠ 0)
    (ha : spec_kind_numeric a.type = true) (hb : spec_kind_numeric b.type = true)
    (hne : a.type ≠ b.type)
    (hd : d.type = rasqal_literal_type.DOUBLE) (hv : d.value.floating = Dbl.of_int n) :
    (∃ c0 c1,
      compare_classify 0 (a, b) compare_locals.init = .ok (CFlow.next ((a, b), c0)) ∧
      compare_classify 1 (a, b) c0 = .ok (CFlow.next ((a, b), c1)) ∧
      compare_target (a, b) c1 flags =
        CFlow.next
          (if a.type = rasqal_literal_type.DOUBLE ∨ a.type = rasqal_literal_type.FLOAT ∨
              b.type = rasqal_literal_type.DOUBLE ∨ b.type = rasqal_literal_type.FLOAT
            then rasqal_literal_type.DOUBLE else rasqal_literal_type.INTEGER)) ∧
    rasqal_literal_compare (rasqal_new_integer_literal rasqal_literal_type.INTEGER n)
        (rasqal_new_decimal_literal (sprintf_d n)) flags = .ok (1, 0) ∧
    rasqal_literal_compare (rasqal_new_decimal_literal (sprintf_d n))
        (rasqal_new_integer_literal rasqal_literal_type.INTEGER n) flags = .ok (1, 0) ∧
    rasqal_literal_compare (rasqal_new_decimal_literal (sprintf_d n))
        (rasqal_literal_ptr.ptr d) flags = .ok (0, 0) ∧
    rasqal_literal_compare (rasqal_literal_ptr.ptr d)
        (rasqal_new_decimal_literal (sprintf_d n)) flags = .ok (0, 0) := by
  have hid := compare_xquery_integer_decimal
    (rasqal_literal.mk 1 rasqal_literal_type.INTEGER (some (sprintf_d n))
      (sprintf_d n).length none (some (raptor_uri_copy rasqal_xsd_integer_uri)) none
      (rasqal_literal_value.mk n (Dbl.fin 0 0) none rasqal_variable_ptr.null))
    (rasqal_literal.mk 1 rasqal_literal_type.DECIMAL (some (sprintf_d n))
      (sprintf_d n).length none (some (raptor_uri_copy rasqal_xsd_decimal_uri)) none
      rasqal_literal_value.zero)
    flags hx rfl rfl
  refine ⟨compare_target_numeric a b flags hx ha hb hne, hid.1, hid.2, ?_, ?_⟩
  all_goals
    obtain ⟨u, t, s, len, g, dt, f, ⟨i, x, r, w⟩⟩ := d
    simp only [rasqal_literal.type, rasqal_literal.value, rasqal_literal_value.floating]
      at hd hv
    subst hd hv
    have hz := double_to_int_sub_self (Dbl.of_int n) (Dbl.of_int_finite n hlo hhi)
    have hne := sprintf_d_ne_nil n
    have hfc : fully_consumed (sprintf_d n) [] = true := by
      cases h : sprintf_d n with
      | nil => exact absurd h hne
      | cons c cs => simp [fully_consumed]
    simp [rasqal_literal_compare, rasqal_new_decimal_literal, compare_classify, lits_get,
      rasqal_literal.type, compare_locals.init, slot_set, compare_target, hx,
      compare_promote, rasqal_literal_as_floating, rasqal_literal.value,
      rasqal_literal_value.integer, rasqal_literal_value.floating, compare_final, slot_get,
      assigned, hz, rasqal_literal.string, strtod_sprintf_d, hfc]

/-- Claim C33 (witness): the integer 1, the decimal "1" and the double 1.0, flags
RASQAL_COMPARE_XQUERY. -/
theorem rasqal_literal_compare_xquery_numeric_witness :
    (INT_MIN ≤ 1 ∧ (1 : Int) ≤ INT_MAX ∧
      RASQAL_COMPARE_XQUERY &&& RASQAL_COMPARE_XQUERY ≠ 0) ∧
    rasqal_literal_compare (rasqal_new_integer_literal rasqal_literal_type.INTEGER 1)
        (rasqal_new_decimal_literal (cstr "1")) RASQAL_COMPARE_XQUERY = .ok (1, 0) ∧
    rasqal_literal_compare (rasqal_new_decimal_literal (cstr "1"))
        (rasqal_new_double_literal (fun _ => cstr "1") (Dbl.of_int 1))
        RASQAL_COMPARE_XQUERY = .ok (0, 0) :=
  ⟨by decide,
    (rasqal_literal_compare_xquery_numeric 1 RASQAL_COMPARE_XQUERY
      (rasqal_literal.mk 1 rasqal_literal_type.INTEGER (some (cstr "1")) 1 none
        (some rasqal_xsd_integer_uri) none
        (rasqal_literal_value.mk 1 (Dbl.fin 0 0) none rasqal_variable_ptr.null))
      (rasqal_literal.mk 1 rasqal_literal_type.DECIMAL (some (cstr "1")) 1 none
        (some rasqal_xsd_decimal_uri) none rasqal_literal_value.zero)
      (rasqal_literal.mk 1 rasqal_literal_type.DOUBLE (some (cstr "1")) 1 none
        (some rasqal_xsd_double_uri) none
        (rasqal_literal_value.mk 0 (Dbl.of_int 1) none rasqal_variable_ptr.null))
      (by decide) (by decide) (by decide) (by decide) (by decide) (by decide) rfl rfl).2.1,
    (rasqal_literal_compare_xquery_numeric 1 RASQAL_COMPARE_XQUERY
      (rasqal_literal.mk 1 rasqal_literal_type.INTEGER (some (cstr "1")) 1 none
        (some rasqal_xsd_integer_uri) none
        (rasqal_literal_value.mk 1 (Dbl.fin 0 0) none rasqal_variable_ptr.null))
      (rasqal_literal.mk 1 rasqal_literal_type.DECIMAL (some (cstr "1")) 1 none
        (some rasqal_xsd_decimal_uri) none rasqal_literal_value.zero)
      (rasqal_literal.mk 1 rasqal_literal_type.DOUBLE (some (cstr "1")) 1 none
        (some rasqal_xsd_double_uri) none
        (rasqal_literal_value.mk 0 (Dbl.of_int 1) none rasqal_variable_ptr.null))
      (by decide) (by decide) (by decide) (by decide) (by decide) (by decide) rfl
      rfl).2.2.2.1⟩

/-- Claim C33 (counterexample): in standards mode the integer literal 1 and the decimal
literal "1" compare as 1, not 0, with the error flag unset, in either order. -/
theorem rasqal_literal_compare_xquery_integer_decimal_counterexample :
    rasqal_literal_compare (rasqal_new_integer_literal rasqal_literal_type.INTEGER 1)
        (rasqal_new_decimal_literal (cstr "1")) RASQAL_COMPARE_XQUERY = .ok (1, 0) ∧
    rasqal_literal_compare (rasqal_new_decimal_literal (cstr "1"))
        (rasqal_new_integer_literal rasqal_literal_type.INTEGER 1)
        RASQAL_COMPARE_XQUERY = .ok (1, 0) := by
  decide

/-! ## Equality against comparison -/

theorem wrap32_sub_eq_zero_iff (x y : Int) (hxl : INT_MIN ≤ x) (hxh : x ≤ INT_MAX)
    (hyl : INT_MIN ≤ y) (hyh : y ≤ INT_MAX) : wrap32 (x - y) = 0 ↔ x = y := by
  unfold INT_MIN at hxl hyl
  unfold INT_MAX at hxh hyh
  unfold wrap32
  omega

theorem c_bool_ne_zero (b : Bool) : c_bool b ≠ 0 ↔ b = true := by
  cases b <;> simp [c_bool]

/-- Equality and comparison of two same-kind literals of a non-floating kind. -/
theorem equals_iff_compare_zero (a b : rasqal_literal)
    (hk : a.type = b.type)
    (hkind : a.type ∈ [rasqal_literal_type.URI, rasqal_literal_type.STRING,
      rasqal_literal_type.BLANK, rasqal_literal_type.PATTERN, rasqal_literal_type.QNAME,
      rasqal_literal_type.DECIMAL, rasqal_literal_type.DATETIME, rasqal_literal_type.INTEGER,
      rasqal_literal_type.BOOLEAN])
    (hint : a.type = rasqal_literal_type.INTEGER ∨ a.type = rasqal_literal_type.BOOLEAN →
      (INT_MIN ≤ a.value.integer ∧ a.value.integer ≤ INT_MAX) ∧
        INT_MIN ≤ b.value.integer ∧ b.value.integer ≤ INT_MAX) :
    (∃ e, rasqal_literal_equals (rasqal_literal_ptr.ptr a) (rasqal_literal_ptr.ptr b) = .ok e ∧
        e ≠ 0) ↔
      rasqal_literal_compare (rasqal_literal_ptr.ptr a) (rasqal_literal_ptr.ptr b) 0 =
        .ok (0, 0) := by
  obtain ⟨u1, t, s1, n1, g1, dt1, f1, ⟨i1, d1, r1, v1⟩⟩ := a
  obtain ⟨u2, t2, s2, n2, g2, dt2, f2, ⟨i2, d2, r2, v2⟩⟩ := b
  simp only [rasqal_literal.type, rasqal_literal.value, rasqal_literal_value.integer]
    at hk hkind hint
  subst hk
  cases t
  case UNKNOWN => exact absurd hkind (by decide)
  case VARIABLE => exact absurd hkind (by decide)
  case DOUBLE => exact absurd hkind (by decide)
  case FLOAT => exact absurd hkind (by decide)
  case URI =>
    cases r1 <;> cases r2 <;>
      simp [rasqal_literal_equals, rasqal_literal_compare, compare_classify, lits_get,
        rasqal_literal.type, compare_locals.init, slot_set, compare_target,
        compare_promote, rasqal_literal.value, rasqal_literal_value.uri, compare_final,
        c_bool_ne_zero, raptor_uri_equals, raptor_uri_as_string, strcmp_eq_zero_iff]
  case INTEGER =>
    obtain ⟨⟨h1, h2⟩, h3, h4⟩ := hint (Or.inl rfl)
    simp [rasqal_literal_equals, rasqal_literal_compare, compare_classify, lits_get,
      rasqal_literal.type, compare_locals.init, slot_set, compare_target,
      compare_promote, rasqal_literal.value, rasqal_literal_value.integer, compare_final,
      slot_get, assigned, c_bool_ne_zero, wrap32_sub_eq_zero_iff i1 i2 h1 h2 h3 h4]
  case BOOLEAN =>
    obtain ⟨⟨h1, h2⟩, h3, h4⟩ := hint (Or.inr rfl)
    simp [rasqal_literal_equals, rasqal_literal_compare, compare_classify, lits_get,
      rasqal_literal.type, compare_locals.init, slot_set, compare_target,
      compare_promote, rasqal_literal.value, rasqal_literal_value.integer, compare_final,
      slot_get, assigned, c_bool_ne_zero, wrap32_sub_eq_zero_iff i1 i2 h1 h2 h3 h4]
  case STRING =>
    cases hl : language_differs g1 g2 <;> cases dt1 <;> cases dt2 <;> cases s1 <;> cases s2 <;>
      simp [rasqal_literal_equals, rasqal_literal_compare, compare_classify, lits_get,
        rasqal_literal.type, compare_locals.init, slot_set, compare_target,
        compare_promote, rasqal_literal.string, rasqal_literal.language,
        rasqal_literal.datatype, compare_final, compare_strings, slot_get, assigned,
        RASQAL_COMPARE_NOCASE, c_bool_ne_zero, raptor_uri_equals, raptor_uri_as_string,
        strcmp_eq_zero_iff, hl] <;>
      (try (split_ifs <;> simp_all [strcmp_eq_zero_iff, c_bool_ne_zero]))
  all_goals
    cases s1 <;> cases s2 <;>
      simp [rasqal_literal_equals, rasqal_literal_compare, compare_classify, lits_get,
        rasqal_literal.type, compare_locals.init, slot_set, compare_target,
        compare_promote, rasqal_literal.string, compare_final, compare_strings, slot_get,
        assigned, RASQAL_COMPARE_NOCASE, c_bool_ne_zero, strcmp_eq_zero_iff]

/-- Equality and comparison of two same-kind literals of a non-floating kind both
return when the URIs, for the kind uri, and the texts, for the kinds compared by
text, are present. -/
theorem equals_compare_return (a b : rasqal_literal)
    (hk : a.type = b.type)
    (hkind : a.type ∈ [rasqal_literal_type.URI, rasqal_literal_type.STRING,
      rasqal_literal_type.BLANK, rasqal_literal_type.PATTERN, rasqal_literal_type.QNAME,
      rasqal_literal_type.DECIMAL, rasqal_literal_type.DATETIME, rasqal_literal_type.INTEGER,
      rasqal_literal_type.BOOLEAN])
    (huri : a.type = rasqal_literal_type.URI → a.value.uri ≠ none ∧ b.value.uri ≠ none)
    (hstr : a.type ≠ rasqal_literal_type.URI → a.string ≠ none ∧ b.string ≠ none) :
    ∃ e r err,
      rasqal_literal_equals (rasqal_literal_ptr.ptr a) (rasqal_literal_ptr.ptr b) = .ok e ∧
      rasqal_literal_compare (rasqal_literal_ptr.ptr a) (rasqal_literal_ptr.ptr b) 0 =
        .ok (r, err) := by
  obtain ⟨u1, t, s1, n1, g1, dt1, f1, ⟨i1, d1, r1, v1⟩⟩ := a
  obtain ⟨u2, t2, s2, n2, g2, dt2, f2, ⟨i2, d2, r2, v2⟩⟩ := b
  simp only [rasqal_literal.type, rasqal_literal.value, rasqal_literal_value.uri,
    rasqal_literal.string] at hk hkind huri hstr
  subst hk
  cases t
  case UNKNOWN => exact absurd hkind (by decide)
  case VARIABLE => exact absurd hkind (by decide)
  case DOUBLE => exact absurd hkind (by decide)
  case FLOAT => exact absurd hkind (by decide)
  case URI =>
    obtain ⟨h1, h2⟩ := huri rfl
    obtain ⟨x1, rfl⟩ := Option.ne_none_iff_exists'.mp h1
    obtain ⟨x2, rfl⟩ := Option.ne_none_iff_exists'.mp h2
    exact ⟨_, _, _, rfl, rfl⟩
  case INTEGER => exact ⟨_, _, _, rfl, rfl⟩
  case BOOLEAN => exact ⟨_, _, _, rfl, rfl⟩
  case STRING =>
    obtain ⟨h1, h2⟩ := hstr (by decide)
    obtain ⟨x1, rfl⟩ := Option.ne_none_iff_exists'.mp h1
    obtain ⟨x2, rfl⟩ := Option.ne_none_iff_exists'.mp h2
    cases hl : language_differs g1 g2 <;> cases dt1 <;> cases dt2 <;>
      simp [rasqal_literal_equals, rasqal_literal_compare, compare_classify, lits_get,
        rasqal_literal.type, compare_locals.init, slot_set, compare_target,
        compare_promote, rasqal_literal.string, rasqal_literal.language,
        rasqal_literal.datatype, compare_final, compare_strings, slot_get, assigned,
        RASQAL_COMPARE_NOCASE, hl]
    split_ifs <;> simp
  all_goals
    obtain ⟨h1, h2⟩ := hstr (by decide)
    obtain ⟨x1, rfl⟩ := Option.ne_none_iff_exists'.mp h1
    obtain ⟨x2, rfl⟩ := Option.ne_none_iff_exists'.mp h2
    exact ⟨_, _, _, rfl, rfl⟩

/-- Claim C36: for two literals `a` and `b` that are not variables, of the same kind among
uri, string, blank, pattern, qname, decimal, date-time, integer and boolean (the
values of integers and booleans being 32-bit), with two URIs equal when their texts
are: `rasqal_literal_equals(a, b)` returns non-zero iff
`rasqal_literal_compare(a, b, 0)` returns 0 with the error flag unset; and both
functions return when the URIs, for the kind uri, and the lexical texts, for the
other kinds, are present. -/
theorem rasqal_literal_equals_iff_compare_equal (a b : rasqal_literal)
    (hk : a.type = b.type)
    (hkind : a.type ∈ [rasqal_literal_type.URI, rasqal_literal_type.STRING,
      rasqal_literal_type.BLANK, rasqal_literal_type.PATTERN, rasqal_literal_type.QNAME,
      rasqal_literal_type.DECIMAL, rasqal_literal_type.DATETIME, rasqal_literal_type.INTEGER,
      rasqal_literal_type.BOOLEAN])
    (hint : a.type = rasqal_literal_type.INTEGER ∨ a.type = rasqal_literal_type.BOOLEAN →
      (INT_MIN ≤ a.value.integer ∧ a.value.integer ≤ INT_MAX) ∧
        INT_MIN ≤ b.value.integer ∧ b.value.integer ≤ INT_MAX) :
    ((∃ e, rasqal_literal_equals (rasqal_literal_ptr.ptr a) (rasqal_literal_ptr.ptr b) =
          .ok e ∧ e ≠ 0) ↔
      rasqal_literal_compare (rasqal_literal_ptr.ptr a) (rasqal_literal_ptr.ptr b) 0 =
        .ok (0, 0)) ∧
    ((a.type = rasqal_literal_type.URI → a.value.uri ≠ none ∧ b.value.uri ≠ none) →
      (a.type ≠ rasqal_literal_type.URI → a.string ≠ none ∧ b.string ≠ none) →
      ∃ e r err,
        rasqal_literal_equals (rasqal_literal_ptr.ptr a) (rasqal_literal_ptr.ptr b) = .ok e ∧
        rasqal_literal_compare (rasqal_literal_ptr.ptr a) (rasqal_literal_ptr.ptr b) 0 =
          .ok (r, err)) :=
  ⟨equals_iff_compare_zero a b hk hkind hint,
    fun huri hstr => equals_compare_return a b hk hkind huri hstr⟩

/-- Claim C36 (witness): the plain string "a" against itself, for which both sides hold,
and against the plain string "b", for which neither does. -/
theorem rasqal_literal_equals_iff_compare_equal_witness :
    rasqal_literal_equals
        (rasqal_literal_ptr.ptr (rasqal_literal.mk 1 rasqal_literal_type.STRING
          (some (cstr "a")) 1 none none none rasqal_literal_value.zero))
        (rasqal_literal_ptr.ptr (rasqal_literal.mk 1 rasqal_literal_type.STRING
          (some (cstr "a")) 1 none none none rasqal_literal_value.zero)) = .ok 1 ∧
    rasqal_literal_compare
        (rasqal_literal_ptr.ptr (rasqal_literal.mk 1 rasqal_literal_type.STRING
          (some (cstr "a")) 1 none none none rasqal_literal_value.zero))
        (rasqal_literal_ptr.ptr (rasqal_literal.mk 1 rasqal_literal_type.STRING
          (some (cstr "a")) 1 none none none rasqal_literal_value.zero)) 0 = .ok (0, 0) ∧
    rasqal_literal_equals
        (rasqal_literal_ptr.ptr (rasqal_literal.mk 1 rasqal_literal_type.STRING
          (some (cstr "a")) 1 none none none rasqal_literal_value.zero))
        (rasqal_literal_ptr.ptr (rasqal_literal.mk 1 rasqal_literal_type.STRING
          (some (cstr "b")) 1 none none none rasqal_literal_value.zero)) = .ok 0 ∧
    ¬ rasqal_literal_compare
        (rasqal_literal_ptr.ptr (rasqal_literal.mk 1 rasqal_literal_type.STRING
          (some (cstr "a")) 1 none none none rasqal_literal_value.zero))
        (rasqal_literal_ptr.ptr (rasqal_literal.mk 1 rasqal_literal_type.STRING
          (some (cstr "b")) 1 none none none rasqal_literal_value.zero)) 0 = .ok (0, 0) :=
  ⟨by decide,
    (rasqal_literal_equals_iff_compare_equal
      (rasqal_literal.mk 1 rasqal_literal_type.STRING (some (cstr "a")) 1 none none none
        rasqal_literal_value.zero)
      (rasqal_literal.mk 1 rasqal_literal_type.STRING (some (cstr "a")) 1 none none none
        rasqal_literal_value.zero)
      rfl (by decide) (by decide)).1.mp ⟨1, by decide, by decide⟩,
    by decide,
    fun h => by
      obtain ⟨e, he, hne⟩ :=
        (rasqal_literal_equals_iff_compare_equal
          (rasqal_literal.mk 1 rasqal_literal_type.STRING (some (cstr "a")) 1 none none none
            rasqal_literal_value.zero)
          (rasqal_literal.mk 1 rasqal_literal_type.STRING (some (cstr "b")) 1 none none none
            rasqal_literal_value.zero)
          rfl (by decide) (by decide)).1.mpr h
      have h0 : rasqal_literal_equals
          (rasqal_literal_ptr.ptr (rasqal_literal.mk 1 rasqal_literal_type.STRING
            (some (cstr "a")) 1 none none none rasqal_literal_value.zero))
          (rasqal_literal_ptr.ptr (rasqal_literal.mk 1 rasqal_literal_type.STRING
            (some (cstr "b")) 1 none none none rasqal_literal_value.zero)) = .ok 0 := by
        decide
      rw [h0] at he
      cases he
      exact hne rfl⟩

/-! ## The two implementations of the effective boolean value -/

/-- Claim C37 (the code at the failing input): on the string literal with empty text typed
xsd:string `rasqal_literal_as_boolean` gives false without error while
`rasqal_literal_ebv` gives true.  On every other literal that is not a variable,
whose text, when it is a string, is present with its length and without NUL byte,
and on which `rasqal_literal_as_boolean` reports no error, the two agree:
`rasqal_literal_ebv` gives 1 iff `rasqal_literal_as_boolean` gives non-zero, and
gives 0 otherwise. -/
theorem rasqal_literal_ebv_as_boolean_disagree :
    rasqal_literal_as_boolean
        (rasqal_literal_ptr.ptr (rasqal_literal.mk 1 rasqal_literal_type.STRING (some []) 0
          none (some rasqal_xsd_string_uri) none rasqal_literal_value.zero)) 0 = .ok (0, 0) ∧
    rasqal_literal_ebv
        (rasqal_literal_ptr.ptr (rasqal_literal.mk 1 rasqal_literal_type.STRING (some []) 0
          none (some rasqal_xsd_string_uri) none rasqal_literal_value.zero)) = .ok 1 ∧
    ∀ (l : rasqal_literal) (b : Int),
      l.type ≠ rasqal_literal_type.VARIABLE →
      (l.type = rasqal_literal_type.STRING →
        ∃ s, l.string = some s ∧ l.string_len = s.length ∧ 0 ∉ s) →
      rasqal_literal_as_boolean (rasqal_literal_ptr.ptr l) 0 = .ok (b, 0) →
      ¬ (l.type = rasqal_literal_type.STRING ∧ l.datatype = some rasqal_xsd_string_uri ∧
        l.string_len = 0) →
      (rasqal_literal_ebv (rasqal_literal_ptr.ptr l) = .ok 1 ↔ b ≠ 0) ∧
      (rasqal_literal_ebv (rasqal_literal_ptr.ptr l) = .ok 0 ↔ b = 0) := by
  refine ⟨by decide, by decide, ?_⟩
  intro l b hv hs hb hex
  rw [ebv_of_non_variable l hv]
  obtain ⟨u, t, s, n, g, dt, f, ⟨i, d, r, w⟩⟩ := l
  simp only [rasqal_literal.type, rasqal_literal.string, rasqal_literal.string_len,
    rasqal_literal.datatype, rasqal_literal.value, rasqal_literal_value.integer,
    rasqal_literal_value.floating] at hv hs hex ⊢
  cases t
  case VARIABLE => exact absurd rfl hv
  case STRING =>
    obtain ⟨x, rfl, rfl, h0⟩ := hs rfl
    have hpeek : (peek x != 0) = true ↔ x ≠ [] := by
      cases x with
      | nil => simp [peek]
      | cons c cs =>
        have : c ≠ 0 := by
          rintro rfl
          exact h0 (by simp)
        simp [peek, this]
    cases dt with
    | none =>
      simp only [rasqal_literal_as_boolean, Except.ok.injEq, Prod.mk.injEq, and_true] at hb
      subst hb
      by_cases hx : x = [] <;> simp [str_nonempty, c_bool, hx, peek]
      all_goals
        cases x with
        | nil => exact absurd rfl hx
        | cons c cs =>
          have : c ≠ 0 := by
            rintro rfl
            exact h0 (by simp)
          simp [this]
    | some dtv =>
      by_cases he : raptor_uri_equals dtv rasqal_xsd_string_uri = true
      · have hd : dtv = rasqal_xsd_string_uri := (raptor_uri_equals_iff _ _).mp he
        subst hd
        simp only [rasqal_literal_as_boolean, he, if_true, Except.ok.injEq, Prod.mk.injEq,
          and_true] at hb
        subst hb
        have hx : x ≠ [] := by
          intro h
          exact hex ⟨rfl, rfl, by simp [h]⟩
        cases x with
        | nil => exact absurd rfl hx
        | cons c cs =>
          have : c ≠ 0 := by
            rintro rfl
            exact h0 (by simp)
          simp [str_nonempty, c_bool, peek, this]
      · simp [rasqal_literal_as_boolean, he] at hb
  case INTEGER =>
    simp only [rasqal_literal_as_boolean, Except.ok.injEq, Prod.mk.injEq, and_true] at hb
    subst hb
    by_cases h : i = 0 <;> simp [c_bool, h]
  case BOOLEAN =>
    simp only [rasqal_literal_as_boolean, Except.ok.injEq, Prod.mk.injEq, and_true] at hb
    subst hb
    by_cases h : i = 0 <;> simp [c_bool, h]
  case DOUBLE =>
    simp only [rasqal_literal_as_boolean, Except.ok.injEq, Prod.mk.injEq, and_true] at hb
    subst hb
    by_cases hz : d.is_zero = true <;> by_cases hn : d.isnan = true <;>
      simp [c_bool, hz, hn]
  case FLOAT =>
    simp only [rasqal_literal_as_boolean, Except.ok.injEq, Prod.mk.injEq, and_true] at hb
    subst hb
    by_cases hz : d.is_zero = true <;> by_cases hn : d.isnan = true <;>
      simp [c_bool, hz, hn]
  all_goals simp [rasqal_literal_as_boolean] at hb

/-! ## The translator on sub-patterns that do not translate -/

/-- The loop of the Union case over sub-patterns that translate, from a tree already
built, folds their trees into it and goes on with the sub-patterns that follow. -/
theorem union_loop_translating (query : rasqal_query)
    (pns : List (rasqal_graph_pattern × rasqal_algebra_node))
    (hpns : ∀ pn ∈ pns, rasqal_algebra_graph_pattern_to_algebra (some query) pn.1 =
      .ok (rasqal_algebra_node_ptr.ptr pn.2))
    (tail : List rasqal_graph_pattern) (tree : rasqal_algebra_node) :
    graph_pattern_union_loop (some query)
        (rasqal_graph_pattern_seq.of_list (pns.map Prod.fst ++ tail))
        (rasqal_algebra_node_ptr.ptr tree) =
      graph_pattern_union_loop (some query) (rasqal_graph_pattern_seq.of_list tail)
        (rasqal_algebra_node_ptr.ptr
          (pns.foldl (fun tree pn => spec_union_node query tree pn.2) tree)) := by
  induction pns generalizing tree with
  | nil => simp
  | cons pn pns ih =>
    have ht := hpns pn (List.mem_cons_self _ _)
    simp only [List.map_cons, List.cons_append, rasqal_graph_pattern_seq.of_list,
      graph_pattern_union_loop, ht, new_2op_union, List.foldl_cons]
    exact ih (fun q hq => hpns q (List.mem_cons_of_mem _ hq)) _

/-- Claim C35: for a Union graph pattern over a present query whose sub-patterns
`p1, ..., pk` translate, to the trees `n1, ..., nk`, and whose next sub-pattern
does not translate, the translator returns the left-nested tree
`Union(...Union(n1, n2)..., nk)` built so far, whatever sub-patterns follow the one
that does not translate. -/
theorem rasqal_algebra_graph_pattern_to_algebra_union_stops (query : rasqal_query)
    (p1 : rasqal_graph_pattern) (n1 : rasqal_algebra_node)
    (pns : List (rasqal_graph_pattern × rasqal_algebra_node))
    (bad : rasqal_graph_pattern) (rest : List rasqal_graph_pattern)
    (start_column end_column : Int)
    (h1 : rasqal_algebra_graph_pattern_to_algebra (some query) p1 =
      .ok (rasqal_algebra_node_ptr.ptr n1))
    (hpns : ∀ pn ∈ pns, rasqal_algebra_graph_pattern_to_algebra (some query) pn.1 =
      .ok (rasqal_algebra_node_ptr.ptr pn.2))
    (hbad : rasqal_algebra_graph_pattern_to_algebra (some query) bad =
      .ok rasqal_algebra_node_ptr.null) :
    rasqal_algebra_graph_pattern_to_algebra (some query)
        (rasqal_graph_pattern.mk rasqal_graph_pattern_operator.UNION
          (rasqal_graph_pattern_seq.of_list (p1 :: (pns.map Prod.fst ++ bad :: rest)))
          start_column end_column) =
      .ok (rasqal_algebra_node_ptr.ptr
        (pns.foldl (fun tree pn => spec_union_node query tree pn.2) n1)) := by
  simp only [rasqal_algebra_graph_pattern_to_algebra, rasqal_graph_pattern_seq.of_list,
    graph_pattern_union_loop, h1]
  rw [union_loop_translating query pns hpns (bad :: rest) n1]
  simp only [rasqal_graph_pattern_seq.of_list, graph_pattern_union_loop, hbad]

/-- Claim C35 (witness): a Union over the Basic patterns of columns 0 and 1, a Group
pattern, and a Basic pattern of column 2: the tree is `Union(BGP 0..0, BGP 1..1)`. -/
theorem rasqal_algebra_graph_pattern_to_algebra_union_stops_witness :
    rasqal_algebra_graph_pattern_to_algebra (some ⟨some [⟨10⟩, ⟨11⟩, ⟨12⟩], none⟩)
        (rasqal_graph_pattern.mk rasqal_graph_pattern_operator.UNION
          (rasqal_graph_pattern_seq.of_list
            [rasqal_graph_pattern.mk rasqal_graph_pattern_operator.BASIC
              rasqal_graph_pattern_seq.nil 0 0,
             rasqal_graph_pattern.mk rasqal_graph_pattern_operator.BASIC
              rasqal_graph_pattern_seq.nil 1 1,
             rasqal_graph_pattern.mk rasqal_graph_pattern_operator.GROUP
              rasqal_graph_pattern_seq.nil 0 0,
             rasqal_graph_pattern.mk rasqal_graph_pattern_operator.BASIC
              rasqal_graph_pattern_seq.nil 2 2]) 0 2) =
      .ok (rasqal_algebra_node_ptr.ptr
        (rasqal_algebra_node.mk (some ⟨some [⟨10⟩, ⟨11⟩, ⟨12⟩], none⟩)
          rasqal_algebra_node_operator.UNION none 0 0
          (rasqal_algebra_node_ptr.ptr
            (rasqal_algebra_node.mk (some ⟨some [⟨10⟩, ⟨11⟩, ⟨12⟩], none⟩)
              rasqal_algebra_node_operator.BGP (some [⟨10⟩, ⟨11⟩, ⟨12⟩]) 0 0
              rasqal_algebra_node_ptr.null rasqal_algebra_node_ptr.null none 0 0))
          (rasqal_algebra_node_ptr.ptr
            (rasqal_algebra_node.mk (some ⟨some [⟨10⟩, ⟨11⟩, ⟨12⟩], none⟩)
              rasqal_algebra_node_operator.BGP (some [⟨10⟩, ⟨11⟩, ⟨12⟩]) 1 1
              rasqal_algebra_node_ptr.null rasqal_algebra_node_ptr.null none 0 0))
          none 0 0)) :=
  rasqal_algebra_graph_pattern_to_algebra_union_stops ⟨some [⟨10⟩, ⟨11⟩, ⟨12⟩], none⟩
    (rasqal_graph_pattern.mk rasqal_graph_pattern_operator.BASIC
      rasqal_graph_pattern_seq.nil 0 0)
    (rasqal_algebra_node.mk (some ⟨some [⟨10⟩, ⟨11⟩, ⟨12⟩], none⟩)
      rasqal_algebra_node_operator.BGP (some [⟨10⟩, ⟨11⟩, ⟨12⟩]) 0 0
      rasqal_algebra_node_ptr.null rasqal_algebra_node_ptr.null none 0 0)
    [(rasqal_graph_pattern.mk rasqal_graph_pattern_operator.BASIC
        rasqal_graph_pattern_seq.nil 1 1,
      rasqal_algebra_node.mk (some ⟨some [⟨10⟩, ⟨11⟩, ⟨12⟩], none⟩)
        rasqal_algebra_node_operator.BGP (some [⟨10⟩, ⟨11⟩, ⟨12⟩]) 1 1
        rasqal_algebra_node_ptr.null rasqal_algebra_node_ptr.null none 0 0)]
    (rasqal_graph_pattern.mk rasqal_graph_pattern_operator.GROUP
      rasqal_graph_pattern_seq.nil 0 0)
    [rasqal_graph_pattern.mk rasqal_graph_pattern_operator.BASIC
      rasqal_graph_pattern_seq.nil 2 2]
    0 2 (by decide) (by decide) (by decide)

/-- Claim C40 (the code at the failing input): when the first sub-pattern of a Union graph
pattern does not translate, the loop leaves the tree absent and takes the next
sub-pattern as the first: the translation is that of the Union of the sub-patterns
that follow.  So a Union over a Group pattern and the Basic pattern of column 0
translates to the BGP node of column 0, not to nothing, while a Union over that
Basic pattern and a Group pattern and a Union over the Basic pattern, the Group
pattern and a second Basic pattern both translate to the BGP node of column 0
alone. -/
theorem rasqal_algebra_graph_pattern_to_algebra_union_skips_first :
    (∀ (query : Option rasqal_query) (bad : rasqal_graph_pattern)
        (rest : rasqal_graph_pattern_seq) (s1 e1 s2 e2 : Int),
      rasqal_algebra_graph_pattern_to_algebra query bad = .ok rasqal_algebra_node_ptr.null →
      rasqal_algebra_graph_pattern_to_algebra query
          (rasqal_graph_pattern.mk rasqal_graph_pattern_operator.UNION
            (rasqal_graph_pattern_seq.cons bad rest) s1 e1) =
        rasqal_algebra_graph_pattern_to_algebra query
          (rasqal_graph_pattern.mk rasqal_graph_pattern_operator.UNION rest s2 e2)) ∧
    rasqal_algebra_graph_pattern_to_algebra (some ⟨some [⟨10⟩, ⟨11⟩], none⟩)
        (rasqal_graph_pattern.mk rasqal_graph_pattern_operator.UNION
          (rasqal_graph_pattern_seq.of_list
            [rasqal_graph_pattern.mk rasqal_graph_pattern_operator.GROUP
              rasqal_graph_pattern_seq.nil 0 0,
             rasqal_graph_pattern.mk rasqal_graph_pattern_operator.BASIC
              rasqal_graph_pattern_seq.nil 0 0]) 0 0) =
      .ok (rasqal_algebra_node_ptr.ptr
        (rasqal_algebra_node.mk (some ⟨some [⟨10⟩, ⟨11⟩], none⟩)
          rasqal_algebra_node_operator.BGP (some [⟨10⟩, ⟨11⟩]) 0 0
          rasqal_algebra_node_ptr.null rasqal_algebra_node_ptr.null none 0 0)) ∧
    rasqal_algebra_graph_pattern_to_algebra (some ⟨some [⟨10⟩, ⟨11⟩], none⟩)
        (rasqal_graph_pattern.mk rasqal_graph_pattern_operator.UNION
          (rasqal_graph_pattern_seq.of_list
            [rasqal_graph_pattern.mk rasqal_graph_pattern_operator.BASIC
              rasqal_graph_pattern_seq.nil 0 0,
             rasqal_graph_pattern.mk rasqal_graph_pattern_operator.GROUP
              rasqal_graph_pattern_seq.nil 0 0]) 0 0) =
      .ok (rasqal_algebra_node_ptr.ptr
        (rasqal_algebra_node.mk (some ⟨some [⟨10⟩, ⟨11⟩], none⟩)
          rasqal_algebra_node_operator.BGP (some [⟨10⟩, ⟨11⟩]) 0 0
          rasqal_algebra_node_ptr.null rasqal_algebra_node_ptr.null none 0 0)) ∧
    rasqal_algebra_graph_pattern_to_algebra (some ⟨some [⟨10⟩, ⟨11⟩], none⟩)
        (rasqal_graph_pattern.mk rasqal_graph_pattern_operator.UNION
          (rasqal_graph_pattern_seq.of_list
            [rasqal_graph_pattern.mk rasqal_graph_pattern_operator.BASIC
              rasqal_graph_pattern_seq.nil 0 0,
             rasqal_graph_pattern.mk rasqal_graph_pattern_operator.GROUP
              rasqal_graph_pattern_seq.nil 0 0,
             rasqal_graph_pattern.mk rasqal_graph_pattern_operator.BASIC
              rasqal_graph_pattern_seq.nil 1 1]) 0 1) =
      .ok (rasqal_algebra_node_ptr.ptr
        (rasqal_algebra_node.mk (some ⟨some [⟨10⟩, ⟨11⟩], none⟩)
          rasqal_algebra_node_operator.BGP (some [⟨10⟩, ⟨11⟩]) 0 0
          rasqal_algebra_node_ptr.null rasqal_algebra_node_ptr.null none 0 0)) := by
  refine ⟨?_, by decide, by decide, by decide⟩
  intro query bad rest s1 e1 s2 e2 hbad
  simp only [rasqal_algebra_graph_pattern_to_algebra, graph_pattern_union_loop, hbad]

/-! ## Rendering of a tree -/

/-- The indent loop writes as many spaces as `indent`, given rounds enough. -/
theorem write_indent_loop_eq (fuel : Nat) (indent : Int) (h : indent.toNat ≤ fuel) :
    write_indent_loop fuel indent = List.replicate indent.toNat 32 := by
  induction fuel generalizing indent with
  | zero =>
    have h0 : indent.toNat = 0 := by omega
    simp [write_indent_loop, h0]
  | succ n ih =>
    unfold write_indent_loop
    by_cases hpos : indent > 0
    · simp only [hpos, if_true, SPACES_LENGTH]
      by_cases hbig : indent > 80
      · simp only [hbig, if_true]
        rw [ih (indent - 80) (by omega), ← List.replicate_add]
        congr 1
        omega
      · simp only [hbig, if_false]
        rw [ih (indent - indent) (by omega), ← List.replicate_add]
        congr 1
        omega
    · have h0 : indent.toNat = 0 := by omega
      simp [hpos, h0]

/-- The text that `rasqal_algebra_write_indent` writes is `indent` spaces. -/
theorem write_indent_eq (indent : Int) :
    rasqal_algebra_write_indent indent = List.replicate indent.toNat 32 :=
  write_indent_loop_eq _ _ (le_refl _)

/-- The closing line of a node is a newline, the indent of the node and the closing
parenthesis. -/
theorem write_node_close_eq (indent indent_delta : Int) :
    write_node_close (indent + indent_delta) indent_delta =
      [10] ++ List.replicate indent.toNat 32 ++ [41] := by
  simp [write_node_close, write_indent_eq]

/-- The body of `rasqal_algebra_algebra_node_write_internal` on a node. -/
theorem write_internal_mk (tw : rasqal_triple → CString) (ew : rasqal_expression → CString)
    (q : Option rasqal_query) (op : rasqal_algebra_node_operator)
    (triples : Option raptor_sequence) (start_column end_column : Int)
    (node1 node2 : rasqal_algebra_node_ptr) (expr : Option rasqal_expression)
    (start length indent : Int) :
    rasqal_algebra_algebra_node_write_internal tw ew
        (rasqal_algebra_node.mk q op triples start_column end_column node1 node2 expr start
          length) indent =
      if op = rasqal_algebra_node_operator.BGP ∧ triples = none then .ok [90]
      else
        match (if op = rasqal_algebra_node_operator.BGP then
            write_triples_loop tw triples end_column
              (indent + (((rasqal_algebra_node_operator_as_string op).length : Int) + 1))
              (end_column - start_column + 1).toNat start_column 0
          else .ok ([], 0)) with
        | .error f => .error f
        | .ok (bgp, arg_count) =>
          match node1 with
          | rasqal_algebra_node_ptr.null =>
            .ok (rasqal_algebra_node_operator_as_string op ++ cstr "(\n" ++
              rasqal_algebra_write_indent (indent + (((rasqal_algebra_node_operator_as_string op).length : Int) + 1)) ++
              bgp ++
              write_node_args ew op expr start length
                (indent + (((rasqal_algebra_node_operator_as_string op).length : Int) + 1)) arg_count ++
              write_node_close (indent + (((rasqal_algebra_node_operator_as_string op).length : Int) + 1)) (((rasqal_algebra_node_operator_as_string op).length : Int) + 1))
          | rasqal_algebra_node_ptr.ptr n1 =>
            match rasqal_algebra_algebra_node_write_internal tw ew n1
                (indent + (((rasqal_algebra_node_operator_as_string op).length : Int) + 1)) with
            | .error f => .error f
            | .ok text1 =>
              match node2 with
              | rasqal_algebra_node_ptr.null =>
                .ok (rasqal_algebra_node_operator_as_string op ++ cstr "(\n" ++
                  rasqal_algebra_write_indent (indent + (((rasqal_algebra_node_operator_as_string op).length : Int) + 1)) ++
                  bgp ++
                  write_separator arg_count
                    (indent + (((rasqal_algebra_node_operator_as_string op).length : Int) + 1)) ++
                  text1 ++
                  write_node_args ew op expr start length
                    (indent + (((rasqal_algebra_node_operator_as_string op).length : Int) + 1)) (arg_count + 1) ++
                  write_node_close (indent + (((rasqal_algebra_node_operator_as_string op).length : Int) + 1)) (((rasqal_algebra_node_operator_as_string op).length : Int) + 1))
              | rasqal_algebra_node_ptr.ptr n2 =>
                match rasqal_algebra_algebra_node_write_internal tw ew n2
                    (indent + (((rasqal_algebra_node_operator_as_string op).length : Int) + 1)) with
                | .error f => .error f
                | .ok text2 =>
                  .ok (rasqal_algebra_node_operator_as_string op ++ cstr "(\n" ++
                    rasqal_algebra_write_indent (indent + (((rasqal_algebra_node_operator_as_string op).length : Int) + 1)) ++
                    bgp ++
                    write_separator arg_count
                      (indent + (((rasqal_algebra_node_operator_as_string op).length : Int) + 1)) ++
                    text1 ++
                    write_separator (arg_count + 1)
                      (indent + (((rasqal_algebra_node_operator_as_string op).length : Int) + 1)) ++
                    text2 ++
                    write_node_args ew op expr start length
                      (indent + (((rasqal_algebra_node_operator_as_string op).length : Int) + 1)) (arg_count + 2) ++
                    write_node_close (indent + (((rasqal_algebra_node_operator_as_string op).length : Int) + 1)) (((rasqal_algebra_node_operator_as_string op).length : Int) + 1)) := by
  cases node1 <;> cases node2 <;>
    (delta rasqal_algebra_algebra_node_write_internal; rfl)

/-- The body of `rasqal_algebra_algebra_node_write_internal` on a node, with the
indents written out as runs of spaces. -/
theorem write_internal_spaces (tw : rasqal_triple → CString) (ew : rasqal_expression → CString)
    (q : Option rasqal_query) (op : rasqal_algebra_node_operator)
    (triples : Option raptor_sequence) (start_column end_column : Int)
    (node1 node2 : rasqal_algebra_node_ptr) (expr : Option rasqal_expression)
    (start length indent : Int) :
    rasqal_algebra_algebra_node_write_internal tw ew
        (rasqal_algebra_node.mk q op triples start_column end_column node1 node2 expr start
          length) indent =
      if op = rasqal_algebra_node_operator.BGP ∧ triples = none then .ok [90]
      else
        match (if op = rasqal_algebra_node_operator.BGP then
            write_triples_loop tw triples end_column
              (indent + (((rasqal_algebra_node_operator_as_string op).length : Int) + 1))
              (end_column - start_column + 1).toNat start_column 0
          else .ok ([], 0)) with
        | .error f => .error f
        | .ok (bgp, arg_count) =>
          match node1 with
          | rasqal_algebra_node_ptr.null =>
            .ok (rasqal_algebra_node_operator_as_string op ++ cstr "(\n" ++
              List.replicate (indent + (((rasqal_algebra_node_operator_as_string op).length : Int) + 1)).toNat 32 ++
              bgp ++
              write_node_args ew op expr start length
                (indent + (((rasqal_algebra_node_operator_as_string op).length : Int) + 1)) arg_count ++
              ([10] ++ List.replicate indent.toNat 32 ++ [41]))
          | rasqal_algebra_node_ptr.ptr n1 =>
            match rasqal_algebra_algebra_node_write_internal tw ew n1
                (indent + (((rasqal_algebra_node_operator_as_string op).length : Int) + 1)) with
            | .error f => .error f
            | .ok text1 =>
              match node2 with
              | rasqal_algebra_node_ptr.null =>
                .ok (rasqal_algebra_node_operator_as_string op ++ cstr "(\n" ++
                  List.replicate (indent + (((rasqal_algebra_node_operator_as_string op).length : Int) + 1)).toNat 32 ++
                  bgp ++
                  write_separator arg_count
                    (indent + (((rasqal_algebra_node_operator_as_string op).length : Int) + 1)) ++
                  text1 ++
                  write_node_args ew op expr start length
                    (indent + (((rasqal_algebra_node_operator_as_string op).length : Int) + 1)) (arg_count + 1) ++
                  ([10] ++ List.replicate indent.toNat 32 ++ [41]))
              | rasqal_algebra_node_ptr.ptr n2 =>
                match rasqal_algebra_algebra_node_write_internal tw ew n2
                    (indent + (((rasqal_algebra_node_operator_as_string op).length : Int) + 1)) with
                | .error f => .error f
                | .ok text2 =>
                  .ok (rasqal_algebra_node_operator_as_string op ++ cstr "(\n" ++
                    List.replicate (indent + (((rasqal_algebra_node_operator_as_string op).length : Int) + 1)).toNat 32 ++
                    bgp ++
                    write_separator arg_count
                      (indent + (((rasqal_algebra_node_operator_as_string op).length : Int) + 1)) ++
                    text1 ++
                    write_separator (arg_count + 1)
                      (indent + (((rasqal_algebra_node_operator_as_string op).length : Int) + 1)) ++
                    text2 ++
                    write_node_args ew op expr start length
                      (indent + (((rasqal_algebra_node_operator_as_string op).length : Int) + 1)) (arg_count + 2) ++
                    ([10] ++ List.replicate indent.toNat 32 ++ [41])) := by
  rw [write_internal_mk, write_node_close_eq, write_indent_eq]

/-- Claim C31: with the texts of triples and expressions given by `tw` and `ew`,
`rasqal_algebra_algebra_node_write` on an empty BGP node gives exactly the byte `Z`,
and on a Filter node with child `c` and expression `e` gives exactly `Filter(`, a
newline, 7 spaces, the text of `c` at indent 7, ` ,`, a newline, 7 spaces, the text
of `e`, a newline and `)`.  In general a child is written at the indent of the parent
plus the length of the label of the parent plus one, and the text of a node that is
not an empty BGP starts with the label, `(`, a newline and that many spaces, and
ends with a newline, as many spaces as the indent of the node itself, and `)`. -/
theorem rasqal_algebra_algebra_node_write_format
    (tw : rasqal_triple → CString) (ew : rasqal_expression → CString) :
    (∀ (q : Option rasqal_query) (start_column end_column : Int)
        (node1 node2 : rasqal_algebra_node_ptr) (expr : Option rasqal_expression)
        (start length : Int),
      rasqal_algebra_algebra_node_write tw ew
          (rasqal_algebra_node.mk q rasqal_algebra_node_operator.BGP none start_column
            end_column node1 node2 expr start length) = .ok (cstr "Z")) ∧
    (∀ (q : Option rasqal_query) (n : rasqal_algebra_node),
      rasqal_new_empty_algebra_node q = rasqal_algebra_node_ptr.ptr n →
        rasqal_algebra_algebra_node_write tw ew n = .ok (cstr "Z")) ∧
    (∀ (q : Option rasqal_query) (triples : Option raptor_sequence)
        (start_column end_column : Int) (c : rasqal_algebra_node) (e : rasqal_expression)
        (start length : Int),
      rasqal_algebra_algebra_node_write tw ew
          (rasqal_algebra_node.mk q rasqal_algebra_node_operator.FILTER triples start_column
            end_column (rasqal_algebra_node_ptr.ptr c) rasqal_algebra_node_ptr.null (some e)
            start length) =
        match rasqal_algebra_algebra_node_write_internal tw ew c 7 with
        | .error f => .error f
        | .ok text =>
          .ok (cstr "Filter(\n" ++ List.replicate 7 32 ++ text ++ cstr " ,\n" ++
            List.replicate 7 32 ++ ew e ++ cstr "\n" ++ cstr ")")) ∧
    (∀ (q : Option rasqal_query) (c : rasqal_algebra_node) (e : rasqal_expression),
      rasqal_new_empty_algebra_node q = rasqal_algebra_node_ptr.ptr c →
        rasqal_algebra_algebra_node_write tw ew
            (rasqal_algebra_node.mk q rasqal_algebra_node_operator.FILTER none 0 0
              (rasqal_algebra_node_ptr.ptr c) rasqal_algebra_node_ptr.null (some e) 0 0) =
          .ok (cstr "Filter(\n       Z ,\n       " ++ ew e ++ cstr "\n)")) ∧
    (∀ (q : Option rasqal_query) (op : rasqal_algebra_node_operator)
        (triples : Option raptor_sequence) (start_column end_column : Int)
        (n1 : rasqal_algebra_node) (node2 : rasqal_algebra_node_ptr)
        (expr : Option rasqal_expression) (start length indent : Int),
      op ≠ rasqal_algebra_node_operator.BGP →
        rasqal_algebra_algebra_node_write_internal tw ew
            (rasqal_algebra_node.mk q op triples start_column end_column
              (rasqal_algebra_node_ptr.ptr n1) node2 expr start length) indent =
          match rasqal_algebra_algebra_node_write_internal tw ew n1
              (indent + ((rasqal_algebra_node_operator_as_string op).length + 1)) with
          | .error f => .error f
          | .ok text1 =>
            match node2 with
            | rasqal_algebra_node_ptr.null =>
              .ok (rasqal_algebra_node_operator_as_string op ++ cstr "(\n" ++
                List.replicate
                  (indent + ((rasqal_algebra_node_operator_as_string op).length + 1)).toNat
                  32 ++
                text1 ++
                write_node_args ew op expr start length
                  (indent + ((rasqal_algebra_node_operator_as_string op).length + 1)) 1 ++
                cstr "\n" ++ List.replicate indent.toNat 32 ++ cstr ")")
            | rasqal_algebra_node_ptr.ptr n2 =>
              match rasqal_algebra_algebra_node_write_internal tw ew n2
                  (indent + ((rasqal_algebra_node_operator_as_string op).length + 1)) with
              | .error f => .error f
              | .ok text2 =>
                .ok (rasqal_algebra_node_operator_as_string op ++ cstr "(\n" ++
                  List.replicate
                    (indent + ((rasqal_algebra_node_operator_as_string op).length + 1)).toNat
                    32 ++
                  text1 ++ cstr " ,\n" ++
                  List.replicate
                    (indent + ((rasqal_algebra_node_operator_as_string op).length + 1)).toNat
                    32 ++
                  text2 ++
                  write_node_args ew op expr start length
                    (indent + ((rasqal_algebra_node_operator_as_string op).length + 1)) 2 ++
                  cstr "\n" ++ List.replicate indent.toNat 32 ++ cstr ")")) ∧
    (∀ (q : Option rasqal_query) (op : rasqal_algebra_node_operator)
        (triples : Option raptor_sequence) (start_column end_column : Int)
        (node1 node2 : rasqal_algebra_node_ptr) (expr : Option rasqal_expression)
        (start length indent : Int) (out : CString),
      ¬(op = rasqal_algebra_node_operator.BGP ∧ triples = none) →
      rasqal_algebra_algebra_node_write_internal tw ew
          (rasqal_algebra_node.mk q op triples start_column end_column node1 node2 expr start
            length) indent = .ok out →
        ∃ body : CString,
          out = rasqal_algebra_node_operator_as_string op ++ cstr "(\n" ++
            List.replicate
              (indent + ((rasqal_algebra_node_operator_as_string op).length + 1)).toNat 32 ++
            body ++ cstr "\n" ++ List.replicate indent.toNat 32 ++ cstr ")") := by
  have hz : ∀ (q : Option rasqal_query) (start_column end_column : Int)
      (node1 node2 : rasqal_algebra_node_ptr) (expr : Option rasqal_expression)
      (start length indent : Int),
      rasqal_algebra_algebra_node_write_internal tw ew
          (rasqal_algebra_node.mk q rasqal_algebra_node_operator.BGP none start_column
            end_column node1 node2 expr start length) indent = .ok (cstr "Z") := by
    intro q sc ec node1 node2 expr start length indent
    rw [write_internal_mk]
    simp
    rfl
  have he : ∀ (q : Option rasqal_query) (n : rasqal_algebra_node),
      rasqal_new_empty_algebra_node q = rasqal_algebra_node_ptr.ptr n →
        n = rasqal_algebra_node.mk q rasqal_algebra_node_operator.BGP none (-1) (-1)
          rasqal_algebra_node_ptr.null rasqal_algebra_node_ptr.null none 0 0 := by
    intro q n h
    cases q with
    | none => simp [rasqal_new_empty_algebra_node] at h
    | some x =>
      simp [rasqal_new_empty_algebra_node, rasqal_new_algebra_node,
        rasqal_algebra_node.set_triples, rasqal_algebra_node.set_start_column,
        rasqal_algebra_node.set_end_column] at h
      exact h.symm
  have hl : ((rasqal_algebra_node_operator_as_string
      rasqal_algebra_node_operator.FILTER).length : Int) = 6 := by decide
  have hs : rasqal_algebra_node_operator_as_string rasqal_algebra_node_operator.FILTER =
      cstr "Filter" := by decide
  have hf : ∀ (q : Option rasqal_query) (triples : Option raptor_sequence)
      (start_column end_column : Int) (c : rasqal_algebra_node) (e : rasqal_expression)
      (start length : Int),
      rasqal_algebra_algebra_node_write tw ew
          (rasqal_algebra_node.mk q rasqal_algebra_node_operator.FILTER triples start_column
            end_column (rasqal_algebra_node_ptr.ptr c) rasqal_algebra_node_ptr.null (some e)
            start length) =
        match rasqal_algebra_algebra_node_write_internal tw ew c 7 with
        | .error f => .error f
        | .ok text =>
          .ok (cstr "Filter(\n" ++ List.replicate 7 32 ++ text ++ cstr " ,\n" ++
            List.replicate 7 32 ++ ew e ++ cstr "\n" ++ cstr ")") := by
    intro q triples sc ec c e start length
    unfold rasqal_algebra_algebra_node_write
    rw [write_internal_spaces]
    simp only [hl]
    simp only [hs]
    have h07 : (0 : Int) + (6 + 1) = 7 := by norm_num
    simp only [h07]
    cases hc : rasqal_algebra_algebra_node_write_internal tw ew c 7 with
    | error f => simp
    | ok text =>
      have h1 : cstr "Filter(\n" = cstr "Filter" ++ cstr "(\n" := by decide
      have h2 : cstr "\n" ++ cstr ")" = [10, 41] := by decide
      simp [write_node_args, write_separator, write_indent_eq, h1, h2]
  refine ⟨?_, ?_, hf, ?_, ?_, ?_⟩
  · intro q sc ec node1 node2 expr start length
    exact hz q sc ec node1 node2 expr start length 0
  · intro q n h
    rw [he q n h]
    exact hz q _ _ _ _ _ _ _ 0
  · intro q c e h
    have h1 : cstr "Filter(\n       Z ,\n       " =
        cstr "Filter(\n" ++ List.replicate 7 32 ++ cstr "Z" ++ cstr " ,\n" ++
          List.replicate 7 32 := by decide
    have h2 : cstr "\n)" = cstr "\n" ++ cstr ")" := by decide
    rw [hf, he q c h, hz, h1, h2]
    simp only [List.append_assoc]
  · intro q op triples sc ec n1 node2 expr start length indent hop
    rw [write_internal_spaces]
    simp only [hop, false_and, if_false]
    cases hc1 : rasqal_algebra_algebra_node_write_internal tw ew n1
        (indent + ((rasqal_algebra_node_operator_as_string op).length + 1)) with
    | error f => rfl
    | ok text1 =>
      cases node2 with
      | null =>
        simp [write_separator]
        rfl
      | ptr n2 =>
        simp only []
        cases hc2 : rasqal_algebra_algebra_node_write_internal tw ew n2
            (indent + ((rasqal_algebra_node_operator_as_string op).length + 1)) with
        | error f => rfl
        | ok text2 =>
          simp [write_separator, write_indent_eq]
          rfl
  · intro q op triples sc ec node1 node2 expr start length indent out hne h
    have hc : cstr "\n" = [10] := by decide
    have hp : cstr ")" = [41] := by decide
    rw [write_internal_spaces, if_neg hne] at h
    rw [hc, hp]
    cases hloop : (if op = rasqal_algebra_node_operator.BGP then
        write_triples_loop tw triples ec
          (indent + ((rasqal_algebra_node_operator_as_string op).length + 1))
          (ec - sc + 1).toNat sc 0
      else .ok ([], 0)) with
    | error f =>
      rw [hloop] at h
      cases h
    | ok p =>
      obtain ⟨bgp, k⟩ := p
      rw [hloop] at h
      cases node1 with
      | null =>
        simp only [Except.ok.injEq] at h
        exact ⟨bgp ++ write_node_args ew op expr start length (indent + ((rasqal_algebra_node_operator_as_string op).length + 1)) k,
          by rw [← h]; simp only [List.append_assoc]⟩
      | ptr n1 =>
        simp only [] at h
        cases hc1 : rasqal_algebra_algebra_node_write_internal tw ew n1
            (indent + ((rasqal_algebra_node_operator_as_string op).length + 1)) with
        | error f =>
          rw [hc1] at h
          cases h
        | ok text1 =>
          rw [hc1] at h
          cases node2 with
          | null =>
            simp only [Except.ok.injEq] at h
            exact ⟨bgp ++ write_separator k (indent + ((rasqal_algebra_node_operator_as_string op).length + 1)) ++ text1 ++
                write_node_args ew op expr start length (indent + ((rasqal_algebra_node_operator_as_string op).length + 1)) (k + 1),
              by rw [← h]; simp only [List.append_assoc]⟩
          | ptr n2 =>
            simp only [] at h
            cases hc2 : rasqal_algebra_algebra_node_write_internal tw ew n2
                (indent + ((rasqal_algebra_node_operator_as_string op).length + 1)) with
            | error f =>
              rw [hc2] at h
              cases h
            | ok text2 =>
              rw [hc2] at h
              simp only [Except.ok.injEq] at h
              exact ⟨bgp ++ write_separator k (indent + ((rasqal_algebra_node_operator_as_string op).length + 1)) ++ text1 ++
                  write_separator (k + 1) (indent + ((rasqal_algebra_node_operator_as_string op).length + 1)) ++ text2 ++
                  write_node_args ew op expr start length (indent + ((rasqal_algebra_node_operator_as_string op).length + 1)) (k + 2),
                by rw [← h]; simp only [List.append_assoc]⟩
